import Mathlib

/-!
PoseEstimation: a shallow embedding of `PoseEstimation.cc`.

The C++ class `PoseEstimation` is embedded as pure functions over an explicit
`State`.  Floating point numbers (`float`, `double`) are idealised as elements
of a linearly ordered field `K`; every definition is generic in `K`, so it can
be evaluated over `ℚ` and reasoned about over `ℝ`.  The mathematical library
functions (`std::sqrt` behind `norm()`, `std::acos`, `std::cos`, `std::sin`)
and the PCL / OpenCV routines are parameters.  `std::vector::at` is the only
source of exceptions in the embedded code; it is modelled by `vec_at`, which
returns `Except.error Err.out_of_range` exactly when the index is out of range.
An exception ends the run: nothing in the file catches it.
-/

set_option linter.unusedSectionVars false

namespace PoseEstimation

/-! ## Basic data -/

/-- The exception thrown by `std::vector::at`. -/
inductive Err where
  | out_of_range
deriving DecidableEq, Repr

/-- The bounds-checked access `v.at(i)` of `std::vector`. -/
def vec_at {α : Type} (v : List α) (i : Nat) : Except Err α :=
  match v.get? i with
  | some a => Except.ok a
  | none => Except.error Err.out_of_range

/-- The three coordinates of `pcl::PointXYZ` / `Eigen::Vector3f` / `cv::Vec3d`. -/
structure PointXYZ (K : Type) where
  x : K
  y : K
  z : K
deriving DecidableEq, Repr

/-- The fields of `pcl::PointNormal` that the program reads or writes. -/
structure PointNormal (K : Type) where
  x : K
  y : K
  z : K
  normal_x : K
  normal_y : K
  normal_z : K
deriving DecidableEq, Repr

/-- The detection box returned by `object_detection_object_.get_detection()`. -/
structure DetectionOutput (K : Type) where
  x : K
  y : K
  width : K
  height : K
  confidence : K
deriving DecidableEq, Repr

/-! ## Constants of `PoseEstimation.h`

The header is not part of the sources.  The index constants are fixed by the
way the `.cc` file uses them together with the specification; the tunable
thresholds are kept as fields of `Config`. -/

/-- Modelled from the spec: header constant `iterations_start_at_`; every loop
of the source that uses it indexes freshly cleared vectors with `.at(i)`, so it
is the first index. -/
def iterations_start_at_ : Nat := 0

/-- Modelled from the spec: header constant
`number_of_object_detection_corner_vectors_`; §4.1 speaks of the four corners
of the box and `detection_point_vec` has four entries. -/
def number_of_object_detection_corner_vectors_ : Nat := 4

/-- Modelled from the spec: header constant `first_` (top-left corner ray,
first marker). -/
def first_ : Nat := 0

/-- Modelled from the spec: header constant `second_` (top-right corner ray). -/
def second_ : Nat := 1

/-- Modelled from the spec: header constant `third_` (bottom-left corner ray). -/
def third_ : Nat := 2

/-- Modelled from the spec: header constant `fourth_` (bottom-right corner ray). -/
def fourth_ : Nat := 3

/-- Modelled from the spec: header constant `x_position_id_`. -/
def x_position_id_ : Nat := 0

/-- Modelled from the spec: header constant `y_position_id_`. -/
def y_position_id_ : Nat := 1

/-- Modelled from the spec: header constant `z_position_id_`. -/
def z_position_id_ : Nat := 2

/-- Modelled from the spec: header constant `end_x_position_id_`; the logged
row reads the reference end point from entries 3, 4, 5. -/
def end_x_position_id_ : Nat := 3

/-- Modelled from the spec: header constant `end_y_position_id_`. -/
def end_y_position_id_ : Nat := 4

/-- Modelled from the spec: header constant `end_z_position_id_`. -/
def end_z_position_id_ : Nat := 5

/-- Modelled from the spec: header constant `plane_normal_x_id_`; a plane model
is stored as `(nx, ny, nz, d)` (Glossary, plane Hessian form). -/
def plane_normal_x_id_ : Nat := 0

/-- Modelled from the spec: header constant `plane_normal_y_id_`. -/
def plane_normal_y_id_ : Nat := 1

/-- Modelled from the spec: header constant `plane_normal_z_id_`. -/
def plane_normal_z_id_ : Nat := 2

/-- Modelled from the spec: header constant `plane_hessian_component_id_`. -/
def plane_hessian_component_id_ : Nat := 3

/-- The tunable constants of `PoseEstimation.h`, as parameters. -/
structure Config (K : Type) where
  zed_k_matrix_ : Nat → K
  detection_vector_scale_ : K
  minimum_object_detection_width_pixels_ : K
  minimum_object_detection_height_pixels_ : K
  minimum_iterations_before_ransac_ : Nat
  minimum_ransac_coefficients_ : Nat
  minimum_points_for_ransac_ : Nat
  minimum_points_for_sampling_surface_normals_ : Nat
  pcl_frustum_filter_near_plane_distance_meter_ : K
  pcl_frustum_filter_far_plane_distance_meter_ : K
  rad_to_deg_ : K
  enable_logger_ : Bool

/-! ## Library routines (PCL, OpenCV, libm) as parameters -/

/-- The frustum handed to `pcl::FrustumCulling`: camera pose, near and far
plane distance, vertical and horizontal field of view (in degrees). -/
structure Frustum (K : Type) where
  camera_pose : Matrix (Fin 4) (Fin 4) K
  near_plane_distance : K
  far_plane_distance : K
  vertical_fov : K
  horizontal_fov : K

/-- The deterministic library functions the program calls. `frustum_inside`
is the point test of `pcl::FrustumCulling` (spec §4.2: the filter keeps exactly
the points that lie inside the frustum). -/
structure Lib (K : Type) where
  sqrt : K → K
  acos : K → K
  cos : K → K
  sin : K → K
  frustum_inside : Frustum K → PointXYZ K → Bool

/-- The result of a successful PCL plane segmentation: the four coefficients
`(a, b, c, d)` and the inlier indices into the input cloud. A failed
segmentation leaves both the coefficients and the inliers empty; it is
represented by `none`. -/
structure PlaneFit (K : Type) where
  a : K
  b : K
  c : K
  d : K
  inliers : List Nat

/-- The `values` vector of `pcl::ModelCoefficients` after `segment`. -/
def PlaneFit.values {K : Type} : Option (PlaneFit K) → List K
  | none => []
  | some p => [p.a, p.b, p.c, p.d]

/-- The `indices` vector of `pcl::PointIndices` after `segment`. -/
def PlaneFit.indices {K : Type} : Option (PlaneFit K) → List Nat
  | none => []
  | some p => p.inliers

/-- What one call of `run_pose_estimation` receives from outside: the sensor
data, the detection box, the marker pose, and the answers of the randomised
PCL estimators called during this frame. -/
structure Frame (K : Type) where
  frame_number : Nat
  pcl_points_ : List (PointXYZ K)
  detection_output_struct_ : DetectionOutput K
  rvecs : List (PointXYZ K)
  tvecs : List (PointXYZ K)
  z_axis_times_rot : List K
  seg_segment : List (PointXYZ K) → Option (PlaneFit K)
  ransac_get_inliers : List (PointXYZ K) → List Nat
  sample_surface_normal : List (PointNormal K) → List (PointNormal K)
  remove_nan_normals : List (PointNormal K) → List (PointNormal K)
  segmentation : List (PointNormal K) → Option (PlaneFit K)
  second_segmentation : List (PointNormal K) → Option (PlaneFit K)

/-! ## Program state -/

/-- Ghost events: which stages a call of `run_pose_estimation` executed and on
which clouds. They are not program state; the trace is emptied at the start of
every call. -/
inductive Event (K : Type) where
  | calculate_ransac
  | background_fit (cloud : List (PointNormal K)) (inliers : List Nat)
  | face_fit (cloud : List (PointNormal K))
  | calculate_pose_vector

/-- One line of `data_out.csv`: the frame number followed by the remaining
comma-separated values. -/
structure Row (K : Type) where
  frame : Nat
  values : List K
deriving DecidableEq, Repr

/-- The member variables of `PoseEstimation` that the embedded functions read
or write, the log file, and two ghost fields: `frustum_`, the configuration the
last `edit_pointcloud` call gave to its local `frustum_filter`, and `trace`. -/
structure State (K : Type) where
  center_frustum_ : PointXYZ K
  detection_from_image_center_ : List (K × K)
  square_frustum_detection_points_ : List (PointXYZ K)
  fov_h_rad_ : K
  fov_v_rad_ : K
  frustum_ : Option (Frustum K)
  cloud_pallet_ : List (PointXYZ K)
  frustum_filter_inliers_ : List Nat
  wait_with_ransac_for_ : Nat
  first_ransac_model_coefficients_ : List K
  ransac_model_coefficients_ : List K
  second_ransac_model_coefficients_ : List K
  final_ : List (PointXYZ K)
  output_cloud_with_normals_ : List (PointNormal K)
  final_with_normals_ : List (PointNormal K)
  extracted_cloud_with_normals_ : List (PointNormal K)
  inliers_ : List Nat
  intersect_point_ : List K
  plane_vector_intersect_ : PointXYZ K
  plane_frustum_vector_intersect_ : PointXYZ K
  pose_vector_end_point_ : PointXYZ K
  rvecs_ : List (PointXYZ K)
  tvecs_ : List (PointXYZ K)
  ground_truth_vector_ : List K
  converted_ground_truth_vector_ : List K
  log : List (Row K)
  trace : List (Event K)

section Code

variable {K : Type} [LinearOrderedField K]

/-! ## `calculate_3d_crop` -/

/-- The dot product `Eigen::Vector3f::dot`. -/
def dot3 (a b : PointXYZ K) : K := a.x * b.x + a.y * b.y + a.z * b.z

/-- The Euclidean norm `Eigen::Vector3f::norm`. -/
def norm3 (L : Lib K) (a : PointXYZ K) : K := L.sqrt (a.x * a.x + a.y * a.y + a.z * a.z)

/-- The four corners of the detection box, `detection_point_vec` (lines 489-503). -/
def detection_point_vec (d : DetectionOutput K) : List (K × K) :=
  [(d.x, d.y), (d.x + d.width, d.y), (d.x, d.y + d.height),
   (d.x + d.width, d.y + d.height)]

/-- One `emplace_back` into `detection_from_image_center_` (line 508):
`(corner - image_center) / zed_k_matrix_[0]`. -/
def from_image_center (cfg : Config K) (p : K × K) : K × K :=
  ((p.1 - cfg.zed_k_matrix_ 2) / cfg.zed_k_matrix_ 0,
   (p.2 - cfg.zed_k_matrix_ 3) / cfg.zed_k_matrix_ 0)

/-- One `emplace_back` into `square_frustum_detection_points_` (lines 510-513). -/
def frustum_point (cfg : Config K) (q : K × K) : PointXYZ K :=
  ⟨q.1 * cfg.detection_vector_scale_, q.2 * cfg.detection_vector_scale_,
   cfg.detection_vector_scale_⟩

/-- The value of `square_frustum_detection_points_` after the loop of lines 505-514. -/
def corner_rays (cfg : Config K) (d : DetectionOutput K) : List (PointXYZ K) :=
  ((detection_point_vec d).map (from_image_center cfg)).map (frustum_point cfg)

/-- The loop of lines 543-547: the corner rays are added onto the member
`center_frustum_`, which the function does not reset. -/
def accumulate_center (c : PointXYZ K) (pts : List (PointXYZ K)) : PointXYZ K :=
  pts.foldl (fun acc p => ⟨acc.x + p.x, acc.y + p.y, acc.z + p.z⟩) c

/-- The angle `std::acos(dot / (len_a * len_b))` of lines 558-566. -/
def angle_between (L : Lib K) (a b : PointXYZ K) : K :=
  L.acos (dot3 a b / (norm3 L a * norm3 L b))

/-- Embedding of `PoseEstimation::calculate_3d_crop` (lines 482-581). The loops run over the
indices `0 .. 3`; `vector_0`, `vector_1`, `vector_2` are the entries `first_`,
`second_`, `third_` of `square_frustum_detection_points_`. -/
def calculate_3d_crop (L : Lib K) (cfg : Config K) (d : DetectionOutput K)
    (s : State K) : State K :=
  let vector_0 := frustum_point cfg (from_image_center cfg (d.x, d.y))
  let vector_1 := frustum_point cfg (from_image_center cfg (d.x + d.width, d.y))
  let vector_2 := frustum_point cfg (from_image_center cfg (d.x, d.y + d.height))
  let sum := accumulate_center s.center_frustum_ (corner_rays cfg d)
  { s with
    detection_from_image_center_ := (detection_point_vec d).map (from_image_center cfg)
    square_frustum_detection_points_ := corner_rays cfg d
    center_frustum_ :=
      ⟨sum.x / (number_of_object_detection_corner_vectors_ : K),
       sum.y / (number_of_object_detection_corner_vectors_ : K),
       sum.z / (number_of_object_detection_corner_vectors_ : K)⟩
    fov_h_rad_ := angle_between L vector_0 vector_1
    fov_v_rad_ := angle_between L vector_0 vector_2 }

/-! ## `edit_pointcloud` -/

/-- The dot product `Eigen::Vector2d::dot`. -/
def dot2 (a b : K × K) : K := a.1 * b.1 + a.2 * b.2

/-- The Euclidean norm `Eigen::Vector2d::norm`. -/
def norm2 (L : Lib K) (a : K × K) : K := L.sqrt (a.1 * a.1 + a.2 * a.2)

/-- The vector `z_inverse << 1, 0` (line 241). -/
def z_inverse : K × K := (1, 0)

/-- The angle of lines 246-249, before the sign correction:
`acos(z_inverse.dot(v) / (z_inverse.norm() * v.norm()))`. -/
def angle_to_z_inverse (L : Lib K) (v : K × K) : K :=
  L.acos (dot2 z_inverse v / (norm2 L z_inverse * norm2 L v))

/-- The vector `center_frustum_zy` (line 244). -/
def center_frustum_zy (c : PointXYZ K) : K × K := (c.z, c.y)

/-- The vector `center_frustum_zx` (line 245). -/
def center_frustum_zx (c : PointXYZ K) : K × K := (c.z, c.x)

/-- The value of `angle_zy` after the sign correction of lines 274-277. -/
def angle_zy (L : Lib K) (c : PointXYZ K) : K :=
  if (center_frustum_zy c).2 < 0 then angle_to_z_inverse L (center_frustum_zy c) * -1
  else angle_to_z_inverse L (center_frustum_zy c)

/-- The value of `angle_zx` after the sign correction of lines 270-273. -/
def angle_zx (L : Lib K) (c : PointXYZ K) : K :=
  if (center_frustum_zx c).2 > 0 then angle_to_z_inverse L (center_frustum_zx c) * -1
  else angle_to_z_inverse L (center_frustum_zx c)

/-- The matrix `camera_pose` (lines 235-238). -/
def camera_pose : Matrix (Fin 4) (Fin 4) K :=
  !![0, 0, -1, 0; 0, 1, 0, 0; 1, 0, 0, 0; 0, 0, 0, 1]

/-- The matrix `rotation_red_pos_ccw` (lines 282-286). -/
def rotation_red_pos_ccw (L : Lib K) (rot_red_rad : K) : Matrix (Fin 4) (Fin 4) K :=
  !![L.cos rot_red_rad, -L.sin rot_red_rad, 0, 0;
     L.sin rot_red_rad, L.cos rot_red_rad, 0, 0;
     0, 0, 1, 0;
     0, 0, 0, 1]

/-- The matrix `rotation_green_pos_cw` (lines 288-292). -/
def rotation_green_pos_cw (L : Lib K) (rot_green_rad : K) : Matrix (Fin 4) (Fin 4) K :=
  !![L.cos rot_green_rad, 0, -L.sin rot_green_rad, 0;
     0, 1, 0, 0;
     L.sin rot_green_rad, 0, L.cos rot_green_rad, 0;
     0, 0, 0, 1]

/-- The configuration of `frustum_filter` (lines 295-300). -/
def frustum_of (L : Lib K) (cfg : Config K) (s : State K) : Frustum K :=
  { camera_pose :=
      camera_pose * rotation_red_pos_ccw L (angle_zy L s.center_frustum_)
        * rotation_green_pos_cw L (angle_zx L s.center_frustum_)
    near_plane_distance := cfg.pcl_frustum_filter_near_plane_distance_meter_
    far_plane_distance := cfg.pcl_frustum_filter_far_plane_distance_meter_
    vertical_fov := s.fov_v_rad_ * cfg.rad_to_deg_
    horizontal_fov := s.fov_h_rad_ * cfg.rad_to_deg_ }

/-- Modelled from the spec: `frustum_filter.filter(cloud)` of
`pcl::FrustumCulling`, library code outside the sources; by §4.2 it keeps
exactly the points that lie inside the frustum. The points of the input cloud
that pass the point test of the frustum, in input order. -/
def frustum_culling (L : Lib K) (F : Frustum K) (cloud : List (PointXYZ K)) :
    List (PointXYZ K) :=
  cloud.filter (L.frustum_inside F)

/-- Modelled from the spec: `frustum_filter.filter(indices)` of
`pcl::FrustumCulling` (§4.2, the parallel inlier index list): the indices of
the points that pass. -/
def frustum_culling_indices (L : Lib K) (F : Frustum K) (cloud : List (PointXYZ K)) :
    List Nat :=
  (cloud.enum.filter (fun ip => L.frustum_inside F ip.2)).map Prod.fst

/-- Embedding of `PoseEstimation::edit_pointcloud` (lines 222-311). -/
def edit_pointcloud (L : Lib K) (cfg : Config K) (pcl_points_ : List (PointXYZ K))
    (s : State K) : State K :=
  { s with
    frustum_ := some (frustum_of L cfg s)
    cloud_pallet_ := frustum_culling L (frustum_of L cfg s) pcl_points_
    frustum_filter_inliers_ := frustum_culling_indices L (frustum_of L cfg s) pcl_points_ }

/-! ## `calculate_ransac` -/

/-- The copy `pcl::copyPointCloud(cloud, indices, out)`. -/
def copy_point_cloud (cloud : List (PointXYZ K)) (indices : List Nat) : List (PointXYZ K) :=
  indices.filterMap cloud.get?

/-- Modelled from the spec: `pcl::ExtractIndices` with `setNegative(true)`
(§4.3 stage 5, negative extraction): the points whose index is not among
`indices`, in cloud order. -/
def extract_negative (cloud : List (PointNormal K)) (indices : List Nat) :
    List (PointNormal K) :=
  (cloud.enum.filter (fun ip => !indices.contains ip.1)).map Prod.snd

/-- The copy of lines 637-643: coordinates are copied, the normal stays at its
default value. -/
def to_point_normal (p : PointXYZ K) : PointNormal K :=
  ⟨p.x, p.y, p.z, 0, 0, 0⟩

/-- The keep-rule of lines 672-679 (`0.45` and `0.2` as exact fractions). -/
def keep_rule (p : PointNormal K) : Bool :=
  decide (|p.normal_y| < 45 / 100) && decide (|p.x| > 2 / 10) && decide (|p.y| > 2 / 10)
    && decide (|p.z| > 2 / 10)

/-- Lines 601-623: the coarse plane fit and the alternative robust fit. -/
def ransac_coarse (cfg : Config K) (f : Frame K) (s : State K) : State K :=
  if s.cloud_pallet_.length > cfg.minimum_points_for_ransac_ then
    { s with
      first_ransac_model_coefficients_ := PlaneFit.values (f.seg_segment s.cloud_pallet_)
      final_ := copy_point_cloud s.cloud_pallet_ (f.ransac_get_inliers s.cloud_pallet_) }
  else s

/-- Lines 652-685: sampling of surface normals, removal of NaN normals, and the
keep-rule, whose result goes to `final_with_normals_`. -/
def ransac_sampling (cfg : Config K) (f : Frame K)
    (input_cloud_with_normals : List (PointNormal K)) (s : State K) : State K :=
  if input_cloud_with_normals.length > cfg.minimum_points_for_sampling_surface_normals_ then
    { s with
      output_cloud_with_normals_ :=
        f.remove_nan_normals (f.sample_surface_normal input_cloud_with_normals)
      final_with_normals_ :=
        (f.remove_nan_normals (f.sample_surface_normal input_cloud_with_normals)).filter
          keep_rule }
  else s

/-- Lines 688-716: the first normal-constrained fit. It is guarded by the size
of `input_cloud_with_normals` and runs on the member `output_cloud_with_normals_`.
Returns the new state and the local `inliers`. -/
def ransac_background (cfg : Config K) (f : Frame K)
    (input_cloud_with_normals : List (PointNormal K)) (s : State K) : State K × List Nat :=
  if input_cloud_with_normals.length > cfg.minimum_points_for_ransac_ then
    ({ s with
       ransac_model_coefficients_ :=
         PlaneFit.values (f.segmentation s.output_cloud_with_normals_)
       trace := s.trace ++ [Event.background_fit s.output_cloud_with_normals_
         (PlaneFit.indices (f.segmentation s.output_cloud_with_normals_))] },
     PlaneFit.indices (f.segmentation s.output_cloud_with_normals_))
  else (s, [])

/-- Lines 720-732: negative extraction of `inliers` from
`output_cloud_with_normals_`. -/
def ransac_extract (cfg : Config K) (inliers : List Nat) (s : State K) : State K :=
  if s.output_cloud_with_normals_.length > cfg.minimum_points_for_ransac_ then
    { s with
      extracted_cloud_with_normals_ := extract_negative s.output_cloud_with_normals_ inliers }
  else s

/-- Lines 735-764: the second normal-constrained fit, on the member
`extracted_cloud_with_normals_`. -/
def ransac_face (cfg : Config K) (f : Frame K) (s : State K) : State K :=
  if s.extracted_cloud_with_normals_.length > cfg.minimum_points_for_ransac_ then
    { s with
      second_ransac_model_coefficients_ :=
        PlaneFit.values (f.second_segmentation s.extracted_cloud_with_normals_)
      trace := s.trace ++ [Event.face_fit s.extracted_cloud_with_normals_] }
  else s

/-- Entry of `calculate_ransac`: only the ghost trace records the call. -/
def ransac_enter (s : State K) : State K :=
  { s with trace := s.trace ++ [Event.calculate_ransac] }

/-- The local cloud `input_cloud_with_normals` of lines 627-643, a copy of
`cloud_pallet_`. -/
def input_cloud_with_normals (s : State K) : List (PointNormal K) :=
  s.cloud_pallet_.map to_point_normal

/-- The state of `calculate_ransac` after line 623. -/
def after_coarse (cfg : Config K) (f : Frame K) (s : State K) : State K :=
  ransac_coarse cfg f (ransac_enter s)

/-- The state of `calculate_ransac` after line 685. -/
def after_sampling (cfg : Config K) (f : Frame K) (s : State K) : State K :=
  ransac_sampling cfg f (input_cloud_with_normals (after_coarse cfg f s)) (after_coarse cfg f s)

/-- The state of `calculate_ransac` after line 716, with the local `inliers`. -/
def after_background (cfg : Config K) (f : Frame K) (s : State K) : State K × List Nat :=
  ransac_background cfg f (input_cloud_with_normals (after_coarse cfg f s))
    (after_sampling cfg f s)

/-- The state of `calculate_ransac` after line 732. -/
def after_extract (cfg : Config K) (f : Frame K) (s : State K) : State K :=
  ransac_extract cfg (after_background cfg f s).2 (after_background cfg f s).1

/-- The state of `calculate_ransac` after line 764. -/
def after_face (cfg : Config K) (f : Frame K) (s : State K) : State K :=
  ransac_face cfg f (after_extract cfg f s)

/-- Embedding of `PoseEstimation::calculate_ransac` (lines 583-766): the stages in source
order, then `inliers_ = inliers` (line 765). -/
def calculate_ransac (cfg : Config K) (f : Frame K) (s : State K) : State K :=
  { after_face cfg f s with inliers_ := (after_background cfg f s).2 }

/-! ## `calculate_pose_vector` -/

/-- The vector `plane_orgin` of lines 789-798: `-normal * hessian`, componentwise. -/
def plane_orgin (nx ny nz h : K) : PointXYZ K := ⟨-nx * h, -ny * h, -nz * h⟩

/-- The scalar `distance_scalar` of lines 808-809. -/
def distance_scalar (plane_orgin plane_normal_vector center_frustum_vector : PointXYZ K) : K :=
  dot3 plane_orgin plane_normal_vector / dot3 center_frustum_vector plane_normal_vector

/-- An `Eigen::Vector3f` times a scalar (line 815). -/
def scale3 (v : PointXYZ K) (t : K) : PointXYZ K := ⟨v.x * t, v.y * t, v.z * t⟩

/-- The member writes of lines 789-829. -/
def store_intersection (s : State K) (plane_orgin plane_vector_intersect : PointXYZ K) :
    State K :=
  { s with
    trace := s.trace ++ [Event.calculate_pose_vector]
    plane_vector_intersect_ := plane_orgin
    intersect_point_ :=
      [plane_vector_intersect.x, plane_vector_intersect.y, plane_vector_intersect.z, 1 / 10]
    plane_frustum_vector_intersect_ := plane_vector_intersect }

/-- The member writes of lines 833-838. -/
def store_end_point (s : State K) (plane_vector_intersect : PointXYZ K)
    (second_nx first_nz second_nz : K) : State K :=
  { s with
    pose_vector_end_point_ :=
      ⟨plane_vector_intersect.x + second_nx, plane_vector_intersect.y + -1 * first_nz,
       plane_vector_intersect.z + second_nz⟩ }

/-- Embedding of `PoseEstimation::calculate_pose_vector` (lines 781-841). Every `.at(i)` of
the source is a `vec_at`; the empty `else if` of line 839 is evaluated only
when the first condition is false. -/
def calculate_pose_vector (s : State K) : Except Err (State K) := do
  let nx ← vec_at s.ransac_model_coefficients_ plane_normal_x_id_
  let h ← vec_at s.ransac_model_coefficients_ plane_hessian_component_id_
  let ny ← vec_at s.ransac_model_coefficients_ plane_normal_y_id_
  let nz ← vec_at s.ransac_model_coefficients_ plane_normal_z_id_
  let px ← vec_at s.ransac_model_coefficients_ x_position_id_
  let py ← vec_at s.ransac_model_coefficients_ y_position_id_
  let pz ← vec_at s.ransac_model_coefficients_ z_position_id_
  let plane_vector_intersect :=
    scale3 s.center_frustum_
      (distance_scalar (plane_orgin nx ny nz h) ⟨px, py, pz⟩ s.center_frustum_)
  let s1 := store_intersection s (plane_orgin nx ny nz h) plane_vector_intersect
  let second_nz ← vec_at s.second_ransac_model_coefficients_ plane_normal_z_id_
  if second_nz > 0 then
    let second_nx ← vec_at s.second_ransac_model_coefficients_ plane_normal_x_id_
    let first_nz ← vec_at s.first_ransac_model_coefficients_ plane_normal_z_id_
    let second_nz2 ← vec_at s.second_ransac_model_coefficients_ plane_normal_z_id_
    pure (store_end_point s1 plane_vector_intersect second_nx first_nz second_nz2)
  else
    let _ ← vec_at s.ransac_model_coefficients_ plane_normal_z_id_
    pure s1

/-! ## Marker reference: `calculate_pose` and `view_pointcloud` -/

/-- The state change of `PoseEstimation::calculate_pose` (lines 126-183): when
the marker pose estimation returned something, `ground_truth_vector_`,
`rvecs_` and `tvecs_` are replaced; otherwise they keep their old values. -/
def calculate_pose (f : Frame K) (s : State K) : State K :=
  if !f.rvecs.isEmpty && !f.tvecs.isEmpty then
    { s with ground_truth_vector_ := f.z_axis_times_rot, rvecs_ := f.rvecs, tvecs_ := f.tvecs }
  else s

/-- The assignment `v.at(i) = a`. -/
def vec_set (v : List K) (i : Nat) (a : K) : Except Err (List K) :=
  if i < v.length then Except.ok (v.set i a) else Except.error Err.out_of_range

/-- The state change of `PoseEstimation::view_pointcloud` (lines 313-481): the
update of `converted_ground_truth_vector_` (lines 359-383). Everything else in
the function draws into the viewer. -/
def view_pointcloud (s : State K) : Except Err (State K) :=
  if !s.rvecs_.isEmpty && !s.tvecs_.isEmpty then do
    let t ← vec_at s.tvecs_ first_
    let gx ← vec_at s.ground_truth_vector_ x_position_id_
    let gy ← vec_at s.ground_truth_vector_ y_position_id_
    let gz ← vec_at s.ground_truth_vector_ z_position_id_
    let c0 ← vec_set s.converted_ground_truth_vector_ x_position_id_ t.x
    let c1 ← vec_set c0 y_position_id_ t.y
    let c2 ← vec_set c1 z_position_id_ t.z
    let c3 ← vec_set c2 end_x_position_id_ (-gx)
    let c4 ← vec_set c3 end_y_position_id_ gy
    let c5 ← vec_set c4 end_z_position_id_ (-gz)
    pure { s with converted_ground_truth_vector_ := c5 }
  else pure s

/-! ## `log_data` -/

/-- The condition of line 844 under which a full row is written. -/
def full_row_condition (cfg : Config K) (s : State K) : Bool :=
  cfg.enable_logger_ && decide (s.ransac_model_coefficients_.length > 1)
    && decide (s.tvecs_.length ≥ 1) && decide (s.rvecs_.length ≥ 1)

/-- Embedding of `PoseEstimation::log_data` (lines 843-871): one row is appended to the log
file. -/
def log_data (cfg : Config K) (frame : Nat) (s : State K) : Except Err (State K) :=
  if full_row_condition cfg s then do
    let dx ← vec_at s.second_ransac_model_coefficients_ plane_normal_x_id_
    let dy ← vec_at s.first_ransac_model_coefficients_ plane_normal_z_id_
    let dz ← vec_at s.second_ransac_model_coefficients_ plane_normal_z_id_
    let g0 ← vec_at s.converted_ground_truth_vector_ 0
    let g1 ← vec_at s.converted_ground_truth_vector_ 1
    let g2 ← vec_at s.converted_ground_truth_vector_ 2
    let g3 ← vec_at s.converted_ground_truth_vector_ 3
    let g4 ← vec_at s.converted_ground_truth_vector_ 4
    let g5 ← vec_at s.converted_ground_truth_vector_ 5
    pure { s with
      log := s.log ++
        [⟨frame,
          [s.plane_frustum_vector_intersect_.x, s.plane_frustum_vector_intersect_.y,
           s.plane_frustum_vector_intersect_.z, dx, -1 * dy, dz, g0, g1, g2, g3, g4, g5]⟩] }
  else
    pure { s with log := s.log ++ [⟨frame, []⟩] }

/-! ## `run_pose_estimation` -/

/-- Gate A, the condition of lines 31-33. -/
def gate_a (cfg : Config K) (d : DetectionOutput K) (s : State K) : Bool :=
  decide (d.width > cfg.minimum_object_detection_width_pixels_)
    && decide (d.height > cfg.minimum_object_detection_height_pixels_)
    && decide (s.wait_with_ransac_for_ > cfg.minimum_iterations_before_ransac_)

/-- Gate B, the condition of line 36. -/
def gate_b (cfg : Config K) (s : State K) : Bool :=
  decide (s.ransac_model_coefficients_.length > cfg.minimum_ransac_coefficients_)

/-- Lines 24-25 of `run_pose_estimation`: the frustum is built and the cloud
is culled. -/
def frustum_stage (L : Lib K) (cfg : Config K) (s : State K) (f : Frame K) : State K :=
  edit_pointcloud L cfg f.pcl_points_
    (calculate_3d_crop L cfg f.detection_output_struct_ { s with trace := [] })

/-- Lines 24-35 of `run_pose_estimation`: the frustum stage followed by the
cascade behind Gate A. -/
def cascade_stage (L : Lib K) (cfg : Config K) (s : State K) (f : Frame K) : State K :=
  if gate_a cfg f.detection_output_struct_ (frustum_stage L cfg s f) then
    calculate_ransac cfg f (frustum_stage L cfg s f)
  else frustum_stage L cfg s f

/-- Lines 36-38 of `run_pose_estimation`: `calculate_pose_vector` behind Gate B. -/
def pose_stage (L : Lib K) (cfg : Config K) (s : State K) (f : Frame K) :
    Except Err (State K) :=
  if gate_b cfg (cascade_stage L cfg s f) then calculate_pose_vector (cascade_stage L cfg s f)
  else pure (cascade_stage L cfg s f)

/-- Lines 39-62 of `run_pose_estimation`: the counter is incremented, the
viewer and the marker reference are updated, the row is logged and
`ransac_model_coefficients_` is cleared. -/
def finish_frame (cfg : Config K) (f : Frame K) (s4 : State K) : Except Err (State K) := do
  let s6 ← view_pointcloud { s4 with wait_with_ransac_for_ := s4.wait_with_ransac_for_ + 1 }
  let s8 ← log_data cfg f.frame_number (calculate_pose f s6)
  pure { s8 with ransac_model_coefficients_ := [] }

/-- Embedding of `PoseEstimation::run_pose_estimation` (lines 6-63), one frame. -/
def run_pose_estimation (L : Lib K) (cfg : Config K) (s : State K) (f : Frame K) :
    Except Err (State K) := do
  let s4 ← pose_stage L cfg s f
  finish_frame cfg f s4

/-- The perception loop: `run_pose_estimation` once per frame, until the
frames are exhausted or an exception is thrown. -/
def run_frames (L : Lib K) (cfg : Config K) : State K → List (Frame K) → Except Err (State K)
  | s, [] => pure s
  | s, f :: fs => do
    let s1 ← run_pose_estimation L cfg s f
    run_frames L cfg s1 fs

/-- Modelled from the spec: the object state before the first frame (the
header with the member initialisers is not part of the sources): counters at
zero, vectors and clouds empty, points at the origin, and six zero entries in
`converted_ground_truth_vector_`, which `view_pointcloud` and `log_data` index
up to 5. -/
def initial_state : State K :=
  { center_frustum_ := ⟨0, 0, 0⟩
    detection_from_image_center_ := []
    square_frustum_detection_points_ := []
    fov_h_rad_ := 0
    fov_v_rad_ := 0
    frustum_ := none
    cloud_pallet_ := []
    frustum_filter_inliers_ := []
    wait_with_ransac_for_ := 0
    first_ransac_model_coefficients_ := []
    ransac_model_coefficients_ := []
    second_ransac_model_coefficients_ := []
    final_ := []
    output_cloud_with_normals_ := []
    final_with_normals_ := []
    extracted_cloud_with_normals_ := []
    inliers_ := []
    intersect_point_ := []
    plane_vector_intersect_ := ⟨0, 0, 0⟩
    plane_frustum_vector_intersect_ := ⟨0, 0, 0⟩
    pose_vector_end_point_ := ⟨0, 0, 0⟩
    rvecs_ := []
    tvecs_ := []
    ground_truth_vector_ := []
    converted_ground_truth_vector_ := [0, 0, 0, 0, 0, 0]
    log := []
    trace := [] }

/-! ## Specification predicates -/

/-- The fields that `calculate_ransac` never writes agree in `s` and `t`. -/
def cascade_frame (s t : State K) : Prop :=
  t.wait_with_ransac_for_ = s.wait_with_ransac_for_ ∧ t.log = s.log ∧ t.rvecs_ = s.rvecs_ ∧
  t.tvecs_ = s.tvecs_ ∧ t.ground_truth_vector_ = s.ground_truth_vector_ ∧
  t.converted_ground_truth_vector_ = s.converted_ground_truth_vector_ ∧
  t.pose_vector_end_point_ = s.pose_vector_end_point_ ∧
  t.plane_frustum_vector_intersect_ = s.plane_frustum_vector_intersect_ ∧
  t.center_frustum_ = s.center_frustum_ ∧ t.cloud_pallet_ = s.cloud_pallet_

/-- The fields that lines 39-62 of `run_pose_estimation` leave alone agree in
`s` and `t`. -/
def finish_keeps (s t : State K) : Prop :=
  t.trace = s.trace ∧
  t.first_ransac_model_coefficients_ = s.first_ransac_model_coefficients_ ∧
  t.second_ransac_model_coefficients_ = s.second_ransac_model_coefficients_ ∧
  t.pose_vector_end_point_ = s.pose_vector_end_point_ ∧
  t.plane_frustum_vector_intersect_ = s.plane_frustum_vector_intersect_ ∧
  t.center_frustum_ = s.center_frustum_ ∧
  t.output_cloud_with_normals_ = s.output_cloud_with_normals_ ∧
  t.extracted_cloud_with_normals_ = s.extracted_cloud_with_normals_

/-- What holds of the object state between two calls of `run_pose_estimation`:
the background coefficients are cleared, `converted_ground_truth_vector_` has
its six entries, and a stored marker pose comes with its three-entry
`ground_truth_vector_`. -/
def frame_start_invariant (s : State K) : Prop :=
  s.ransac_model_coefficients_ = [] ∧ s.converted_ground_truth_vector_.length = 6 ∧
  (s.rvecs_ ≠ [] → s.tvecs_ ≠ [] → 3 ≤ s.ground_truth_vector_.length)

/-- The marker pose of a frame is well formed: `z_axis * Rot` has three entries
whenever a marker was found. -/
def frame_well_formed (f : Frame K) : Prop :=
  f.rvecs ≠ [] → f.tvecs ≠ [] → 3 ≤ f.z_axis_times_rot.length

/-- The detection box exceeds the minimum pixel width and height (the first
two conjuncts of Gate A). -/
def box_large (cfg : Config K) (d : DetectionOutput K) : Bool :=
  decide (d.width > cfg.minimum_object_detection_width_pixels_)
    && decide (d.height > cfg.minimum_object_detection_height_pixels_)

/-- The number of consecutive frames, up to and including the last one of
`frames`, whose detection box exceeds the minimum size. -/
def consecutive_large (cfg : Config K) (frames : List (Frame K)) : Nat :=
  (frames.reverse.takeWhile fun f => box_large cfg f.detection_output_struct_).length

/-- The upper-left 3×3 block of a 4×4 pose matrix. -/
def upper_left_block (P : Matrix (Fin 4) (Fin 4) K) : Matrix (Fin 3) (Fin 3) K :=
  !![P 0 0, P 0 1, P 0 2;
     P 1 0, P 1 1, P 1 2;
     P 2 0, P 2 1, P 2 2]

/-- A 4×4 pose matrix is a proper rigid rotation: its upper-left 3×3 block `M`
satisfies `Mᵀ M = I` and `det M = 1`, its translation column is zero and its
last row is `(0, 0, 0, 1)`. -/
def proper_rigid_rotation (P : Matrix (Fin 4) (Fin 4) K) : Prop :=
  (upper_left_block P).transpose * upper_left_block P = 1 ∧
  (upper_left_block P).det = 1 ∧
  (P 0 3 = 0 ∧ P 1 3 = 0 ∧ P 2 3 = 0) ∧
  (P 3 0 = 0 ∧ P 3 1 = 0 ∧ P 3 2 = 0 ∧ P 3 3 = 1)

/-! ## Concrete inputs used by the witnesses and counterexamples -/

/-- The arithmetic mean of a list of ray endpoints (spec §4.1 step 3). -/
def arithmetic_mean (pts : List (PointXYZ K)) : PointXYZ K :=
  ⟨(pts.map PointXYZ.x).sum / (pts.length : K), (pts.map PointXYZ.y).sum / (pts.length : K),
   (pts.map PointXYZ.z).sum / (pts.length : K)⟩

/-- A library with the given mathematical functions and a frustum test that
accepts every point it is asked about. -/
def lib_with (sqrt acos cos sin : K → K) : Lib K :=
  { sqrt := sqrt, acos := acos, cos := cos, sin := sin, frustum_inside := fun _ _ => true }

/-- A configuration: intrinsics `(fx, fy, cx, cy) = (100, 100, 320, 240)`,
detection vector scale 1, boxes must exceed 50 pixels, more than one frame of
warm-up, more than two coefficients, more than two points per stage. -/
def example_config : Config K :=
  { zed_k_matrix_ := fun i => if i < 2 then 100 else if i = 2 then 320 else 240
    detection_vector_scale_ := 1
    minimum_object_detection_width_pixels_ := 50
    minimum_object_detection_height_pixels_ := 50
    minimum_iterations_before_ransac_ := 1
    minimum_ransac_coefficients_ := 2
    minimum_points_for_ransac_ := 2
    minimum_points_for_sampling_surface_normals_ := 2
    pcl_frustum_filter_near_plane_distance_meter_ := 1
    pcl_frustum_filter_far_plane_distance_meter_ := 10
    rad_to_deg_ := 57
    enable_logger_ := true }

/-- A 200 x 200 box whose center is the principal point `(320, 240)`. -/
def centered_box : DetectionOutput K := ⟨220, 140, 200, 200, 1⟩

/-- A 200 x 200 box whose center `(520, 240)` lies right of the principal point. -/
def right_box : DetectionOutput K := ⟨420, 140, 200, 200, 1⟩

/-- A 10 x 10 box, below the size threshold of `example_config`. -/
def small_box : DetectionOutput K := ⟨315, 235, 10, 10, 1⟩

/-- A frame without points and without marker, with a detection below the size
threshold; no estimator finds anything. -/
def idle_frame (n : Nat) : Frame K :=
  { frame_number := n
    pcl_points_ := []
    detection_output_struct_ := small_box
    rvecs := []
    tvecs := []
    z_axis_times_rot := []
    seg_segment := fun _ => none
    ransac_get_inliers := fun _ => []
    sample_surface_normal := fun c => c
    remove_nan_normals := fun c => c
    segmentation := fun _ => none
    second_segmentation := fun _ => none }

/-- The frame `idle_frame n` with the detection replaced by the large
`centered_box`. -/
def large_box_frame (n : Nat) : Frame K :=
  { (idle_frame n : Frame K) with detection_output_struct_ := centered_box }

/-- Three points on the plane `z = 5` in front of the camera. -/
def three_points : List (PointXYZ K) := [⟨0, 0, 5⟩, ⟨1 / 2, 0, 5⟩, ⟨0, 1 / 2, 5⟩]

/-- Five points in front of the camera, on the planes `z = 5` and `x = 1`. -/
def five_points : List (PointXYZ K) :=
  [⟨0, 0, 5⟩, ⟨1 / 2, 0, 5⟩, ⟨1, 1 / 2, 4⟩, ⟨1, 0, 4⟩, ⟨1, 1 / 2, 9 / 2⟩]

/-- The sampled normal cloud of `two_plane_frame`: one point of the plane
`z = 5` and three points of the plane `x = 1`, with their normals. -/
def four_normals : List (PointNormal K) :=
  [⟨1 / 2, 0, 5, 0, 0, 1⟩, ⟨1, 1 / 2, 4, 1, 0, 0⟩, ⟨1, 0, 4, 1, 0, 0⟩,
   ⟨1, 1 / 2, 9 / 2, 1, 0, 0⟩]

/-- The sampled normal cloud of `sparse_frame`: a single point. -/
def one_normal : List (PointNormal K) := [⟨0, 0, 5, 0, 0, 1⟩]

/-- A frame with a large box and three coplanar points: every fit that is asked
returns the plane `z = 5` with all three points as inliers. No marker. -/
def all_inliers_frame (n : Nat) : Frame K :=
  { frame_number := n
    pcl_points_ := three_points
    detection_output_struct_ := centered_box
    rvecs := []
    tvecs := []
    z_axis_times_rot := []
    seg_segment := fun _ => some ⟨0, 0, 1, -5, [0, 1, 2]⟩
    ransac_get_inliers := fun _ => [0, 1, 2]
    sample_surface_normal := fun c => c.map fun p => { p with normal_z := 1 }
    remove_nan_normals := fun c => c
    segmentation := fun _ => some ⟨0, 0, 1, -5, [0, 1, 2]⟩
    second_segmentation := fun _ => some ⟨0, 0, 1, -5, [0, 1, 2]⟩ }

/-- A frame with a large box, five points and a marker: the coarse and the
background fit return the plane `z = 5` (background inlier: index 0 of the
sampled cloud), the face fit returns the plane `x = 1`. -/
def two_plane_frame (n : Nat) : Frame K :=
  { frame_number := n
    pcl_points_ := five_points
    detection_output_struct_ := centered_box
    rvecs := [⟨0, 0, 0⟩]
    tvecs := [⟨0, 0, 5⟩]
    z_axis_times_rot := [0, 0, 1]
    seg_segment := fun _ => some ⟨0, 0, 1, -5, [0, 1]⟩
    ransac_get_inliers := fun _ => [0, 1]
    sample_surface_normal := fun _ => four_normals
    remove_nan_normals := fun c => c
    segmentation := fun _ => some ⟨0, 0, 1, -5, [0]⟩
    second_segmentation := fun _ => some ⟨1, 0, 0, -1, [0, 1, 2]⟩ }

/-- A frame with a large box and three points of which the normal sampling
keeps a single one; the background fit on that one point fails. -/
def sparse_frame (n : Nat) : Frame K :=
  { frame_number := n
    pcl_points_ := three_points
    detection_output_struct_ := centered_box
    rvecs := []
    tvecs := []
    z_axis_times_rot := []
    seg_segment := fun _ => some ⟨0, 0, 1, -5, [0, 1, 2]⟩
    ransac_get_inliers := fun _ => [0, 1, 2]
    sample_surface_normal := fun _ => one_normal
    remove_nan_normals := fun c => c
    segmentation := fun _ => none
    second_segmentation := fun _ => some ⟨1, 0, 0, -1, [0, 1, 2]⟩ }

/-- A state in which the plane model read by `calculate_pose_vector` is the
plane `z = 5` and the center frustum vector is `(0, 0, 1)`. -/
def pose_example_state : State K :=
  { (initial_state : State K) with
    center_frustum_ := ⟨0, 0, 1⟩
    first_ransac_model_coefficients_ := [0, 0, 1, -5]
    ransac_model_coefficients_ := [0, 0, 1, -5]
    second_ransac_model_coefficients_ := [0, 0, 1, -5] }

/-- A state in which the background plane read by `calculate_pose_vector` is
`z = 5`, the face plane is `x = 1` (third coefficient 0) and the center frustum
vector is `(1, 0, 1)`. -/
def two_plane_pose_state : State K :=
  { (initial_state : State K) with
    center_frustum_ := ⟨1, 0, 1⟩
    first_ransac_model_coefficients_ := [0, 0, 1, -5]
    ransac_model_coefficients_ := [0, 0, 1, -5]
    second_ransac_model_coefficients_ := [1, 0, 0, -1] }

/-- A state with three different third coefficients: coarse fit 3, background
fit 1, face fit 2; the center frustum vector is `(0, 0, 1)`. -/
def direction_example_state : State K :=
  { (initial_state : State K) with
    center_frustum_ := ⟨0, 0, 1⟩
    first_ransac_model_coefficients_ := [0, 0, 3, -5]
    ransac_model_coefficients_ := [0, 0, 1, -5]
    second_ransac_model_coefficients_ := [1, 0, 2, -7] }

/-- The state `direction_example_state` with the background normal reversed:
its third coefficient is `-1`, the third face coefficient is still 2. -/
def reversed_background_state : State K :=
  { (direction_example_state : State K) with
    ransac_model_coefficients_ := [0, 0, -1, 5] }

/-- A state whose background normal `(0, 0, 2)` does not have unit length. -/
def scaled_normal_state : State K :=
  { (initial_state : State K) with
    center_frustum_ := ⟨0, 0, 1⟩
    first_ransac_model_coefficients_ := [0, 0, 1, -5]
    ransac_model_coefficients_ := [0, 0, 2, -5]
    second_ransac_model_coefficients_ := [0, 0, 1, -5] }

/-- A detection box that degenerates to the principal point: width 0, height 0. -/
def point_box : DetectionOutput K := ⟨320, 240, 0, 0, 1⟩

/-- The frame `all_inliers_frame n` with the detection replaced by `point_box`. -/
def point_box_frame (n : Nat) : Frame K :=
  { (all_inliers_frame n : Frame K) with detection_output_struct_ := point_box }

end Code

/-! # Theorems -/

section Lemmas

variable {K : Type} [LinearOrderedField K]

@[simp] theorem vec_at_cons_zero {α : Type} (a : α) (l : List α) :
    vec_at (a :: l) 0 = Except.ok a := rfl

@[simp] theorem vec_at_cons_succ {α : Type} (a : α) (l : List α) (i : Nat) :
    vec_at (a :: l) (i + 1) = vec_at l i := by
  simp [vec_at]

@[simp] theorem vec_at_nil {α : Type} (i : Nat) :
    vec_at ([] : List α) i = Except.error Err.out_of_range := by
  simp [vec_at]

theorem vec_at_eq_ok_iff {α : Type} (v : List α) (i : Nat) (a : α) :
    vec_at v i = Except.ok a ↔ v.get? i = some a := by
  unfold vec_at
  cases h : v.get? i <;> simp

theorem vec_at_of_lt {α : Type} (v : List α) (i : Nat) (h : i < v.length) :
    vec_at v i = Except.ok (v.get ⟨i, h⟩) := by
  rw [vec_at_eq_ok_iff]
  exact List.get?_eq_get h

theorem vec_at_of_le {α : Type} (v : List α) (i : Nat) (h : v.length ≤ i) :
    vec_at v i = Except.error Err.out_of_range := by
  unfold vec_at
  rw [List.get?_eq_none.mpr h]

theorem vec_at_error {α : Type} (v : List α) (i : Nat) (e : Err)
    (h : vec_at v i = Except.error e) : v.length ≤ i := by
  by_contra hlt
  rw [vec_at_of_lt v i (Nat.lt_of_not_le hlt)] at h
  cases h

/-- The point stored by `calculate_pose_vector` for the plane `(nx, ny, nz, d)`. -/
theorem calculate_pose_vector_unfold (s : State K) (nx ny nz d : K) (rest : List K)
    (hcoef : s.ransac_model_coefficients_ = nx :: ny :: nz :: d :: rest) :
    calculate_pose_vector s =
      (vec_at s.second_ransac_model_coefficients_ 2).bind fun c2 =>
        if c2 > 0 then
          (vec_at s.second_ransac_model_coefficients_ 0).bind fun a2 =>
            (vec_at s.first_ransac_model_coefficients_ 2).bind fun c1 =>
              Except.ok (store_end_point
                (store_intersection s (plane_orgin nx ny nz d)
                  (scale3 s.center_frustum_
                    (distance_scalar (plane_orgin nx ny nz d) ⟨nx, ny, nz⟩ s.center_frustum_)))
                (scale3 s.center_frustum_
                  (distance_scalar (plane_orgin nx ny nz d) ⟨nx, ny, nz⟩ s.center_frustum_))
                a2 c1 c2)
        else
          Except.ok (store_intersection s (plane_orgin nx ny nz d)
            (scale3 s.center_frustum_
              (distance_scalar (plane_orgin nx ny nz d) ⟨nx, ny, nz⟩ s.center_frustum_))) := by
  unfold calculate_pose_vector
  simp only [hcoef, plane_normal_x_id_, plane_normal_y_id_, plane_normal_z_id_,
    plane_hessian_component_id_, x_position_id_, y_position_id_, z_position_id_,
    vec_at_cons_zero, vec_at_cons_succ, bind, Except.bind, pure, Except.pure]
  cases h2 : vec_at s.second_ransac_model_coefficients_ 2 with
  | error e => rfl
  | ok c2 => simp only []

/-- A call with fewer than four plane coefficients throws. -/
theorem calculate_pose_vector_short (s : State K)
    (h : s.ransac_model_coefficients_.length ≤ 3) :
    calculate_pose_vector s = Except.error Err.out_of_range := by
  unfold calculate_pose_vector
  have h3 : vec_at s.ransac_model_coefficients_ plane_hessian_component_id_
      = Except.error Err.out_of_range := vec_at_of_le _ _ h
  cases h0 : vec_at s.ransac_model_coefficients_ plane_normal_x_id_ with
  | error e => cases e; rfl
  | ok a => simp only [h3, bind, Except.bind]

/-- Whenever `calculate_pose_vector` returns, the plane coefficients had at
least four entries and the stored intersection is `center * t`. -/
theorem calculate_pose_vector_ok (s s1 : State K)
    (h : calculate_pose_vector s = Except.ok s1) :
    ∃ nx ny nz d rest, s.ransac_model_coefficients_ = nx :: ny :: nz :: d :: rest ∧
      s1.plane_frustum_vector_intersect_ =
        scale3 s.center_frustum_
          (distance_scalar (plane_orgin nx ny nz d) ⟨nx, ny, nz⟩ s.center_frustum_) ∧
      s1.center_frustum_ = s.center_frustum_ ∧
      s1.ransac_model_coefficients_ = s.ransac_model_coefficients_ ∧
      s1.first_ransac_model_coefficients_ = s.first_ransac_model_coefficients_ ∧
      s1.second_ransac_model_coefficients_ = s.second_ransac_model_coefficients_ := by
  have hlen : 3 < s.ransac_model_coefficients_.length := by
    by_contra hc
    rw [calculate_pose_vector_short s (Nat.le_of_not_lt hc)] at h
    cases h
  obtain ⟨nx, ny, nz, d, rest, hcoef⟩ :
      ∃ nx ny nz d rest, s.ransac_model_coefficients_ = nx :: ny :: nz :: d :: rest := by
    match hm : s.ransac_model_coefficients_, hlen with
    | nx :: ny :: nz :: d :: rest, _ => exact ⟨nx, ny, nz, d, rest, rfl⟩
  refine ⟨nx, ny, nz, d, rest, hcoef, ?_⟩
  rw [calculate_pose_vector_unfold s nx ny nz d rest hcoef] at h
  cases h2 : vec_at s.second_ransac_model_coefficients_ 2 with
  | error e => rw [h2] at h; cases h
  | ok c2 =>
    rw [h2] at h
    simp only [Except.bind] at h
    split at h
    · cases h0 : vec_at s.second_ransac_model_coefficients_ 0 with
      | error e => rw [h0] at h; cases h
      | ok a2 =>
        cases h1 : vec_at s.first_ransac_model_coefficients_ 2 with
        | error e => rw [h0, h1] at h; cases h
        | ok c1 =>
          rw [h0, h1] at h
          simp only [Except.bind] at h
          cases h
          simp [store_end_point, store_intersection]
    · cases h
      simp [store_intersection]

theorem accumulate_center_four (c p0 p1 p2 p3 : PointXYZ K) :
    accumulate_center c [p0, p1, p2, p3] =
      ⟨c.x + p0.x + p1.x + p2.x + p3.x, c.y + p0.y + p1.y + p2.y + p3.y,
       c.z + p0.z + p1.z + p2.z + p3.z⟩ := rfl

/-- What `calculate_3d_crop` leaves in `center_frustum_`: a quarter of the old
value plus the arithmetic mean of the four corner rays. -/
theorem calculate_3d_crop_center (L : Lib K) (cfg : Config K) (d : DetectionOutput K)
    (s : State K) :
    (calculate_3d_crop L cfg d s).center_frustum_ =
      ⟨s.center_frustum_.x / 4 + (arithmetic_mean (corner_rays cfg d)).x,
       s.center_frustum_.y / 4 + (arithmetic_mean (corner_rays cfg d)).y,
       s.center_frustum_.z / 4 + (arithmetic_mean (corner_rays cfg d)).z⟩ := by
  simp only [calculate_3d_crop, corner_rays, detection_point_vec, List.map, accumulate_center_four,
    arithmetic_mean, number_of_object_detection_corner_vectors_, List.sum_cons, List.sum_nil,
    List.length_cons, List.length_nil]
  congr 1 <;> · push_cast; ring

theorem normsq_pos_of_z (a : PointXYZ ℝ) (hz : a.z ≠ 0) :
    0 < a.x * a.x + a.y * a.y + a.z * a.z := by
  have := mul_self_pos.mpr hz
  nlinarith [mul_self_nonneg a.x, mul_self_nonneg a.y]

theorem angle_between_mem_Ioo (L : Lib ℝ) (hsqrt : L.sqrt = Real.sqrt)
    (hacos : L.acos = Real.arccos) (a b : PointXYZ ℝ) (haz : a.z ≠ 0) (hbz : b.z ≠ 0)
    (hcross : a.z * b.x - a.x * b.z ≠ 0 ∨ a.y * b.z - a.z * b.y ≠ 0) :
    0 < angle_between L a b ∧ angle_between L a b < Real.pi := by
  have ha := normsq_pos_of_z a haz
  have hb := normsq_pos_of_z b hbz
  have hna : 0 < Real.sqrt (a.x * a.x + a.y * a.y + a.z * a.z) := Real.sqrt_pos.mpr ha
  have hnb : 0 < Real.sqrt (b.x * b.x + b.y * b.y + b.z * b.z) := Real.sqrt_pos.mpr hb
  have hprod : 0 < Real.sqrt (a.x * a.x + a.y * a.y + a.z * a.z)
      * Real.sqrt (b.x * b.x + b.y * b.y + b.z * b.z) := mul_pos hna hnb
  have hsq : (Real.sqrt (a.x * a.x + a.y * a.y + a.z * a.z)
      * Real.sqrt (b.x * b.x + b.y * b.y + b.z * b.z)) ^ 2
      = (a.x * a.x + a.y * a.y + a.z * a.z) * (b.x * b.x + b.y * b.y + b.z * b.z) := by
    rw [mul_pow, Real.sq_sqrt ha.le, Real.sq_sqrt hb.le]
  have hlag : (dot3 a b) ^ 2 < (Real.sqrt (a.x * a.x + a.y * a.y + a.z * a.z)
      * Real.sqrt (b.x * b.x + b.y * b.y + b.z * b.z)) ^ 2 := by
    rw [hsq]
    simp only [dot3]
    rcases hcross with h | h
    · have := pow_pos (abs_pos.mpr h) 2
      rw [sq_abs] at this
      nlinarith [sq_nonneg (a.x * b.y - a.y * b.x), sq_nonneg (a.y * b.z - a.z * b.y)]
    · have := pow_pos (abs_pos.mpr h) 2
      rw [sq_abs] at this
      nlinarith [sq_nonneg (a.x * b.y - a.y * b.x), sq_nonneg (a.z * b.x - a.x * b.z)]
  have habs := abs_lt_of_sq_lt_sq hlag hprod.le
  rw [abs_lt] at habs
  simp only [angle_between, norm3, hsqrt, hacos]
  constructor
  · rw [Real.arccos_pos, div_lt_one hprod]
    exact habs.2
  · refine lt_of_le_of_ne (Real.arccos_le_pi _) ?_
    rw [Ne, Real.arccos_eq_pi, not_le, lt_div_iff₀ hprod]
    linarith [habs.1]
/-- With a center vector on the optical axis before the call (in particular
the zero vector of a first frame), a box centered on the principal point gives
a center frustum vector on the optical axis, both orientation angles are 0 and
neither sign-correction branch is taken. -/
theorem centered_box_angles_zero (L : Lib ℝ) (cfg : Config ℝ) (d : DetectionOutput ℝ)
    (s : State ℝ) (hsqrt : L.sqrt = Real.sqrt) (hacos : L.acos = Real.arccos)
    (hfx : cfg.zed_k_matrix_ 0 ≠ 0) (hs : 0 < cfg.detection_vector_scale_)
    (hcx : d.x + d.width / 2 = cfg.zed_k_matrix_ 2)
    (hcy : d.y + d.height / 2 = cfg.zed_k_matrix_ 3)
    (h0x : s.center_frustum_.x = 0) (h0y : s.center_frustum_.y = 0)
    (h0z : 0 ≤ s.center_frustum_.z) :
    angle_zy L (calculate_3d_crop L cfg d s).center_frustum_ = 0 ∧
    angle_zx L (calculate_3d_crop L cfg d s).center_frustum_ = 0 ∧
    ¬ (center_frustum_zy (calculate_3d_crop L cfg d s).center_frustum_).2 < 0 ∧
    ¬ (center_frustum_zx (calculate_3d_crop L cfg d s).center_frustum_).2 > 0 := by
  have hc : (calculate_3d_crop L cfg d s).center_frustum_
      = ⟨0, 0, s.center_frustum_.z / 4 + cfg.detection_vector_scale_⟩ := by
    rw [calculate_3d_crop_center, h0x, h0y]
    simp only [arithmetic_mean, corner_rays, detection_point_vec, from_image_center,
      frustum_point, List.map, List.sum_cons, List.sum_nil, List.length_cons, List.length_nil]
    rw [← hcx, ← hcy]
    congr 1
    · field_simp
      ring
    · field_simp
      ring
    · push_cast
      ring
  have hz : 0 < s.center_frustum_.z / 4 + cfg.detection_vector_scale_ := by linarith
  have hang : angle_to_z_inverse L
      (s.center_frustum_.z / 4 + cfg.detection_vector_scale_, (0 : ℝ)) = 0 := by
    simp only [angle_to_z_inverse, dot2, norm2, z_inverse, hsqrt, hacos]
    rw [Real.arccos_eq_zero]
    have h1 : Real.sqrt (1 * 1 + 0 * 0) = 1 := by norm_num
    have h2 : Real.sqrt ((s.center_frustum_.z / 4 + cfg.detection_vector_scale_)
        * (s.center_frustum_.z / 4 + cfg.detection_vector_scale_) + 0 * 0)
        = s.center_frustum_.z / 4 + cfg.detection_vector_scale_ := by
      rw [mul_zero, add_zero, Real.sqrt_mul_self hz.le]
    rw [h1, h2]
    simp only [one_mul, mul_zero, add_zero]
    rw [div_self hz.ne.symm]
  rw [hc]
  simp only [angle_zy, angle_zx, center_frustum_zy, center_frustum_zx, lt_irrefl, if_false,
    gt_iff_lt, not_false_eq_true, and_true]
  exact ⟨hang, hang⟩

/-! ### The cascade -/

theorem cascade_frame_refl (s : State K) : cascade_frame s s := by
  simp [cascade_frame]

theorem cascade_frame_trans {s t u : State K} (h1 : cascade_frame s t) (h2 : cascade_frame t u) :
    cascade_frame s u := by
  simp only [cascade_frame] at *
  obtain ⟨a1, a2, a3, a4, a5, a6, a7, a8, a9, a10⟩ := h1
  obtain ⟨b1, b2, b3, b4, b5, b6, b7, b8, b9, b10⟩ := h2
  exact ⟨b1.trans a1, b2.trans a2, b3.trans a3, b4.trans a4, b5.trans a5, b6.trans a6,
    b7.trans a7, b8.trans a8, b9.trans a9, b10.trans a10⟩

theorem ransac_coarse_frame (cfg : Config K) (f : Frame K) (s : State K) :
    cascade_frame s (ransac_coarse cfg f s) := by
  unfold ransac_coarse
  split
  · simp [cascade_frame]
  · exact cascade_frame_refl s

theorem ransac_sampling_frame (cfg : Config K) (f : Frame K) (c : List (PointNormal K))
    (s : State K) : cascade_frame s (ransac_sampling cfg f c s) := by
  unfold ransac_sampling
  split
  · simp [cascade_frame]
  · exact cascade_frame_refl s

theorem ransac_background_frame (cfg : Config K) (f : Frame K) (c : List (PointNormal K))
    (s : State K) : cascade_frame s (ransac_background cfg f c s).1 := by
  unfold ransac_background
  split
  · simp [cascade_frame]
  · exact cascade_frame_refl s

theorem ransac_extract_frame (cfg : Config K) (i : List Nat) (s : State K) :
    cascade_frame s (ransac_extract cfg i s) := by
  unfold ransac_extract
  split
  · simp [cascade_frame]
  · exact cascade_frame_refl s

theorem ransac_face_frame (cfg : Config K) (f : Frame K) (s : State K) :
    cascade_frame s (ransac_face cfg f s) := by
  unfold ransac_face
  split
  · simp [cascade_frame]
  · exact cascade_frame_refl s

theorem after_coarse_frame (cfg : Config K) (f : Frame K) (s : State K) :
    cascade_frame s (after_coarse cfg f s) := by
  have h0 : cascade_frame s (ransac_enter s) := by
    simp [cascade_frame, ransac_enter]
  exact cascade_frame_trans h0 (ransac_coarse_frame cfg f (ransac_enter s))

theorem after_sampling_frame (cfg : Config K) (f : Frame K) (s : State K) :
    cascade_frame s (after_sampling cfg f s) :=
  cascade_frame_trans (after_coarse_frame cfg f s)
    (ransac_sampling_frame cfg f (input_cloud_with_normals (after_coarse cfg f s))
      (after_coarse cfg f s))

theorem after_background_frame (cfg : Config K) (f : Frame K) (s : State K) :
    cascade_frame s (after_background cfg f s).1 :=
  cascade_frame_trans (after_sampling_frame cfg f s)
    (ransac_background_frame cfg f (input_cloud_with_normals (after_coarse cfg f s))
      (after_sampling cfg f s))

theorem after_extract_frame (cfg : Config K) (f : Frame K) (s : State K) :
    cascade_frame s (after_extract cfg f s) :=
  cascade_frame_trans (after_background_frame cfg f s)
    (ransac_extract_frame cfg (after_background cfg f s).2 (after_background cfg f s).1)

theorem after_face_frame (cfg : Config K) (f : Frame K) (s : State K) :
    cascade_frame s (after_face cfg f s) :=
  cascade_frame_trans (after_extract_frame cfg f s)
    (ransac_face_frame cfg f (after_extract cfg f s))

theorem calculate_ransac_frame (cfg : Config K) (f : Frame K) (s : State K) :
    cascade_frame s (calculate_ransac cfg f s) := by
  have h5 := after_face_frame cfg f s
  simp only [cascade_frame, calculate_ransac] at h5 ⊢
  exact h5

/-- The length of the local input cloud is the length of `cloud_pallet_`. -/
theorem input_cloud_length (cfg : Config K) (f : Frame K) (s : State K) :
    (input_cloud_with_normals (after_coarse cfg f s)).length = s.cloud_pallet_.length := by
  have h := (after_coarse_frame cfg f s).2.2.2.2.2.2.2.2.2
  simp [input_cloud_with_normals, h]

/-! Coefficient caches and clouds through the stages. -/

theorem after_coarse_fields (cfg : Config K) (f : Frame K) (s : State K) :
    (after_coarse cfg f s).ransac_model_coefficients_ = s.ransac_model_coefficients_ ∧
    (after_coarse cfg f s).second_ransac_model_coefficients_
      = s.second_ransac_model_coefficients_ ∧
    (after_coarse cfg f s).output_cloud_with_normals_ = s.output_cloud_with_normals_ ∧
    (after_coarse cfg f s).extracted_cloud_with_normals_ = s.extracted_cloud_with_normals_ ∧
    (after_coarse cfg f s).trace = s.trace ++ [Event.calculate_ransac] ∧
    (after_coarse cfg f s).first_ransac_model_coefficients_ =
      (if s.cloud_pallet_.length > cfg.minimum_points_for_ransac_ then
        PlaneFit.values (f.seg_segment s.cloud_pallet_)
      else s.first_ransac_model_coefficients_) := by
  by_cases h : s.cloud_pallet_.length > cfg.minimum_points_for_ransac_
  · simp [after_coarse, ransac_coarse, ransac_enter, h]
  · simp [after_coarse, ransac_coarse, ransac_enter, h]

theorem after_sampling_fields (cfg : Config K) (f : Frame K) (s : State K) :
    (after_sampling cfg f s).ransac_model_coefficients_ = s.ransac_model_coefficients_ ∧
    (after_sampling cfg f s).second_ransac_model_coefficients_
      = s.second_ransac_model_coefficients_ ∧
    (after_sampling cfg f s).first_ransac_model_coefficients_
      = (after_coarse cfg f s).first_ransac_model_coefficients_ ∧
    (after_sampling cfg f s).extracted_cloud_with_normals_ = s.extracted_cloud_with_normals_ ∧
    (after_sampling cfg f s).trace = s.trace ++ [Event.calculate_ransac] ∧
    (after_sampling cfg f s).output_cloud_with_normals_ =
      (if s.cloud_pallet_.length > cfg.minimum_points_for_sampling_surface_normals_ then
        f.remove_nan_normals (f.sample_surface_normal (s.cloud_pallet_.map to_point_normal))
      else s.output_cloud_with_normals_) := by
  obtain ⟨h1, h2, h3, h4, h5, -⟩ := after_coarse_fields cfg f s
  have hc := (after_coarse_frame cfg f s).2.2.2.2.2.2.2.2.2
  have hl := input_cloud_length cfg f s
  by_cases h : s.cloud_pallet_.length > cfg.minimum_points_for_sampling_surface_normals_
  · simp [after_sampling, ransac_sampling, hl, h, h1, h2, h4, h5, input_cloud_with_normals, hc]
  · simp [after_sampling, ransac_sampling, hl, h, h1, h2, h3, h4, h5]

theorem after_background_fields (cfg : Config K) (f : Frame K) (s : State K) :
    (after_background cfg f s).1.second_ransac_model_coefficients_
      = s.second_ransac_model_coefficients_ ∧
    (after_background cfg f s).1.first_ransac_model_coefficients_
      = (after_coarse cfg f s).first_ransac_model_coefficients_ ∧
    (after_background cfg f s).1.extracted_cloud_with_normals_
      = s.extracted_cloud_with_normals_ ∧
    (after_background cfg f s).1.output_cloud_with_normals_
      = (after_sampling cfg f s).output_cloud_with_normals_ ∧
    (after_background cfg f s).1.ransac_model_coefficients_ =
      (if s.cloud_pallet_.length > cfg.minimum_points_for_ransac_ then
        PlaneFit.values (f.segmentation (after_sampling cfg f s).output_cloud_with_normals_)
      else s.ransac_model_coefficients_) ∧
    (after_background cfg f s).2 =
      (if s.cloud_pallet_.length > cfg.minimum_points_for_ransac_ then
        PlaneFit.indices (f.segmentation (after_sampling cfg f s).output_cloud_with_normals_)
      else []) ∧
    (after_background cfg f s).1.trace =
      (if s.cloud_pallet_.length > cfg.minimum_points_for_ransac_ then
        s.trace ++ [Event.calculate_ransac,
          Event.background_fit (after_sampling cfg f s).output_cloud_with_normals_
            (PlaneFit.indices
              (f.segmentation (after_sampling cfg f s).output_cloud_with_normals_))]
      else s.trace ++ [Event.calculate_ransac]) := by
  obtain ⟨h1, h2, h3, h4, h5, -⟩ := after_sampling_fields cfg f s
  have hl := input_cloud_length cfg f s
  by_cases h : s.cloud_pallet_.length > cfg.minimum_points_for_ransac_
  · simp [after_background, ransac_background, hl, h, h1, h2, h3, h4, h5]
  · simp [after_background, ransac_background, hl, h, h1, h2, h3, h4, h5]

theorem after_extract_fields (cfg : Config K) (f : Frame K) (s : State K) :
    (after_extract cfg f s).second_ransac_model_coefficients_
      = s.second_ransac_model_coefficients_ ∧
    (after_extract cfg f s).first_ransac_model_coefficients_
      = (after_coarse cfg f s).first_ransac_model_coefficients_ ∧
    (after_extract cfg f s).ransac_model_coefficients_
      = (after_background cfg f s).1.ransac_model_coefficients_ ∧
    (after_extract cfg f s).output_cloud_with_normals_
      = (after_sampling cfg f s).output_cloud_with_normals_ ∧
    (after_extract cfg f s).trace = (after_background cfg f s).1.trace ∧
    (after_extract cfg f s).extracted_cloud_with_normals_ =
      (if (after_sampling cfg f s).output_cloud_with_normals_.length
          > cfg.minimum_points_for_ransac_ then
        extract_negative (after_sampling cfg f s).output_cloud_with_normals_
          (after_background cfg f s).2
      else s.extracted_cloud_with_normals_) := by
  obtain ⟨h1, h2, h3, h4, -⟩ := after_background_fields cfg f s
  by_cases h : (after_sampling cfg f s).output_cloud_with_normals_.length
      > cfg.minimum_points_for_ransac_
  · simp [after_extract, ransac_extract, h, h1, h2, h3, h4]
  · simp [after_extract, ransac_extract, h, h1, h2, h3, h4]

theorem after_face_fields (cfg : Config K) (f : Frame K) (s : State K) :
    (after_face cfg f s).first_ransac_model_coefficients_
      = (after_coarse cfg f s).first_ransac_model_coefficients_ ∧
    (after_face cfg f s).ransac_model_coefficients_
      = (after_background cfg f s).1.ransac_model_coefficients_ ∧
    (after_face cfg f s).output_cloud_with_normals_
      = (after_sampling cfg f s).output_cloud_with_normals_ ∧
    (after_face cfg f s).extracted_cloud_with_normals_
      = (after_extract cfg f s).extracted_cloud_with_normals_ ∧
    (after_face cfg f s).second_ransac_model_coefficients_ =
      (if (after_extract cfg f s).extracted_cloud_with_normals_.length
          > cfg.minimum_points_for_ransac_ then
        PlaneFit.values
          (f.second_segmentation (after_extract cfg f s).extracted_cloud_with_normals_)
      else s.second_ransac_model_coefficients_) ∧
    (after_face cfg f s).trace =
      (if (after_extract cfg f s).extracted_cloud_with_normals_.length
          > cfg.minimum_points_for_ransac_ then
        (after_background cfg f s).1.trace
          ++ [Event.face_fit (after_extract cfg f s).extracted_cloud_with_normals_]
      else (after_background cfg f s).1.trace) := by
  obtain ⟨h1, h2, h3, h4, h5, -⟩ := after_extract_fields cfg f s
  by_cases h : (after_extract cfg f s).extracted_cloud_with_normals_.length
      > cfg.minimum_points_for_ransac_
  · simp [after_face, ransac_face, h, h1, h2, h3, h4, h5]
  · simp [after_face, ransac_face, h, h1, h2, h3, h4, h5]

/-! ### Exceptions -/

theorem bind_eq_ok {α β : Type} (x : Except Err α) (g : α → Except Err β) (b : β) :
    (x >>= g) = Except.ok b ↔ ∃ a, x = Except.ok a ∧ g a = Except.ok b := by
  cases x with
  | error e => simp [bind, Except.bind]
  | ok a => simp [bind, Except.bind]

theorem vec_set_ok (v : List K) (i : Nat) (a : K) (w : List K)
    (h : vec_set v i a = Except.ok w) : w = v.set i a ∧ w.length = v.length := by
  unfold vec_set at h
  split at h
  · cases h
    simp
  · cases h

theorem vec_set_of_lt (v : List K) (i : Nat) (a : K) (h : i < v.length) :
    vec_set v i a = Except.ok (v.set i a) := by
  simp [vec_set, h]

/-! ### `view_pointcloud`, `calculate_pose`, `log_data` -/

theorem view_pointcloud_ok (s s1 : State K) (h : view_pointcloud s = Except.ok s1) :
    ∃ c, s1 = { s with converted_ground_truth_vector_ := c } ∧
      c.length = s.converted_ground_truth_vector_.length := by
  unfold view_pointcloud at h
  split at h
  · simp only [bind_eq_ok] at h
    obtain ⟨t, -, gx, -, gy, -, gz, -, c0, h0, c1, h1, c2, h2, c3, h3, c4, h4, c5, h5, h⟩ := h
    cases h
    refine ⟨c5, rfl, ?_⟩
    rw [(vec_set_ok _ _ _ _ h5).2, (vec_set_ok _ _ _ _ h4).2, (vec_set_ok _ _ _ _ h3).2,
      (vec_set_ok _ _ _ _ h2).2, (vec_set_ok _ _ _ _ h1).2, (vec_set_ok _ _ _ _ h0).2]
  · cases h
    exact ⟨s.converted_ground_truth_vector_, rfl, rfl⟩

theorem view_pointcloud_total (s : State K)
    (hc : s.converted_ground_truth_vector_.length = 6)
    (hg : s.rvecs_ ≠ [] → s.tvecs_ ≠ [] → 3 ≤ s.ground_truth_vector_.length) :
    ∃ s1, view_pointcloud s = Except.ok s1 := by
  unfold view_pointcloud
  split
  · rename_i hcond
    simp only [Bool.and_eq_true, Bool.not_eq_true', List.isEmpty_eq_false] at hcond
    have hr : s.rvecs_ ≠ [] := by
      intro h0
      rw [h0] at hcond
      simp at hcond
    have ht : s.tvecs_ ≠ [] := by
      intro h0
      rw [h0] at hcond
      simp at hcond
    have hg3 := hg hr ht
    have htl : 0 < s.tvecs_.length := List.length_pos.mpr ht
    simp only [first_, x_position_id_, y_position_id_, z_position_id_, end_x_position_id_,
      end_y_position_id_, end_z_position_id_]
    rw [vec_at_of_lt _ _ htl, vec_at_of_lt _ 0 (by omega), vec_at_of_lt _ 1 (by omega),
      vec_at_of_lt _ 2 (by omega)]
    simp only [bind, Except.bind]
    rw [vec_set_of_lt _ _ _ (by omega)]
    simp only []
    rw [vec_set_of_lt _ _ _ (by simp; omega)]
    simp only []
    rw [vec_set_of_lt _ _ _ (by simp; omega)]
    simp only []
    rw [vec_set_of_lt _ _ _ (by simp; omega)]
    simp only []
    rw [vec_set_of_lt _ _ _ (by simp; omega)]
    simp only []
    rw [vec_set_of_lt _ _ _ (by simp; omega)]
    exact ⟨_, rfl⟩
  · exact ⟨s, rfl⟩

/-- The three marker fields after `calculate_pose`; all other fields are kept. -/
theorem calculate_pose_fields (f : Frame K) (s : State K) :
    (calculate_pose f s).ransac_model_coefficients_ = s.ransac_model_coefficients_ ∧
    (calculate_pose f s).first_ransac_model_coefficients_ = s.first_ransac_model_coefficients_ ∧
    (calculate_pose f s).second_ransac_model_coefficients_
      = s.second_ransac_model_coefficients_ ∧
    (calculate_pose f s).converted_ground_truth_vector_ = s.converted_ground_truth_vector_ ∧
    (calculate_pose f s).plane_frustum_vector_intersect_ = s.plane_frustum_vector_intersect_ ∧
    (calculate_pose f s).pose_vector_end_point_ = s.pose_vector_end_point_ ∧
    (calculate_pose f s).log = s.log ∧ (calculate_pose f s).trace = s.trace ∧
    (calculate_pose f s).wait_with_ransac_for_ = s.wait_with_ransac_for_ ∧
    (calculate_pose f s).center_frustum_ = s.center_frustum_ ∧
    (calculate_pose f s).output_cloud_with_normals_ = s.output_cloud_with_normals_ ∧
    (calculate_pose f s).extracted_cloud_with_normals_ = s.extracted_cloud_with_normals_ := by
  unfold calculate_pose
  split <;> simp

theorem calculate_pose_markers (f : Frame K) (s : State K) :
    (f.rvecs ≠ [] ∧ f.tvecs ≠ [] ∧ (calculate_pose f s).rvecs_ = f.rvecs ∧
      (calculate_pose f s).tvecs_ = f.tvecs ∧
      (calculate_pose f s).ground_truth_vector_ = f.z_axis_times_rot) ∨
    ((f.rvecs = [] ∨ f.tvecs = []) ∧ (calculate_pose f s).rvecs_ = s.rvecs_ ∧
      (calculate_pose f s).tvecs_ = s.tvecs_ ∧
      (calculate_pose f s).ground_truth_vector_ = s.ground_truth_vector_) := by
  unfold calculate_pose
  split
  · rename_i h
    left
    simp only [Bool.and_eq_true, Bool.not_eq_true', List.isEmpty_eq_false] at h
    refine ⟨?_, ?_, rfl, rfl, rfl⟩
    · intro h0
      rw [h0] at h
      simp at h
    · intro h0
      rw [h0] at h
      simp at h
  · rename_i h
    right
    refine ⟨?_, rfl, rfl, rfl⟩
    by_contra hc
    push_neg at hc
    apply h
    simp [List.isEmpty_iff, hc.1, hc.2]

theorem log_data_ok (cfg : Config K) (n : Nat) (s s1 : State K)
    (h : log_data cfg n s = Except.ok s1) :
    (full_row_condition cfg s = false ∧ s1 = { s with log := s.log ++ [⟨n, []⟩] }) ∨
    (full_row_condition cfg s = true ∧
      ∃ dx dy dz g0 g1 g2 g3 g4 g5,
        vec_at s.second_ransac_model_coefficients_ plane_normal_x_id_ = Except.ok dx ∧
        vec_at s.first_ransac_model_coefficients_ plane_normal_z_id_ = Except.ok dy ∧
        vec_at s.second_ransac_model_coefficients_ plane_normal_z_id_ = Except.ok dz ∧
        vec_at s.converted_ground_truth_vector_ 0 = Except.ok g0 ∧
        vec_at s.converted_ground_truth_vector_ 1 = Except.ok g1 ∧
        vec_at s.converted_ground_truth_vector_ 2 = Except.ok g2 ∧
        vec_at s.converted_ground_truth_vector_ 3 = Except.ok g3 ∧
        vec_at s.converted_ground_truth_vector_ 4 = Except.ok g4 ∧
        vec_at s.converted_ground_truth_vector_ 5 = Except.ok g5 ∧
        s1 = { s with log := s.log ++
          [⟨n, [s.plane_frustum_vector_intersect_.x, s.plane_frustum_vector_intersect_.y,
            s.plane_frustum_vector_intersect_.z, dx, -1 * dy, dz, g0, g1, g2, g3, g4, g5]⟩] }) := by
  unfold log_data at h
  split at h
  · rename_i hc
    right
    refine ⟨hc, ?_⟩
    simp only [bind_eq_ok] at h
    obtain ⟨dx, hdx, dy, hdy, dz, hdz, g0, h0, g1, h1, g2, h2, g3, h3, g4, h4, g5, h5, h⟩ := h
    cases h
    exact ⟨dx, dy, dz, g0, g1, g2, g3, g4, g5, hdx, hdy, hdz, h0, h1, h2, h3, h4, h5, rfl⟩
  · rename_i hc
    left
    cases h
    exact ⟨by simpa using hc, rfl⟩

theorem log_data_short (cfg : Config K) (n : Nat) (s : State K)
    (h : s.ransac_model_coefficients_.length ≤ 1) :
    full_row_condition cfg s = false ∧
      log_data cfg n s = Except.ok { s with log := s.log ++ [⟨n, []⟩] } := by
  have hc : full_row_condition cfg s = false := by
    simp only [full_row_condition, Bool.and_eq_false_iff, decide_eq_false_iff_not]
    left; left; right
    omega
  exact ⟨hc, by simp [log_data, hc]; rfl⟩

theorem finish_frame_split (cfg : Config K) (f : Frame K) (s4 s1 : State K)
    (h : finish_frame cfg f s4 = Except.ok s1) :
    ∃ c s8, c.length = s4.converted_ground_truth_vector_.length ∧
      log_data cfg f.frame_number
        (calculate_pose f { s4 with wait_with_ransac_for_ := s4.wait_with_ransac_for_ + 1,
                                    converted_ground_truth_vector_ := c }) = Except.ok s8 ∧
      s1 = { s8 with ransac_model_coefficients_ := [] } := by
  unfold finish_frame at h
  simp only [bind_eq_ok] at h
  obtain ⟨s6, h6, s8, h8, h⟩ := h
  cases h
  obtain ⟨c, rfl, hc⟩ := view_pointcloud_ok _ _ h6
  exact ⟨c, s8, hc, h8, rfl⟩

theorem calculate_pose_congr (cfg : Config K) (f : Frame K) (s : State K) (w : Nat)
    (c : List K) :
    (calculate_pose f
      { s with wait_with_ransac_for_ := w, converted_ground_truth_vector_ := c }).rvecs_
      = (calculate_pose f s).rvecs_ ∧
    (calculate_pose f
      { s with wait_with_ransac_for_ := w, converted_ground_truth_vector_ := c }).tvecs_
      = (calculate_pose f s).tvecs_ ∧
    (calculate_pose f
      { s with wait_with_ransac_for_ := w,
               converted_ground_truth_vector_ := c }).ground_truth_vector_
      = (calculate_pose f s).ground_truth_vector_ ∧
    full_row_condition cfg
        (calculate_pose f
          { s with wait_with_ransac_for_ := w, converted_ground_truth_vector_ := c })
      = full_row_condition cfg (calculate_pose f s) := by
  unfold calculate_pose full_row_condition
  split <;> simp

/-- What a completed `finish_frame` leaves behind. -/
theorem finish_frame_ok (cfg : Config K) (f : Frame K) (s4 s1 : State K)
    (h : finish_frame cfg f s4 = Except.ok s1) :
    finish_keeps s4 s1 ∧ s1.wait_with_ransac_for_ = s4.wait_with_ransac_for_ + 1 ∧
    s1.ransac_model_coefficients_ = [] ∧
    s1.converted_ground_truth_vector_.length = s4.converted_ground_truth_vector_.length ∧
    s1.rvecs_ = (calculate_pose f s4).rvecs_ ∧ s1.tvecs_ = (calculate_pose f s4).tvecs_ ∧
    s1.ground_truth_vector_ = (calculate_pose f s4).ground_truth_vector_ ∧
    ∃ row, s1.log = s4.log ++ [row] ∧ row.frame = f.frame_number ∧
      ((full_row_condition cfg (calculate_pose f s4) = false ∧ row.values = []) ∨
       (full_row_condition cfg (calculate_pose f s4) = true ∧
        ∃ dx dy dz g0 g1 g2 g3 g4 g5,
          vec_at s4.second_ransac_model_coefficients_ plane_normal_x_id_ = Except.ok dx ∧
          vec_at s4.first_ransac_model_coefficients_ plane_normal_z_id_ = Except.ok dy ∧
          vec_at s4.second_ransac_model_coefficients_ plane_normal_z_id_ = Except.ok dz ∧
          vec_at s1.converted_ground_truth_vector_ 0 = Except.ok g0 ∧
          vec_at s1.converted_ground_truth_vector_ 1 = Except.ok g1 ∧
          vec_at s1.converted_ground_truth_vector_ 2 = Except.ok g2 ∧
          vec_at s1.converted_ground_truth_vector_ 3 = Except.ok g3 ∧
          vec_at s1.converted_ground_truth_vector_ 4 = Except.ok g4 ∧
          vec_at s1.converted_ground_truth_vector_ 5 = Except.ok g5 ∧
          row.values =
            [s4.plane_frustum_vector_intersect_.x, s4.plane_frustum_vector_intersect_.y,
             s4.plane_frustum_vector_intersect_.z, dx, -1 * dy, dz,
             g0, g1, g2, g3, g4, g5])) := by
  obtain ⟨c, s8, hc, h8, rfl⟩ := finish_frame_split cfg f s4 s1 h
  obtain ⟨q1, q2, q3, q4, q5, q6, q7, q8, q9, q10, q11, q12⟩ := calculate_pose_fields f
    { s4 with wait_with_ransac_for_ := s4.wait_with_ransac_for_ + 1,
              converted_ground_truth_vector_ := c }
  obtain ⟨r1, r2, r3, r4⟩ := calculate_pose_congr cfg f s4
    (s4.wait_with_ransac_for_ + 1) c
  rcases log_data_ok cfg f.frame_number _ s8 h8 with ⟨hfull, rfl⟩ | ⟨hfull, dx, dy, dz, g0, g1,
    g2, g3, g4, g5, hdx, hdy, hdz, h0, h1, h2, h3, h4, h5, rfl⟩
  · rw [r4] at hfull
    refine ⟨⟨q8, q2, q3, q6, q5, q10, q11, q12⟩, q9, rfl, ?_, r1, r2, r3, ?_⟩
    · show (calculate_pose f _).converted_ground_truth_vector_.length = _
      rw [q4]
      exact hc
    · exact ⟨⟨f.frame_number, []⟩, by show (calculate_pose f _).log ++ _ = _; rw [q7],
        rfl, Or.inl ⟨hfull, rfl⟩⟩
  · rw [r4] at hfull
    rw [q3] at hdx hdz
    rw [q2] at hdy
    refine ⟨⟨q8, q2, q3, q6, q5, q10, q11, q12⟩, q9, rfl, ?_, r1, r2, r3, ?_⟩
    · show (calculate_pose f _).converted_ground_truth_vector_.length = _
      rw [q4]
      exact hc
    · refine ⟨_, by show (calculate_pose f _).log ++ _ = _; rw [q7], rfl,
        Or.inr ⟨hfull, dx, dy, dz, g0, g1, g2, g3, g4, g5, hdx, hdy, hdz, h0, h1, h2, h3, h4, h5,
          ?_⟩⟩
      show [(calculate_pose f _).plane_frustum_vector_intersect_.x, _, _, _, _, _, _, _, _, _,
        _, _] = _
      rw [q5]

/-! ### The stages of `run_pose_estimation` -/

/-- Apart from `inliers_`, `calculate_ransac` returns the fields of the state
after the face stage. -/
theorem calculate_ransac_proj (cfg : Config K) (f : Frame K) (s : State K) :
    (calculate_ransac cfg f s).trace = (after_face cfg f s).trace ∧
    (calculate_ransac cfg f s).ransac_model_coefficients_
      = (after_face cfg f s).ransac_model_coefficients_ ∧
    (calculate_ransac cfg f s).first_ransac_model_coefficients_
      = (after_face cfg f s).first_ransac_model_coefficients_ ∧
    (calculate_ransac cfg f s).second_ransac_model_coefficients_
      = (after_face cfg f s).second_ransac_model_coefficients_ ∧
    (calculate_ransac cfg f s).output_cloud_with_normals_
      = (after_face cfg f s).output_cloud_with_normals_ ∧
    (calculate_ransac cfg f s).extracted_cloud_with_normals_
      = (after_face cfg f s).extracted_cloud_with_normals_ := by
  simp only [calculate_ransac, and_self]

theorem frustum_stage_trace (L : Lib K) (cfg : Config K) (s : State K) (f : Frame K) :
    (frustum_stage L cfg s f).trace = [] := rfl

theorem frustum_stage_caches (L : Lib K) (cfg : Config K) (s : State K) (f : Frame K) :
    (frustum_stage L cfg s f).ransac_model_coefficients_ = s.ransac_model_coefficients_ ∧
    (frustum_stage L cfg s f).first_ransac_model_coefficients_
      = s.first_ransac_model_coefficients_ ∧
    (frustum_stage L cfg s f).second_ransac_model_coefficients_
      = s.second_ransac_model_coefficients_ ∧
    (frustum_stage L cfg s f).output_cloud_with_normals_ = s.output_cloud_with_normals_ ∧
    (frustum_stage L cfg s f).extracted_cloud_with_normals_
      = s.extracted_cloud_with_normals_ :=
  ⟨rfl, rfl, rfl, rfl, rfl⟩

theorem frustum_stage_keeps (L : Lib K) (cfg : Config K) (s : State K) (f : Frame K) :
    (frustum_stage L cfg s f).wait_with_ransac_for_ = s.wait_with_ransac_for_ ∧
    (frustum_stage L cfg s f).log = s.log ∧ (frustum_stage L cfg s f).rvecs_ = s.rvecs_ ∧
    (frustum_stage L cfg s f).tvecs_ = s.tvecs_ ∧
    (frustum_stage L cfg s f).ground_truth_vector_ = s.ground_truth_vector_ ∧
    (frustum_stage L cfg s f).converted_ground_truth_vector_
      = s.converted_ground_truth_vector_ ∧
    (frustum_stage L cfg s f).pose_vector_end_point_ = s.pose_vector_end_point_ ∧
    (frustum_stage L cfg s f).plane_frustum_vector_intersect_
      = s.plane_frustum_vector_intersect_ :=
  ⟨rfl, rfl, rfl, rfl, rfl, rfl, rfl, rfl⟩

/-- Gate A in terms of the state at the start of the frame. -/
theorem gate_a_frustum_stage (L : Lib K) (cfg : Config K) (s : State K) (f : Frame K) :
    gate_a cfg f.detection_output_struct_ (frustum_stage L cfg s f) =
      (box_large cfg f.detection_output_struct_
        && decide (s.wait_with_ransac_for_ > cfg.minimum_iterations_before_ransac_)) := rfl

theorem cascade_stage_keeps (L : Lib K) (cfg : Config K) (s : State K) (f : Frame K) :
    cascade_frame (frustum_stage L cfg s f) (cascade_stage L cfg s f) := by
  unfold cascade_stage
  split
  · exact calculate_ransac_frame cfg f (frustum_stage L cfg s f)
  · exact cascade_frame_refl _

theorem calculate_ransac_trace (cfg : Config K) (f : Frame K) (s : State K) :
    ∃ evs, (calculate_ransac cfg f s).trace = s.trace ++ Event.calculate_ransac :: evs ∧
      Event.calculate_pose_vector ∉ evs ∧ Event.calculate_ransac ∉ evs := by
  have hf := (after_face_fields cfg f s).2.2.2.2.2
  have hb := (after_background_fields cfg f s).2.2.2.2.2.2
  rw [(calculate_ransac_proj cfg f s).1, hf, hb]
  split_ifs
  · exact ⟨[Event.background_fit (after_sampling cfg f s).output_cloud_with_normals_
        (PlaneFit.indices (f.segmentation (after_sampling cfg f s).output_cloud_with_normals_)),
      Event.face_fit (after_extract cfg f s).extracted_cloud_with_normals_],
      by simp, by simp, by simp⟩
  · exact ⟨[Event.face_fit (after_extract cfg f s).extracted_cloud_with_normals_],
      by simp, by simp, by simp⟩
  · exact ⟨[Event.background_fit (after_sampling cfg f s).output_cloud_with_normals_
        (PlaneFit.indices (f.segmentation (after_sampling cfg f s).output_cloud_with_normals_))],
      by simp, by simp, by simp⟩
  · exact ⟨[], by simp, by simp, by simp⟩

theorem cascade_stage_trace (L : Lib K) (cfg : Config K) (s : State K) (f : Frame K) :
    (Event.calculate_ransac ∈ (cascade_stage L cfg s f).trace ↔
      gate_a cfg f.detection_output_struct_ (frustum_stage L cfg s f) = true) ∧
    Event.calculate_pose_vector ∉ (cascade_stage L cfg s f).trace := by
  unfold cascade_stage
  split
  · rename_i h
    obtain ⟨evs, he, hp, -⟩ := calculate_ransac_trace cfg f (frustum_stage L cfg s f)
    rw [he, frustum_stage_trace]
    simp [h, hp]
  · rename_i h
    rw [frustum_stage_trace]
    simp [h]

/-- The background coefficients after the cascade stage: either what the frame
started with, or the values of this frame's first normal-constrained fit. -/
theorem cascade_stage_coefficients (L : Lib K) (cfg : Config K) (s : State K) (f : Frame K) :
    (cascade_stage L cfg s f).ransac_model_coefficients_ =
      if gate_a cfg f.detection_output_struct_ (frustum_stage L cfg s f) = true ∧
          (frustum_stage L cfg s f).cloud_pallet_.length > cfg.minimum_points_for_ransac_ then
        PlaneFit.values (f.segmentation
          (after_sampling cfg f (frustum_stage L cfg s f)).output_cloud_with_normals_)
      else s.ransac_model_coefficients_ := by
  unfold cascade_stage
  by_cases hg : gate_a cfg f.detection_output_struct_ (frustum_stage L cfg s f) = true
  · rw [if_pos hg]
    rw [(calculate_ransac_proj cfg f _).2.1, (after_face_fields cfg f _).2.1, (after_background_fields cfg f _).2.2.2.2.1]
    by_cases hc : (frustum_stage L cfg s f).cloud_pallet_.length
        > cfg.minimum_points_for_ransac_
    · rw [if_pos hc, if_pos ⟨hg, hc⟩]
    · rw [if_neg hc, if_neg (fun h => hc h.2)]
      rfl
  · rw [if_neg hg, if_neg (fun h => hg h.1)]
    rfl

theorem pose_stage_ok (L : Lib K) (cfg : Config K) (s s4 : State K) (f : Frame K)
    (h : pose_stage L cfg s f = Except.ok s4) :
    (gate_b cfg (cascade_stage L cfg s f) = false ∧ s4 = cascade_stage L cfg s f) ∨
    (gate_b cfg (cascade_stage L cfg s f) = true ∧
      calculate_pose_vector (cascade_stage L cfg s f) = Except.ok s4) := by
  unfold pose_stage at h
  split at h
  · rename_i hg
    exact Or.inr ⟨hg, h⟩
  · rename_i hg
    cases h
    exact Or.inl ⟨by simpa using hg, rfl⟩

theorem run_pose_estimation_ok (L : Lib K) (cfg : Config K) (s s1 : State K) (f : Frame K)
    (h : run_pose_estimation L cfg s f = Except.ok s1) :
    ∃ s4, pose_stage L cfg s f = Except.ok s4 ∧ finish_frame cfg f s4 = Except.ok s1 := by
  unfold run_pose_estimation at h
  exact (bind_eq_ok _ _ _).mp h

theorem run_pose_estimation_of_stages (L : Lib K) (cfg : Config K) (s s4 s1 : State K)
    (f : Frame K) (h4 : pose_stage L cfg s f = Except.ok s4)
    (h1 : finish_frame cfg f s4 = Except.ok s1) :
    run_pose_estimation L cfg s f = Except.ok s1 := by
  unfold run_pose_estimation
  exact (bind_eq_ok _ _ _).mpr ⟨s4, h4, h1⟩

theorem log_data_total (cfg : Config K) (n : Nat) (s : State K)
    (hc : s.converted_ground_truth_vector_.length = 6)
    (hfull : full_row_condition cfg s = true →
      2 < s.second_ransac_model_coefficients_.length ∧
      2 < s.first_ransac_model_coefficients_.length) :
    ∃ s1, log_data cfg n s = Except.ok s1 := by
  unfold log_data
  split
  · rename_i h
    obtain ⟨h2, h1⟩ := hfull h
    simp only [plane_normal_x_id_, plane_normal_z_id_]
    rw [vec_at_of_lt _ 0 (by omega), vec_at_of_lt _ 2 h1, vec_at_of_lt _ 2 h2,
      vec_at_of_lt _ 0 (by omega), vec_at_of_lt _ 1 (by omega), vec_at_of_lt _ 2 (by omega),
      vec_at_of_lt _ 3 (by omega), vec_at_of_lt _ 4 (by omega), vec_at_of_lt _ 5 (by omega)]
    exact ⟨_, rfl⟩
  · exact ⟨_, rfl⟩

theorem finish_frame_total (cfg : Config K) (f : Frame K) (s4 : State K)
    (hc : s4.converted_ground_truth_vector_.length = 6)
    (hg : s4.rvecs_ ≠ [] → s4.tvecs_ ≠ [] → 3 ≤ s4.ground_truth_vector_.length)
    (hfull : full_row_condition cfg (calculate_pose f s4) = true →
      2 < s4.second_ransac_model_coefficients_.length ∧
      2 < s4.first_ransac_model_coefficients_.length) :
    ∃ s1, finish_frame cfg f s4 = Except.ok s1 := by
  obtain ⟨s6, h6⟩ := view_pointcloud_total
    { s4 with wait_with_ransac_for_ := s4.wait_with_ransac_for_ + 1 } hc hg
  obtain ⟨c, rfl, hcl⟩ := view_pointcloud_ok _ _ h6
  obtain ⟨q1, q2, q3, q4, -⟩ := calculate_pose_fields f
    { s4 with wait_with_ransac_for_ := s4.wait_with_ransac_for_ + 1,
              converted_ground_truth_vector_ := c }
  obtain ⟨-, -, -, r4⟩ := calculate_pose_congr cfg f s4 (s4.wait_with_ransac_for_ + 1) c
  obtain ⟨s8, h8⟩ := log_data_total cfg f.frame_number
    (calculate_pose f
      { s4 with wait_with_ransac_for_ := s4.wait_with_ransac_for_ + 1,
                converted_ground_truth_vector_ := c })
    (by rw [q4]; exact hcl.trans hc)
    (by
      rw [r4, q3, q2]
      exact hfull)
  unfold finish_frame
  rw [h6]
  simp only [bind, Except.bind]
  rw [h8]
  exact ⟨_, rfl⟩

/-- The state that `calculate_pose_vector` returns, by cases on the sign of the
third entry of `second_ransac_model_coefficients_`. -/
theorem calculate_pose_vector_cases (s s1 : State K)
    (h : calculate_pose_vector s = Except.ok s1) :
    ∃ nx ny nz d rest c2, s.ransac_model_coefficients_ = nx :: ny :: nz :: d :: rest ∧
      vec_at s.second_ransac_model_coefficients_ 2 = Except.ok c2 ∧
      ((¬ c2 > 0 ∧
        s1 = store_intersection s (plane_orgin nx ny nz d)
          (scale3 s.center_frustum_
            (distance_scalar (plane_orgin nx ny nz d) ⟨nx, ny, nz⟩ s.center_frustum_))) ∨
       (c2 > 0 ∧ ∃ a2 c1, vec_at s.second_ransac_model_coefficients_ 0 = Except.ok a2 ∧
        vec_at s.first_ransac_model_coefficients_ 2 = Except.ok c1 ∧
        s1 = store_end_point
          (store_intersection s (plane_orgin nx ny nz d)
            (scale3 s.center_frustum_
              (distance_scalar (plane_orgin nx ny nz d) ⟨nx, ny, nz⟩ s.center_frustum_)))
          (scale3 s.center_frustum_
            (distance_scalar (plane_orgin nx ny nz d) ⟨nx, ny, nz⟩ s.center_frustum_))
          a2 c1 c2)) := by
  have hlen : 3 < s.ransac_model_coefficients_.length := by
    by_contra hc
    rw [calculate_pose_vector_short s (Nat.le_of_not_lt hc)] at h
    cases h
  obtain ⟨nx, ny, nz, d, rest, hcoef⟩ :
      ∃ nx ny nz d rest, s.ransac_model_coefficients_ = nx :: ny :: nz :: d :: rest := by
    match hm : s.ransac_model_coefficients_, hlen with
    | nx :: ny :: nz :: d :: rest, _ => exact ⟨nx, ny, nz, d, rest, rfl⟩
  rw [calculate_pose_vector_unfold s nx ny nz d rest hcoef] at h
  cases h2 : vec_at s.second_ransac_model_coefficients_ 2 with
  | error e => rw [h2] at h; cases h
  | ok c2 =>
    refine ⟨nx, ny, nz, d, rest, c2, hcoef, rfl, ?_⟩
    rw [h2] at h
    simp only [Except.bind] at h
    split at h
    · rename_i hpos
      cases h0 : vec_at s.second_ransac_model_coefficients_ 0 with
      | error e => rw [h0] at h; cases h
      | ok a2 =>
        cases h1 : vec_at s.first_ransac_model_coefficients_ 2 with
        | error e => rw [h0, h1] at h; cases h
        | ok c1 =>
          rw [h0, h1] at h
          simp only [Except.bind] at h
          cases h
          exact Or.inr ⟨hpos, a2, c1, rfl, rfl, rfl⟩
    · rename_i hneg
      cases h
      exact Or.inl ⟨hneg, rfl⟩

/-- The call `calculate_pose_vector` returns as soon as the three coefficient vectors are
long enough. -/
theorem calculate_pose_vector_total (s : State K)
    (h0 : 3 < s.ransac_model_coefficients_.length)
    (h2 : 2 < s.second_ransac_model_coefficients_.length)
    (h1 : 2 < s.first_ransac_model_coefficients_.length) :
    ∃ s1, calculate_pose_vector s = Except.ok s1 := by
  obtain ⟨nx, ny, nz, d, rest, hcoef⟩ :
      ∃ nx ny nz d rest, s.ransac_model_coefficients_ = nx :: ny :: nz :: d :: rest := by
    match hm : s.ransac_model_coefficients_, h0 with
    | nx :: ny :: nz :: d :: rest, _ => exact ⟨nx, ny, nz, d, rest, rfl⟩
  rw [calculate_pose_vector_unfold s nx ny nz d rest hcoef, vec_at_of_lt _ _ h2,
    vec_at_of_lt _ _ (Nat.lt_trans (by decide) h2), vec_at_of_lt _ _ h1]
  simp only [Except.bind]
  split
  · exact ⟨_, rfl⟩
  · exact ⟨_, rfl⟩

/-- A call that finds the second coefficient vector too short throws. -/
theorem calculate_pose_vector_second_short (s : State K)
    (h2 : s.second_ransac_model_coefficients_.length ≤ 2) :
    calculate_pose_vector s = Except.error Err.out_of_range := by
  cases h : calculate_pose_vector s with
  | error e => cases e; rfl
  | ok s1 =>
    obtain ⟨nx, ny, nz, d, rest, c2, -, hc2, -⟩ := calculate_pose_vector_cases s s1 h
    rw [vec_at_of_le _ _ h2] at hc2
    cases hc2

/-! ### Whole frames -/

theorem full_row_condition_short (cfg : Config K) (s : State K)
    (h : s.ransac_model_coefficients_.length ≤ 1) : full_row_condition cfg s = false := by
  simp only [full_row_condition, Bool.and_eq_false_iff, decide_eq_false_iff_not]
  left; left; right
  omega

/-- A frame whose cascade stage leaves no background coefficients: the frame
completes, `calculate_pose_vector` is not called, and the row is the frame
number alone. -/
theorem no_plane_step (L : Lib K) (cfg : Config K) (s : State K) (f : Frame K)
    (hinv : frame_start_invariant s) (hwf : frame_well_formed f)
    (hno : (cascade_stage L cfg s f).ransac_model_coefficients_ = []) :
    ∃ s1, run_pose_estimation L cfg s f = Except.ok s1 ∧ frame_start_invariant s1 ∧
      finish_keeps (cascade_stage L cfg s f) s1 ∧
      s1.wait_with_ransac_for_ = s.wait_with_ransac_for_ + 1 ∧
      s1.log = s.log ++ [⟨f.frame_number, []⟩] ∧
      s1.rvecs_ = (calculate_pose f (cascade_stage L cfg s f)).rvecs_ ∧
      s1.tvecs_ = (calculate_pose f (cascade_stage L cfg s f)).tvecs_ := by
  obtain ⟨hs0, hs1, hs2⟩ := hinv
  obtain ⟨k1, k2, k3, k4, k5, k6, k7, k8, k9, k10⟩ := cascade_stage_keeps L cfg s f
  obtain ⟨m1, m2, m3, m4, m5, m6, m7, m8⟩ := frustum_stage_keeps L cfg s f
  have hgb : gate_b cfg (cascade_stage L cfg s f) = false := by
    simp [gate_b, hno]
  have h4 : pose_stage L cfg s f = Except.ok (cascade_stage L cfg s f) := by
    unfold pose_stage
    rw [hgb]
    rfl
  have hfr : full_row_condition cfg (calculate_pose f (cascade_stage L cfg s f)) = false := by
    apply full_row_condition_short
    rw [(calculate_pose_fields f _).1, hno]
    simp
  obtain ⟨s1, h1⟩ := finish_frame_total cfg f (cascade_stage L cfg s f)
    (by rw [k6, m6]; exact hs1)
    (by rw [k3, k4, k5, m3, m4, m5]; exact hs2)
    (by rw [hfr]; intro h; cases h)
  obtain ⟨e1, e2, e3, e4, e5, e6, e7, row, hrow, hfn, hcase⟩ :=
    finish_frame_ok cfg f (cascade_stage L cfg s f) s1 h1
  have hrv : row.values = [] := by
    rcases hcase with ⟨-, hv⟩ | ⟨ht, -⟩
    · exact hv
    · rw [hfr] at ht
      cases ht
  have hrow2 : row = ⟨f.frame_number, []⟩ := by
    cases row
    simp only at hfn hrv
    rw [hfn, hrv]
  refine ⟨s1, run_pose_estimation_of_stages L cfg s _ s1 f h4 h1, ⟨e3, ?_, ?_⟩, e1, ?_, ?_,
    e5, e6⟩
  · rw [e4, k6, m6]
    exact hs1
  · rw [e5, e6, e7]
    rcases calculate_pose_markers f (cascade_stage L cfg s f) with
      ⟨hr, ht, p1, p2, p3⟩ | ⟨-, p1, p2, p3⟩
    · intro _ _
      rw [p3]
      exact hwf hr ht
    · rw [p1, p2, p3, k3, k4, k5, m3, m4, m5]
      exact hs2
  · rw [e2, k1, m1]
  · rw [hrow, hrow2, k2, m2]

/-- With Gate A closed the cascade stage is the frustum stage. -/
theorem cascade_stage_closed (L : Lib K) (cfg : Config K) (s : State K) (f : Frame K)
    (hg : gate_a cfg f.detection_output_struct_ (frustum_stage L cfg s f) = false) :
    cascade_stage L cfg s f = frustum_stage L cfg s f := by
  unfold cascade_stage
  rw [hg]
  rfl

/-- With Gate A open the cascade stage is `calculate_ransac` after the frustum
stage. -/
theorem cascade_stage_open (L : Lib K) (cfg : Config K) (s : State K) (f : Frame K)
    (hg : gate_a cfg f.detection_output_struct_ (frustum_stage L cfg s f) = true) :
    cascade_stage L cfg s f = calculate_ransac cfg f (frustum_stage L cfg s f) := by
  unfold cascade_stage
  rw [hg]
  rfl

/-! ### Runs -/

theorem run_frames_nil (L : Lib K) (cfg : Config K) (s : State K) :
    run_frames L cfg s [] = Except.ok s := rfl

theorem run_frames_cons (L : Lib K) (cfg : Config K) (s : State K) (f : Frame K)
    (fs : List (Frame K)) :
    run_frames L cfg s (f :: fs) =
      (run_pose_estimation L cfg s f >>= fun s1 => run_frames L cfg s1 fs) := rfl

theorem run_frames_cons_ok (L : Lib K) (cfg : Config K) (s s1 : State K) (f : Frame K)
    (fs : List (Frame K)) (h : run_pose_estimation L cfg s f = Except.ok s1) :
    run_frames L cfg s (f :: fs) = run_frames L cfg s1 fs := by
  rw [run_frames_cons, h]
  rfl

theorem run_frames_snoc (L : Lib K) (cfg : Config K) (pre : List (Frame K)) (f : Frame K) :
    ∀ s s1, run_frames L cfg s pre = Except.ok s1 →
      run_frames L cfg s (pre ++ [f]) = run_pose_estimation L cfg s1 f := by
  induction pre with
  | nil =>
    intro s s1 h
    cases h
    show (run_pose_estimation L cfg s f >>= fun s1 => Except.ok s1) = _
    cases run_pose_estimation L cfg s f <;> rfl
  | cons g gs ih =>
    intro s s1 h
    rw [run_frames_cons] at h
    obtain ⟨s2, h2, h3⟩ := (bind_eq_ok _ _ _).mp h
    rw [List.cons_append, run_frames_cons_ok L cfg s s2 g _ h2]
    exact ih s2 s1 h3

/-- Every completed frame increments the warm-up counter by one. -/
theorem run_pose_estimation_wait (L : Lib K) (cfg : Config K) (s s1 : State K) (f : Frame K)
    (h : run_pose_estimation L cfg s f = Except.ok s1) :
    s1.wait_with_ransac_for_ = s.wait_with_ransac_for_ + 1 := by
  obtain ⟨s4, h4, h1⟩ := run_pose_estimation_ok L cfg s s1 f h
  obtain ⟨-, e2, -⟩ := finish_frame_ok cfg f s4 s1 h1
  have hk := (cascade_stage_keeps L cfg s f).1
  have hm := (frustum_stage_keeps L cfg s f).1
  rcases pose_stage_ok L cfg s s4 f h4 with ⟨-, rfl⟩ | ⟨-, hp⟩
  · rw [e2, hk, hm]
  · obtain ⟨nx, ny, nz, d, rest, c2, -, -, hc⟩ := calculate_pose_vector_cases _ _ hp
    rcases hc with ⟨-, rfl⟩ | ⟨-, a2, c1, -, -, rfl⟩
    · rw [e2]
      show (cascade_stage L cfg s f).wait_with_ransac_for_ + 1 = _
      rw [hk, hm]
    · rw [e2]
      show (cascade_stage L cfg s f).wait_with_ransac_for_ + 1 = _
      rw [hk, hm]

theorem run_frames_wait (L : Lib K) (cfg : Config K) (pre : List (Frame K)) :
    ∀ s s1, run_frames L cfg s pre = Except.ok s1 →
      s1.wait_with_ransac_for_ = s.wait_with_ransac_for_ + pre.length := by
  induction pre with
  | nil =>
    intro s s1 h
    cases h
    rfl
  | cons g gs ih =>
    intro s s1 h
    rw [run_frames_cons] at h
    obtain ⟨s2, h2, h3⟩ := (bind_eq_ok _ _ _).mp h
    rw [ih s2 s1 h3, run_pose_estimation_wait L cfg s s2 g h2, List.length_cons]
    omega

/-- What a completed `pose_stage` changed: nothing when Gate B is closed, the
writes of `calculate_pose_vector` when it is open. -/
theorem pose_stage_cases (L : Lib K) (cfg : Config K) (s s4 : State K) (f : Frame K)
    (h : pose_stage L cfg s f = Except.ok s4) :
    (gate_b cfg (cascade_stage L cfg s f) = false ∧ s4 = cascade_stage L cfg s f) ∨
    (gate_b cfg (cascade_stage L cfg s f) = true ∧
      ∃ nx ny nz d rest c2,
        (cascade_stage L cfg s f).ransac_model_coefficients_ = nx :: ny :: nz :: d :: rest ∧
        vec_at (cascade_stage L cfg s f).second_ransac_model_coefficients_ 2 = Except.ok c2 ∧
        ((¬ c2 > 0 ∧
          s4 = store_intersection (cascade_stage L cfg s f) (plane_orgin nx ny nz d)
            (scale3 (cascade_stage L cfg s f).center_frustum_
              (distance_scalar (plane_orgin nx ny nz d) ⟨nx, ny, nz⟩
                (cascade_stage L cfg s f).center_frustum_))) ∨
         (c2 > 0 ∧ ∃ a2 c1,
          vec_at (cascade_stage L cfg s f).second_ransac_model_coefficients_ 0
            = Except.ok a2 ∧
          vec_at (cascade_stage L cfg s f).first_ransac_model_coefficients_ 2
            = Except.ok c1 ∧
          s4 = store_end_point
            (store_intersection (cascade_stage L cfg s f) (plane_orgin nx ny nz d)
              (scale3 (cascade_stage L cfg s f).center_frustum_
                (distance_scalar (plane_orgin nx ny nz d) ⟨nx, ny, nz⟩
                  (cascade_stage L cfg s f).center_frustum_)))
            (scale3 (cascade_stage L cfg s f).center_frustum_
              (distance_scalar (plane_orgin nx ny nz d) ⟨nx, ny, nz⟩
                (cascade_stage L cfg s f).center_frustum_))
            a2 c1 c2))) := by
  rcases pose_stage_ok L cfg s s4 f h with h0 | ⟨hg, hp⟩
  · exact Or.inl h0
  · exact Or.inr ⟨hg, calculate_pose_vector_cases _ _ hp⟩

/-- The fields that `pose_stage` never writes. -/
theorem pose_stage_keeps (L : Lib K) (cfg : Config K) (s s4 : State K) (f : Frame K)
    (h : pose_stage L cfg s f = Except.ok s4) :
    s4.ransac_model_coefficients_ = (cascade_stage L cfg s f).ransac_model_coefficients_ ∧
    s4.first_ransac_model_coefficients_
      = (cascade_stage L cfg s f).first_ransac_model_coefficients_ ∧
    s4.second_ransac_model_coefficients_
      = (cascade_stage L cfg s f).second_ransac_model_coefficients_ ∧
    s4.converted_ground_truth_vector_
      = (cascade_stage L cfg s f).converted_ground_truth_vector_ ∧
    s4.rvecs_ = (cascade_stage L cfg s f).rvecs_ ∧
    s4.tvecs_ = (cascade_stage L cfg s f).tvecs_ ∧
    s4.ground_truth_vector_ = (cascade_stage L cfg s f).ground_truth_vector_ ∧
    s4.wait_with_ransac_for_ = (cascade_stage L cfg s f).wait_with_ransac_for_ ∧
    s4.log = (cascade_stage L cfg s f).log ∧
    s4.center_frustum_ = (cascade_stage L cfg s f).center_frustum_ := by
  rcases pose_stage_cases L cfg s s4 f h with ⟨-, rfl⟩ | ⟨-, nx, ny, nz, d, rest, c2, -, -, hc⟩
  · exact ⟨rfl, rfl, rfl, rfl, rfl, rfl, rfl, rfl, rfl, rfl⟩
  · rcases hc with ⟨-, rfl⟩ | ⟨-, a2, c1, -, -, rfl⟩
    · exact ⟨rfl, rfl, rfl, rfl, rfl, rfl, rfl, rfl, rfl, rfl⟩
    · exact ⟨rfl, rfl, rfl, rfl, rfl, rfl, rfl, rfl, rfl, rfl⟩

/-- The trace of a completed frame: the events of the cascade stage, followed
by `calculate_pose_vector` exactly when Gate B was open. -/
theorem run_pose_estimation_trace (L : Lib K) (cfg : Config K) (s s1 : State K) (f : Frame K)
    (h : run_pose_estimation L cfg s f = Except.ok s1) :
    (gate_b cfg (cascade_stage L cfg s f) = false ∧
      s1.trace = (cascade_stage L cfg s f).trace) ∨
    (gate_b cfg (cascade_stage L cfg s f) = true ∧
      s1.trace = (cascade_stage L cfg s f).trace ++ [Event.calculate_pose_vector]) := by
  obtain ⟨s4, h4, h1⟩ := run_pose_estimation_ok L cfg s s1 f h
  obtain ⟨⟨e1, -⟩, -⟩ := finish_frame_ok cfg f s4 s1 h1
  rcases pose_stage_cases L cfg s s4 f h4 with ⟨hg, rfl⟩ | ⟨hg, nx, ny, nz, d, rest, c2, -, -, hc⟩
  · exact Or.inl ⟨hg, e1⟩
  · rcases hc with ⟨-, rfl⟩ | ⟨-, a2, c1, -, -, rfl⟩
    · exact Or.inr ⟨hg, e1⟩
    · exact Or.inr ⟨hg, e1⟩

/-- The function `calculate_ransac` is called in a completed frame exactly when Gate A is
open. -/
theorem run_pose_estimation_ransac_iff (L : Lib K) (cfg : Config K) (s s1 : State K)
    (f : Frame K) (h : run_pose_estimation L cfg s f = Except.ok s1) :
    Event.calculate_ransac ∈ s1.trace ↔
      gate_a cfg f.detection_output_struct_ (frustum_stage L cfg s f) = true := by
  rw [← (cascade_stage_trace L cfg s f).1]
  rcases run_pose_estimation_trace L cfg s s1 f h with ⟨-, ht⟩ | ⟨-, ht⟩
  · rw [ht]
  · rw [ht]
    simp

/-- No background coefficients come out of the cascade stage when the frame
starts without any and Gate A is closed or the culled cloud is too small. -/
theorem cascade_stage_no_plane (L : Lib K) (cfg : Config K) (s : State K) (f : Frame K)
    (hs : s.ransac_model_coefficients_ = [])
    (hno : gate_a cfg f.detection_output_struct_ (frustum_stage L cfg s f) = false ∨
      (frustum_stage L cfg s f).cloud_pallet_.length ≤ cfg.minimum_points_for_ransac_) :
    (cascade_stage L cfg s f).ransac_model_coefficients_ = [] := by
  rw [cascade_stage_coefficients, if_neg, hs]
  rintro ⟨hg, hc⟩
  rcases hno with h | h
  · rw [h] at hg
    cases hg
  · omega

theorem initial_state_invariant : frame_start_invariant (initial_state : State K) := by
  simp [frame_start_invariant, initial_state]

/-- The invariant between frames is kept by every completed frame. -/
theorem run_pose_estimation_invariant (L : Lib K) (cfg : Config K) (s s1 : State K)
    (f : Frame K) (hinv : frame_start_invariant s) (hwf : frame_well_formed f)
    (h : run_pose_estimation L cfg s f = Except.ok s1) : frame_start_invariant s1 := by
  obtain ⟨hs0, hs1, hs2⟩ := hinv
  obtain ⟨s4, h4, h1⟩ := run_pose_estimation_ok L cfg s s1 f h
  obtain ⟨-, -, e3, e4, e5, e6, e7, -⟩ := finish_frame_ok cfg f s4 s1 h1
  obtain ⟨-, -, -, p4, p5, p6, p7, -⟩ := pose_stage_keeps L cfg s s4 f h4
  obtain ⟨k1, k2, k3, k4, k5, k6, -⟩ := cascade_stage_keeps L cfg s f
  obtain ⟨m1, m2, m3, m4, m5, m6, -⟩ := frustum_stage_keeps L cfg s f
  refine ⟨e3, ?_, ?_⟩
  · rw [e4, p4, k6, m6]
    exact hs1
  · rw [e5, e6, e7]
    rcases calculate_pose_markers f s4 with ⟨hr, ht, q1, q2, q3⟩ | ⟨-, q1, q2, q3⟩
    · intro _ _
      rw [q3]
      exact hwf hr ht
    · rw [q1, q2, q3, p5, p6, p7, k3, k4, k5, m3, m4, m5]
      exact hs2

theorem frustum_stage_center (L : Lib K) (cfg : Config K) (s : State K) (f : Frame K) :
    (frustum_stage L cfg s f).center_frustum_ =
      ⟨s.center_frustum_.x / 4 + (arithmetic_mean (corner_rays cfg f.detection_output_struct_)).x,
       s.center_frustum_.y / 4 + (arithmetic_mean (corner_rays cfg f.detection_output_struct_)).y,
       s.center_frustum_.z / 4
         + (arithmetic_mean (corner_rays cfg f.detection_output_struct_)).z⟩ :=
  calculate_3d_crop_center L cfg f.detection_output_struct_ { s with trace := [] }

theorem frustum_stage_cloud (L : Lib K) (cfg : Config K) (s : State K) (f : Frame K) :
    (frustum_stage L cfg s f).cloud_pallet_ =
      f.pcl_points_.filter (L.frustum_inside
        (frustum_of L cfg (calculate_3d_crop L cfg f.detection_output_struct_
          { s with trace := [] }))) := rfl

/-- A frame with Gate A closed: it completes and only the frustum, the counter,
the marker reference and the log change. -/
theorem gate_closed_step (L : Lib K) (cfg : Config K) (s : State K) (f : Frame K)
    (hinv : frame_start_invariant s) (hwf : frame_well_formed f)
    (hg : gate_a cfg f.detection_output_struct_ (frustum_stage L cfg s f) = false) :
    ∃ s1, run_pose_estimation L cfg s f = Except.ok s1 ∧ frame_start_invariant s1 ∧
      s1.wait_with_ransac_for_ = s.wait_with_ransac_for_ + 1 ∧
      s1.log = s.log ++ [⟨f.frame_number, []⟩] ∧ s1.trace = [] ∧
      s1.first_ransac_model_coefficients_ = s.first_ransac_model_coefficients_ ∧
      s1.second_ransac_model_coefficients_ = s.second_ransac_model_coefficients_ ∧
      s1.output_cloud_with_normals_ = s.output_cloud_with_normals_ ∧
      s1.extracted_cloud_with_normals_ = s.extracted_cloud_with_normals_ ∧
      s1.pose_vector_end_point_ = s.pose_vector_end_point_ ∧
      s1.plane_frustum_vector_intersect_ = s.plane_frustum_vector_intersect_ ∧
      s1.center_frustum_ = (frustum_stage L cfg s f).center_frustum_ ∧
      (f.rvecs = [] → s1.rvecs_ = s.rvecs_ ∧ s1.tvecs_ = s.tvecs_) := by
  have hc := cascade_stage_closed L cfg s f hg
  obtain ⟨s1, h1, i1, ⟨e1, e2, e3, e4, e5, e6, e7, e8⟩, w1, l1, r1, r2⟩ :=
    no_plane_step L cfg s f hinv hwf (cascade_stage_no_plane L cfg s f hinv.1 (Or.inl hg))
  rw [hc] at e1 e2 e3 e4 e5 e6 e7 e8 r1 r2
  refine ⟨s1, h1, i1, w1, l1, e1, e2, e3, e7, e8, e4, e5, e6, ?_⟩
  intro hr
  rcases calculate_pose_markers f (frustum_stage L cfg s f) with ⟨hne, -⟩ | ⟨-, q1, q2, -⟩
  · exact absurd hr hne
  · rw [r1, r2, q1, q2]
    exact ⟨rfl, rfl⟩

theorem idle_frame_gate_closed (L : Lib K) (s : State K) (n : Nat) :
    gate_a example_config (idle_frame n : Frame K).detection_output_struct_
      (frustum_stage L example_config s (idle_frame n)) = false := by
  rw [gate_a_frustum_stage]
  have : ¬ ((10 : K) > 50) := by norm_num
  simp [box_large, idle_frame, small_box, example_config, this]

theorem idle_frame_well_formed (n : Nat) : frame_well_formed (idle_frame n : Frame K) := by
  simp [frame_well_formed, idle_frame]

theorem small_box_mean :
    arithmetic_mean (corner_rays (example_config : Config K) small_box) = ⟨0, 0, 1⟩ := by
  simp [arithmetic_mean, corner_rays, detection_point_vec, from_image_center, frustum_point,
    example_config, small_box]
  norm_num

theorem centered_box_mean :
    arithmetic_mean (corner_rays (example_config : Config K) centered_box) = ⟨0, 0, 1⟩ := by
  simp [arithmetic_mean, corner_rays, detection_point_vec, from_image_center, frustum_point,
    example_config, centered_box]
  norm_num

/-- The two warm-up frames `idle_frame 0`, `idle_frame 1` from the initial
state. -/
theorem warmup_run (L : Lib K) :
    ∃ s2, run_frames L example_config initial_state [idle_frame 0, idle_frame 1]
        = Except.ok s2 ∧ frame_start_invariant s2 ∧ s2.wait_with_ransac_for_ = 2 ∧
      s2.first_ransac_model_coefficients_ = [] ∧ s2.second_ransac_model_coefficients_ = [] ∧
      s2.output_cloud_with_normals_ = [] ∧ s2.extracted_cloud_with_normals_ = [] ∧
      s2.pose_vector_end_point_ = ⟨0, 0, 0⟩ ∧ s2.rvecs_ = [] ∧ s2.tvecs_ = [] ∧
      s2.center_frustum_ = ⟨0, 0, 5 / 4⟩ ∧ s2.log = [⟨0, []⟩, ⟨1, []⟩] := by
  obtain ⟨s1, h1, i1, w1, l1, -, a1, b1, c1, d1, p1, -, m1, v1⟩ :=
    gate_closed_step L example_config initial_state (idle_frame 0) initial_state_invariant
      (idle_frame_well_formed 0) (idle_frame_gate_closed L _ 0)
  obtain ⟨s2, h2, i2, w2, l2, -, a2, b2, c2, d2, p2, -, m2, v2⟩ :=
    gate_closed_step L example_config s1 (idle_frame 1) i1
      (idle_frame_well_formed 1) (idle_frame_gate_closed L _ 1)
  refine ⟨s2, ?_, i2, ?_, ?_, ?_, ?_, ?_, ?_, ?_, ?_, ?_, ?_⟩
  · rw [run_frames_cons_ok L _ _ s1 _ _ h1, run_frames_cons_ok L _ _ s2 _ _ h2, run_frames_nil]
  · rw [w2, w1]
    rfl
  · rw [a2, a1]
    rfl
  · rw [b2, b1]
    rfl
  · rw [c2, c1]
    rfl
  · rw [d2, d1]
    rfl
  · rw [p2, p1]
    rfl
  · rw [(v2 rfl).1, (v1 rfl).1]
    rfl
  · rw [(v2 rfl).2, (v1 rfl).2]
    rfl
  · rw [m2, frustum_stage_center, m1, frustum_stage_center]
    have hd : (idle_frame 0 : Frame K).detection_output_struct_ = small_box := rfl
    have hd1 : (idle_frame 1 : Frame K).detection_output_struct_ = small_box := rfl
    rw [hd, hd1, small_box_mean]
    simp [initial_state]
    norm_num
  · rw [l2, l1]
    rfl

/-- The third frame of the example runs with a large box and an empty cloud:
from the warmed-up state it completes and `calculate_ransac` is called. -/
theorem large_box_frame_step (L : Lib K) (s2 : State K) (hinv : frame_start_invariant s2)
    (hw : s2.wait_with_ransac_for_ = 2) :
    ∃ s3, run_pose_estimation L example_config s2 (large_box_frame 2) = Except.ok s3 ∧
      Event.calculate_ransac ∈ s3.trace := by
  have hsmall : (frustum_stage L example_config s2 (large_box_frame 2)).cloud_pallet_.length
      ≤ (example_config : Config K).minimum_points_for_ransac_ := by
    rw [frustum_stage_cloud]
    simp [large_box_frame, idle_frame]
  obtain ⟨s3, h3, -⟩ := no_plane_step L example_config s2 (large_box_frame 2) hinv
    (by simp [frame_well_formed, large_box_frame, idle_frame])
    (cascade_stage_no_plane L _ s2 _ hinv.1 (Or.inr hsmall))
  refine ⟨s3, h3, (run_pose_estimation_ransac_iff L _ s2 s3 _ h3).mpr ?_⟩
  rw [gate_a_frustum_stage, hw]
  have : (200 : K) > 50 := by norm_num
  simp [box_large, large_box_frame, centered_box, example_config, this]

/-- The cascade stage of a frame with Gate A open and a culled cloud above both
point thresholds, stage by stage. `out` is the NaN-free sampled normal cloud of
this frame. -/
theorem cascade_stage_open_summary (L : Lib K) (cfg : Config K) (s : State K) (f : Frame K)
    (hg : gate_a cfg f.detection_output_struct_ (frustum_stage L cfg s f) = true)
    (hc : (frustum_stage L cfg s f).cloud_pallet_.length > cfg.minimum_points_for_ransac_)
    (hs : (frustum_stage L cfg s f).cloud_pallet_.length
      > cfg.minimum_points_for_sampling_surface_normals_) :
    (cascade_stage L cfg s f).first_ransac_model_coefficients_
      = PlaneFit.values (f.seg_segment (frustum_stage L cfg s f).cloud_pallet_) ∧
    (cascade_stage L cfg s f).output_cloud_with_normals_
      = f.remove_nan_normals (f.sample_surface_normal
          ((frustum_stage L cfg s f).cloud_pallet_.map to_point_normal)) ∧
    (cascade_stage L cfg s f).ransac_model_coefficients_
      = PlaneFit.values (f.segmentation (cascade_stage L cfg s f).output_cloud_with_normals_) ∧
    (cascade_stage L cfg s f).extracted_cloud_with_normals_
      = (if (cascade_stage L cfg s f).output_cloud_with_normals_.length
            > cfg.minimum_points_for_ransac_ then
          extract_negative (cascade_stage L cfg s f).output_cloud_with_normals_
            (PlaneFit.indices
              (f.segmentation (cascade_stage L cfg s f).output_cloud_with_normals_))
        else s.extracted_cloud_with_normals_) ∧
    (cascade_stage L cfg s f).second_ransac_model_coefficients_
      = (if (cascade_stage L cfg s f).extracted_cloud_with_normals_.length
            > cfg.minimum_points_for_ransac_ then
          PlaneFit.values
            (f.second_segmentation (cascade_stage L cfg s f).extracted_cloud_with_normals_)
        else s.second_ransac_model_coefficients_) ∧
    (cascade_stage L cfg s f).trace
      = (if (cascade_stage L cfg s f).extracted_cloud_with_normals_.length
            > cfg.minimum_points_for_ransac_ then
          [Event.calculate_ransac,
           Event.background_fit (cascade_stage L cfg s f).output_cloud_with_normals_
             (PlaneFit.indices
               (f.segmentation (cascade_stage L cfg s f).output_cloud_with_normals_)),
           Event.face_fit (cascade_stage L cfg s f).extracted_cloud_with_normals_]
        else
          [Event.calculate_ransac,
           Event.background_fit (cascade_stage L cfg s f).output_cloud_with_normals_
             (PlaneFit.indices
               (f.segmentation (cascade_stage L cfg s f).output_cloud_with_normals_))]) := by
  obtain ⟨p1, p2, p3, p4, p5, p6⟩ := calculate_ransac_proj cfg f (frustum_stage L cfg s f)
  obtain ⟨a1, a2, a3, a4, a5, a6⟩ := after_face_fields cfg f (frustum_stage L cfg s f)
  obtain ⟨b1, b2, b3, b4, b5, b6⟩ := after_extract_fields cfg f (frustum_stage L cfg s f)
  obtain ⟨c1, c2, c3, c4, c5, c6, c7⟩ := after_background_fields cfg f (frustum_stage L cfg s f)
  obtain ⟨d1, d2, d3, d4, d5, d6⟩ := after_sampling_fields cfg f (frustum_stage L cfg s f)
  obtain ⟨e1, e2, e3, e4, e5, e6⟩ := after_coarse_fields cfg f (frustum_stage L cfg s f)
  rw [if_pos hc] at c5 c6 c7 e6
  rw [if_pos hs] at d6
  rw [cascade_stage_open L cfg s f hg, p1, p2, p3, p4, p5, p6, a1, a2, a3, a4, a5, a6, b6, c5,
    c6, c7, e6, d6]
  refine ⟨rfl, rfl, rfl, rfl, rfl, ?_⟩
  split
  · rfl
  · rfl

/-- An exception in `calculate_pose_vector` behind an open Gate B ends the frame. -/
theorem run_pose_estimation_throws (L : Lib K) (cfg : Config K) (s : State K) (f : Frame K)
    (e : Err) (hg : gate_b cfg (cascade_stage L cfg s f) = true)
    (hp : calculate_pose_vector (cascade_stage L cfg s f) = Except.error e) :
    run_pose_estimation L cfg s f = Except.error e := by
  have h4 : pose_stage L cfg s f = Except.error e := by
    unfold pose_stage
    rw [if_pos hg]
    exact hp
  unfold run_pose_estimation
  rw [h4]
  rfl

theorem run_frames_snoc_error (L : Lib K) (cfg : Config K) (s s1 : State K)
    (pre : List (Frame K)) (f : Frame K) (e : Err)
    (h1 : run_frames L cfg s pre = Except.ok s1)
    (h2 : run_pose_estimation L cfg s1 f = Except.error e) :
    run_frames L cfg s (pre ++ [f]) = Except.error e := by
  rw [run_frames_snoc L cfg pre f s s1 h1]
  exact h2

/-- With the accept-all frustum test of `lib_with` the culled cloud is the
input cloud. -/
theorem frustum_stage_cloud_lib_with (sq ac co si : K → K) (cfg : Config K) (s : State K)
    (f : Frame K) :
    (frustum_stage (lib_with sq ac co si) cfg s f).cloud_pallet_ = f.pcl_points_ := by
  rw [frustum_stage_cloud]
  simp [lib_with]

theorem centered_box_gate_open (L : Lib K) (s : State K) (f : Frame K)
    (hd : f.detection_output_struct_ = centered_box) (hw : s.wait_with_ransac_for_ > 1) :
    gate_a example_config f.detection_output_struct_ (frustum_stage L example_config s f)
      = true := by
  rw [gate_a_frustum_stage, hd]
  have : (200 : K) > 50 := by norm_num
  simp [box_large, centered_box, example_config, this]
  exact hw

/-- The cascade stage of `all_inliers_frame` on a warmed-up state without face
coefficients. -/
theorem all_inliers_cascade (sq ac co si : K → K) (s : State K) (n : Nat)
    (hw : s.wait_with_ransac_for_ > 1) (h2 : s.second_ransac_model_coefficients_ = []) :
    (cascade_stage (lib_with sq ac co si) example_config s
        (all_inliers_frame n)).ransac_model_coefficients_ = [0, 0, 1, -5] ∧
    (cascade_stage (lib_with sq ac co si) example_config s
        (all_inliers_frame n)).extracted_cloud_with_normals_ = [] ∧
    (cascade_stage (lib_with sq ac co si) example_config s
        (all_inliers_frame n)).second_ransac_model_coefficients_ = [] := by
  have hcl := frustum_stage_cloud_lib_with sq ac co si example_config s (all_inliers_frame n)
  obtain ⟨-, hout, hr, hex, hsec, -⟩ := cascade_stage_open_summary (lib_with sq ac co si)
    example_config s (all_inliers_frame n)
    (centered_box_gate_open _ s _ rfl hw)
    (by rw [hcl]; simp [all_inliers_frame, three_points, example_config])
    (by rw [hcl]; simp [all_inliers_frame, three_points, example_config])
  rw [hcl] at hout
  have hout2 : (cascade_stage (lib_with sq ac co si) example_config s
      (all_inliers_frame n)).output_cloud_with_normals_
      = [⟨0, 0, 5, 0, 0, 1⟩, ⟨1 / 2, 0, 5, 0, 0, 1⟩, ⟨0, 1 / 2, 5, 0, 0, 1⟩] := by
    rw [hout]
    simp [all_inliers_frame, three_points, to_point_normal]
  have hex2 : (cascade_stage (lib_with sq ac co si) example_config s
      (all_inliers_frame n)).extracted_cloud_with_normals_ = [] := by
    rw [hex, hout2]
    simp [all_inliers_frame, example_config, PlaneFit.indices, extract_negative, List.enum,
      List.enumFrom]
  refine ⟨?_, hex2, ?_⟩
  · rw [hr]
    simp [all_inliers_frame, PlaneFit.values]
  · rw [hsec, hex2, h2]
    simp

/-- The coefficient caches and clouds of the cascade stage survive the rest of
a completed frame (except for the cleared background coefficients). -/
theorem run_pose_estimation_keeps (L : Lib K) (cfg : Config K) (s s1 : State K) (f : Frame K)
    (h : run_pose_estimation L cfg s f = Except.ok s1) :
    s1.first_ransac_model_coefficients_
      = (cascade_stage L cfg s f).first_ransac_model_coefficients_ ∧
    s1.second_ransac_model_coefficients_
      = (cascade_stage L cfg s f).second_ransac_model_coefficients_ ∧
    s1.output_cloud_with_normals_ = (cascade_stage L cfg s f).output_cloud_with_normals_ ∧
    s1.extracted_cloud_with_normals_
      = (cascade_stage L cfg s f).extracted_cloud_with_normals_ ∧
    s1.center_frustum_ = (cascade_stage L cfg s f).center_frustum_ := by
  obtain ⟨s4, h4, h1⟩ := run_pose_estimation_ok L cfg s s1 f h
  obtain ⟨⟨-, e2, e3, -, -, e6, e7, e8⟩, -⟩ := finish_frame_ok cfg f s4 s1 h1
  rw [e2, e3, e6, e7, e8]
  rcases pose_stage_cases L cfg s s4 f h4 with ⟨-, rfl⟩ | ⟨-, nx, ny, nz, d, rest, c2, -, -, hc⟩
  · exact ⟨rfl, rfl, rfl, rfl, rfl⟩
  · rcases hc with ⟨-, rfl⟩ | ⟨-, a2, c1, -, -, rfl⟩
    · exact ⟨rfl, rfl, rfl, rfl, rfl⟩
    · exact ⟨rfl, rfl, rfl, rfl, rfl⟩

/-- A frame completes when, after the cascade stage, the background vector has
four entries and the other two coefficient vectors at least three. -/
theorem run_pose_estimation_total (L : Lib K) (cfg : Config K) (s : State K) (f : Frame K)
    (hinv : frame_start_invariant s)
    (h0 : 3 < (cascade_stage L cfg s f).ransac_model_coefficients_.length)
    (h2 : 2 < (cascade_stage L cfg s f).second_ransac_model_coefficients_.length)
    (h1 : 2 < (cascade_stage L cfg s f).first_ransac_model_coefficients_.length) :
    ∃ s1, run_pose_estimation L cfg s f = Except.ok s1 := by
  obtain ⟨-, hs1, hs2⟩ := hinv
  obtain ⟨-, -, k3, k4, k5, k6, -⟩ := cascade_stage_keeps L cfg s f
  obtain ⟨-, -, m3, m4, m5, m6, -⟩ := frustum_stage_keeps L cfg s f
  have h4 : ∃ s4, pose_stage L cfg s f = Except.ok s4 := by
    unfold pose_stage
    split
    · exact calculate_pose_vector_total _ h0 h2 h1
    · exact ⟨_, rfl⟩
  obtain ⟨s4, h4⟩ := h4
  obtain ⟨-, p2, p3, p4, p5, p6, p7, -⟩ := pose_stage_keeps L cfg s s4 f h4
  obtain ⟨s1, hf⟩ := finish_frame_total cfg f s4
    (by rw [p4, k6, m6]; exact hs1)
    (by rw [p5, p6, p7, k3, k4, k5, m3, m4, m5]; exact hs2)
    (by intro _; rw [p3, p2]; exact ⟨h2, h1⟩)
  exact ⟨s1, run_pose_estimation_of_stages L cfg s s4 s1 f h4 hf⟩

/-- The cascade stage of `two_plane_frame` on a warmed-up state. -/
theorem two_plane_cascade (sq ac co si : K → K) (s : State K) (n : Nat)
    (hw : s.wait_with_ransac_for_ > 1) :
    (cascade_stage (lib_with sq ac co si) example_config s
        (two_plane_frame n)).first_ransac_model_coefficients_ = [0, 0, 1, -5] ∧
    (cascade_stage (lib_with sq ac co si) example_config s
        (two_plane_frame n)).output_cloud_with_normals_ = four_normals ∧
    (cascade_stage (lib_with sq ac co si) example_config s
        (two_plane_frame n)).ransac_model_coefficients_ = [0, 0, 1, -5] ∧
    (cascade_stage (lib_with sq ac co si) example_config s
        (two_plane_frame n)).extracted_cloud_with_normals_
      = [⟨1, 1 / 2, 4, 1, 0, 0⟩, ⟨1, 0, 4, 1, 0, 0⟩, ⟨1, 1 / 2, 9 / 2, 1, 0, 0⟩] ∧
    (cascade_stage (lib_with sq ac co si) example_config s
        (two_plane_frame n)).second_ransac_model_coefficients_ = [1, 0, 0, -1] := by
  have hcl := frustum_stage_cloud_lib_with sq ac co si example_config s (two_plane_frame n)
  obtain ⟨hfi, hout, hr, hex, hsec, -⟩ := cascade_stage_open_summary (lib_with sq ac co si)
    example_config s (two_plane_frame n)
    (centered_box_gate_open _ s _ rfl hw)
    (by rw [hcl]; simp [two_plane_frame, five_points, example_config])
    (by rw [hcl]; simp [two_plane_frame, five_points, example_config])
  have hout2 : (cascade_stage (lib_with sq ac co si) example_config s
      (two_plane_frame n)).output_cloud_with_normals_ = four_normals := by
    rw [hout]
    rfl
  have hex2 : (cascade_stage (lib_with sq ac co si) example_config s
      (two_plane_frame n)).extracted_cloud_with_normals_
      = [⟨1, 1 / 2, 4, 1, 0, 0⟩, ⟨1, 0, 4, 1, 0, 0⟩, ⟨1, 1 / 2, 9 / 2, 1, 0, 0⟩] := by
    rw [hex, hout2]
    simp [two_plane_frame, four_normals, example_config, PlaneFit.indices, extract_negative,
      List.enum, List.enumFrom]
  refine ⟨?_, hout2, ?_, hex2, ?_⟩
  · rw [hfi]
    rfl
  · rw [hr]
    rfl
  · rw [hsec, hex2]
    simp [example_config, two_plane_frame, PlaneFit.values]

/-- The frame `two_plane_frame n` from a warmed-up state: it completes, both
normal-constrained fits run, `calculate_pose_vector` stores a position but
leaves the end point alone (the third face coefficient is 0), and a full row
is logged whose fifth field is the first face coefficient 1. -/
theorem two_plane_step (sq ac co si : K → K) (s : State K) (n : Nat)
    (hinv : frame_start_invariant s) (hw : s.wait_with_ransac_for_ > 1)
    (hx : s.center_frustum_.x = 0) :
    ∃ s3, run_pose_estimation (lib_with sq ac co si) example_config s (two_plane_frame n)
        = Except.ok s3 ∧ frame_start_invariant s3 ∧
      s3.wait_with_ransac_for_ = s.wait_with_ransac_for_ + 1 ∧
      s3.output_cloud_with_normals_ = four_normals ∧
      s3.extracted_cloud_with_normals_
        = [⟨1, 1 / 2, 4, 1, 0, 0⟩, ⟨1, 0, 4, 1, 0, 0⟩, ⟨1, 1 / 2, 9 / 2, 1, 0, 0⟩] ∧
      s3.second_ransac_model_coefficients_ = [1, 0, 0, -1] ∧
      s3.first_ransac_model_coefficients_ = [0, 0, 1, -5] ∧
      Event.calculate_pose_vector ∈ s3.trace ∧
      s3.pose_vector_end_point_ = s.pose_vector_end_point_ ∧
      s3.plane_frustum_vector_intersect_.x = 0 ∧
      ∃ row, s3.log = s.log ++ [row] ∧ row.frame = n ∧ row.values.length = 12 ∧
        row.values.get? 3 = some 1 := by
  obtain ⟨c1, c2, c3, c4, c5⟩ := two_plane_cascade sq ac co si s n hw
  obtain ⟨s3, h3⟩ := run_pose_estimation_total (lib_with sq ac co si) example_config s
    (two_plane_frame n) hinv (by rw [c3]; simp) (by rw [c5]; simp) (by rw [c1]; simp)
  have i3 := run_pose_estimation_invariant _ _ s s3 _ hinv
    (by simp [frame_well_formed, two_plane_frame]) h3
  have w3 := run_pose_estimation_wait _ _ s s3 _ h3
  obtain ⟨k1, k2, k3, k4, -⟩ := run_pose_estimation_keeps _ _ s s3 _ h3
  obtain ⟨s4, h4, hf⟩ := run_pose_estimation_ok _ _ s s3 _ h3
  obtain ⟨⟨e1, -, -, e4, e5, -⟩, -, -, -, -, -, -, row, hrow, hfn, hcase⟩ :=
    finish_frame_ok _ _ s4 s3 hf
  obtain ⟨p1, p2, p3, -, -, p6, -, -, p9, -⟩ := pose_stage_keeps _ _ s s4 _ h4
  obtain ⟨-, q2, -, -, -, -, q7, -, q9, -⟩ := cascade_stage_keeps (lib_with sq ac co si)
    example_config s (two_plane_frame n)
  obtain ⟨-, r2, -, -, -, -, r7, -⟩ := frustum_stage_keeps (lib_with sq ac co si)
    example_config s (two_plane_frame n)
  have hgb : gate_b example_config (cascade_stage (lib_with sq ac co si) example_config s
      (two_plane_frame n)) = true := by
    unfold gate_b
    rw [c3]
    simp [example_config]
  -- the pose stage: position stored, end point untouched
  have hpose : Event.calculate_pose_vector ∈ s4.trace ∧
      s4.pose_vector_end_point_ = s.pose_vector_end_point_ ∧
      s4.plane_frustum_vector_intersect_.x = 0 := by
    rcases pose_stage_cases _ _ s s4 _ h4 with ⟨hg, -⟩ | ⟨-, nx, ny, nz, d, rest, z2, -, hz, hc⟩
    · rw [hgb] at hg
      cases hg
    · rw [c5] at hz
      simp only [vec_at_cons_succ, vec_at_cons_zero] at hz
      cases hz
      rcases hc with ⟨-, rfl⟩ | ⟨hpos, -⟩
      · refine ⟨by simp [store_intersection], ?_, ?_⟩
        · show (cascade_stage _ _ s _).pose_vector_end_point_ = _
          rw [q7, r7]
        · show (scale3 (cascade_stage _ _ s _).center_frustum_ _).x = 0
          rw [q9, frustum_stage_center]
          have hd : (two_plane_frame n : Frame K).detection_output_struct_ = centered_box := rfl
          rw [hd, centered_box_mean, hx]
          simp [scale3]
      · exact absurd hpos (lt_irrefl _)
  -- the logged row is a full row
  have hfull : full_row_condition example_config (calculate_pose (two_plane_frame n) s4)
      = true := by
    rcases calculate_pose_markers (two_plane_frame n) s4 with ⟨-, -, m1, m2, -⟩ | ⟨hm, -⟩
    · unfold full_row_condition
      rw [(calculate_pose_fields _ s4).1, m1, m2, p1, c3]
      simp [example_config, two_plane_frame]
    · simp [two_plane_frame] at hm
  refine ⟨s3, h3, i3, w3, ?_, ?_, ?_, ?_, ?_, ?_, ?_, row, ?_, hfn, ?_⟩
  · rw [k3, c2]
  · rw [k4, c4]
  · rw [k2, c5]
  · rw [k1, c1]
  · rw [e1]
    exact hpose.1
  · rw [e4]
    exact hpose.2.1
  · rw [e5]
    exact hpose.2.2
  · rw [hrow, p9, q2, r2]
  · rcases hcase with ⟨hno, -⟩ | ⟨-, dx, dy, dz, g0, g1, g2, g3, g4, g5, hdx, -, -, -, -, -, -, -,
      -, hv⟩
    · rw [hfull] at hno
      cases hno
    · rw [p3, c5] at hdx
      simp only [plane_normal_x_id_, vec_at_cons_zero] at hdx
      cases hdx
      rw [hv]
      exact ⟨rfl, rfl⟩

/-- The cascade stage of `sparse_frame` on a warmed-up state that still holds an
extracted cloud of more than two points from an earlier frame: the extraction
is skipped and the face fit runs on the old cloud. -/
theorem sparse_cascade (sq ac co si : K → K) (s : State K) (n : Nat)
    (hw : s.wait_with_ransac_for_ > 1)
    (hold : s.extracted_cloud_with_normals_.length > 2) :
    (cascade_stage (lib_with sq ac co si) example_config s
        (sparse_frame n)).output_cloud_with_normals_ = one_normal ∧
    (cascade_stage (lib_with sq ac co si) example_config s
        (sparse_frame n)).ransac_model_coefficients_ = [] ∧
    (cascade_stage (lib_with sq ac co si) example_config s
        (sparse_frame n)).trace
      = [Event.calculate_ransac, Event.background_fit one_normal [],
         Event.face_fit s.extracted_cloud_with_normals_] := by
  have hcl := frustum_stage_cloud_lib_with sq ac co si example_config s (sparse_frame n)
  obtain ⟨-, hout, hr, hex, -, htr⟩ := cascade_stage_open_summary (lib_with sq ac co si)
    example_config s (sparse_frame n)
    (centered_box_gate_open _ s _ rfl hw)
    (by rw [hcl]; simp [sparse_frame, three_points, example_config])
    (by rw [hcl]; simp [sparse_frame, three_points, example_config])
  have hout2 : (cascade_stage (lib_with sq ac co si) example_config s
      (sparse_frame n)).output_cloud_with_normals_ = one_normal := by
    rw [hout]
    rfl
  have hex2 : (cascade_stage (lib_with sq ac co si) example_config s
      (sparse_frame n)).extracted_cloud_with_normals_ = s.extracted_cloud_with_normals_ := by
    rw [hex, hout2, if_neg]
    simp [one_normal, example_config]
  refine ⟨hout2, ?_, ?_⟩
  · rw [hr]
    rfl
  · rw [htr, hex2, hout2, if_pos (by simpa [example_config] using hold)]
    rfl

/-- The angle of lines 246-249 for a projected center vector `(z, w)` with
`z > 0`, over the reals. -/
theorem angle_to_z_inverse_real (L : Lib ℝ) (hsqrt : L.sqrt = Real.sqrt)
    (hacos : L.acos = Real.arccos) (z w : ℝ) :
    angle_to_z_inverse L (z, w) = Real.arccos (z / Real.sqrt (z ^ 2 + w ^ 2)) := by
  simp only [angle_to_z_inverse, dot2, norm2, z_inverse, hsqrt, hacos]
  have h1 : Real.sqrt (1 * 1 + 0 * 0) = 1 := by norm_num
  rw [h1]
  congr 2
  · ring
  · rw [one_mul]
    congr 1
    ring

/-- The unsigned angle `arccos (z / √(z² + w²))` for `z > 0`: it lies in
`[0, π/2)`, its tangent is `|w| / z`, and it is 0 for `w = 0`. -/
theorem arccos_ratio_facts (z w : ℝ) (hz : 0 < z) :
    0 ≤ Real.arccos (z / Real.sqrt (z ^ 2 + w ^ 2)) ∧
    Real.arccos (z / Real.sqrt (z ^ 2 + w ^ 2)) < Real.pi / 2 ∧
    Real.tan (Real.arccos (z / Real.sqrt (z ^ 2 + w ^ 2))) = |w| / z ∧
    (w = 0 → Real.arccos (z / Real.sqrt (z ^ 2 + w ^ 2)) = 0) := by
  have hsum : 0 < z ^ 2 + w ^ 2 := by positivity
  have hr : 0 < Real.sqrt (z ^ 2 + w ^ 2) := Real.sqrt_pos.mpr hsum
  have hrsq : Real.sqrt (z ^ 2 + w ^ 2) ^ 2 = z ^ 2 + w ^ 2 := Real.sq_sqrt hsum.le
  refine ⟨Real.arccos_nonneg _, ?_, ?_, ?_⟩
  · rw [Real.arccos_lt_pi_div_two]
    exact div_pos hz hr
  · rw [Real.tan_arccos]
    have h1 : 1 - (z / Real.sqrt (z ^ 2 + w ^ 2)) ^ 2
        = (|w| / Real.sqrt (z ^ 2 + w ^ 2)) ^ 2 := by
      rw [div_pow, div_pow, hrsq, sq_abs]
      field_simp
    rw [h1, Real.sqrt_sq (div_nonneg (abs_nonneg w) hr.le)]
    field_simp
  · intro hw
    rw [hw, Real.arccos_eq_zero]
    have : Real.sqrt (z ^ 2 + 0 ^ 2) = z := by
      rw [zero_pow (by norm_num), add_zero, Real.sqrt_sq hz.le]
    rw [this, div_self hz.ne.symm]

/-! ### The keep-rule output `final_with_normals_` through the cascade -/

theorem after_sampling_final (cfg : Config K) (f : Frame K) (s : State K) :
    (after_sampling cfg f s).final_with_normals_ =
      (if s.cloud_pallet_.length > cfg.minimum_points_for_sampling_surface_normals_ then
        (f.remove_nan_normals
          (f.sample_surface_normal (s.cloud_pallet_.map to_point_normal))).filter keep_rule
      else s.final_with_normals_) := by
  have hc := (after_coarse_frame cfg f s).2.2.2.2.2.2.2.2.2
  have hl := input_cloud_length cfg f s
  have h0 : (after_coarse cfg f s).final_with_normals_ = s.final_with_normals_ := by
    by_cases h : s.cloud_pallet_.length > cfg.minimum_points_for_ransac_
    · simp [after_coarse, ransac_coarse, ransac_enter, h]
    · simp [after_coarse, ransac_coarse, ransac_enter, h]
  by_cases h : s.cloud_pallet_.length > cfg.minimum_points_for_sampling_surface_normals_
  · simp [after_sampling, ransac_sampling, hl, h, input_cloud_with_normals, hc]
  · simp [after_sampling, ransac_sampling, hl, h, h0]

theorem after_face_final (cfg : Config K) (f : Frame K) (s : State K) :
    (after_face cfg f s).final_with_normals_ = (after_sampling cfg f s).final_with_normals_ := by
  have hl := input_cloud_length cfg f s
  have h1 : (after_background cfg f s).1.final_with_normals_
      = (after_sampling cfg f s).final_with_normals_ := by
    by_cases h : s.cloud_pallet_.length > cfg.minimum_points_for_ransac_
    · simp [after_background, ransac_background, hl, h]
    · simp [after_background, ransac_background, hl, h]
  have h2 : (after_extract cfg f s).final_with_normals_
      = (after_background cfg f s).1.final_with_normals_ := by
    by_cases h : (after_background cfg f s).1.output_cloud_with_normals_.length
        > cfg.minimum_points_for_ransac_
    · simp [after_extract, ransac_extract, h]
    · simp [after_extract, ransac_extract, h]
  have h3 : (after_face cfg f s).final_with_normals_
      = (after_extract cfg f s).final_with_normals_ := by
    by_cases h : (after_extract cfg f s).extracted_cloud_with_normals_.length
        > cfg.minimum_points_for_ransac_
    · simp [after_face, ransac_face, h]
    · simp [after_face, ransac_face, h]
  rw [h3, h2, h1]

/-- The keep-rule set that an open cascade stage leaves in `final_with_normals_`
is the filtered NaN-free sampled cloud of this frame. -/
theorem cascade_stage_final (L : Lib K) (cfg : Config K) (s : State K) (f : Frame K)
    (hg : gate_a cfg f.detection_output_struct_ (frustum_stage L cfg s f) = true)
    (hs : (frustum_stage L cfg s f).cloud_pallet_.length
      > cfg.minimum_points_for_sampling_surface_normals_) :
    (cascade_stage L cfg s f).final_with_normals_ =
      (f.remove_nan_normals (f.sample_surface_normal
        ((frustum_stage L cfg s f).cloud_pallet_.map to_point_normal))).filter keep_rule := by
  have hp : (calculate_ransac cfg f (frustum_stage L cfg s f)).final_with_normals_
      = (after_face cfg f (frustum_stage L cfg s f)).final_with_normals_ := by
    simp only [calculate_ransac]
  rw [cascade_stage_open L cfg s f hg, hp, after_face_final, after_sampling_final, if_pos hs]

/-- The extracted cloud after the cascade stage of `sparse_frame` is the one the
frame started with. -/
theorem sparse_cascade_extracted (sq ac co si : K → K) (s : State K) (n : Nat)
    (hw : s.wait_with_ransac_for_ > 1) :
    (cascade_stage (lib_with sq ac co si) example_config s
        (sparse_frame n)).extracted_cloud_with_normals_ = s.extracted_cloud_with_normals_ := by
  have hcl := frustum_stage_cloud_lib_with sq ac co si example_config s (sparse_frame n)
  obtain ⟨-, hout, -, hex, -⟩ := cascade_stage_open_summary (lib_with sq ac co si)
    example_config s (sparse_frame n)
    (centered_box_gate_open _ s _ rfl hw)
    (by rw [hcl]; simp [sparse_frame, three_points, example_config])
    (by rw [hcl]; simp [sparse_frame, three_points, example_config])
  have hout2 : (cascade_stage (lib_with sq ac co si) example_config s
      (sparse_frame n)).output_cloud_with_normals_ = one_normal := by
    rw [hout]
    rfl
  rw [hex, hout2, if_neg]
  simp [one_normal, example_config]

/-- The third coordinate of the mean of the four corner rays is the detection
vector scale. -/
theorem arithmetic_mean_corner_z (cfg : Config K) (d : DetectionOutput K) :
    (arithmetic_mean (corner_rays cfg d)).z = cfg.detection_vector_scale_ := by
  simp only [arithmetic_mean, corner_rays, detection_point_vec, from_image_center,
    frustum_point, List.map, List.sum_cons, List.sum_nil, List.length_cons, List.length_nil]
  push_cast
  ring

/-- The center frustum vector after a completed frame is the one computed by
`calculate_3d_crop` in that frame. -/
theorem run_pose_estimation_center (L : Lib K) (cfg : Config K) (s s1 : State K) (f : Frame K)
    (h : run_pose_estimation L cfg s f = Except.ok s1) :
    s1.center_frustum_ = (frustum_stage L cfg s f).center_frustum_ := by
  rw [(run_pose_estimation_keeps L cfg s s1 f h).2.2.2.2,
    (cascade_stage_keeps L cfg s f).2.2.2.2.2.2.2.2.1]

/-- With a positive detection vector scale, the third coordinate of the center
frustum vector stays nonnegative along a run. -/
theorem run_frames_center_z (L : Lib K) (cfg : Config K)
    (hs : 0 < cfg.detection_vector_scale_) (pre : List (Frame K)) :
    ∀ s s1, 0 ≤ s.center_frustum_.z → run_frames L cfg s pre = Except.ok s1 →
      0 ≤ s1.center_frustum_.z := by
  induction pre with
  | nil =>
    intro s s1 h0 h
    cases h
    exact h0
  | cons g gs ih =>
    intro s s1 h0 h
    rw [run_frames_cons] at h
    obtain ⟨s2, h2, h3⟩ := (bind_eq_ok _ _ _).mp h
    apply ih s2 s1 _ h3
    rw [run_pose_estimation_center L cfg s s2 g h2, frustum_stage_center]
    show 0 ≤ s.center_frustum_.z / 4 + (arithmetic_mean (corner_rays cfg _)).z
    rw [arithmetic_mean_corner_z]
    have : 0 ≤ s.center_frustum_.z / 4 := div_nonneg h0 (by norm_num)
    linarith


theorem norm3_ge_z (L : Lib ℝ) (hsqrt : L.sqrt = Real.sqrt) (v : PointXYZ ℝ) (hz : 0 < v.z) :
    v.z ≤ norm3 L v := by
  simp only [norm3, hsqrt]
  rw [Real.le_sqrt' hz]
  nlinarith [mul_self_nonneg v.x, mul_self_nonneg v.y]

theorem norm2_ge_fst (L : Lib ℝ) (hsqrt : L.sqrt = Real.sqrt) (v : ℝ × ℝ) (hz : 0 < v.1) :
    v.1 ≤ norm2 L v := by
  simp only [norm2, hsqrt]
  rw [Real.le_sqrt' hz]
  nlinarith [mul_self_nonneg v.2]

theorem norm2_z_inverse (L : Lib ℝ) (hsqrt : L.sqrt = Real.sqrt) :
    norm2 L (z_inverse : ℝ × ℝ) = 1 := by
  simp [norm2, z_inverse, hsqrt]

/-- The angle of a vector with non-zero third coordinate to itself is
`arccos 1 = 0`. -/
theorem angle_between_self (L : Lib ℝ) (hsqrt : L.sqrt = Real.sqrt)
    (hacos : L.acos = Real.arccos) (v : PointXYZ ℝ) (hz : v.z ≠ 0) :
    angle_between L v v = 0 := by
  have hn := normsq_pos_of_z v hz
  simp only [angle_between, norm3, dot3, hsqrt, hacos]
  rw [Real.mul_self_sqrt hn.le, div_self hn.ne.symm, Real.arccos_one]

/-- The entries of the product `camera_pose * rotation_red_pos_ccw a *
rotation_green_pos_cw b`. -/
theorem frustum_pose_entries (L : Lib K) (a b : K) :
    camera_pose * rotation_red_pos_ccw L a * rotation_green_pos_cw L b =
      !![-L.sin b, 0, -L.cos b, 0;
         L.sin a * L.cos b, L.cos a, -(L.sin a * L.sin b), 0;
         L.cos a * L.cos b, -L.sin a, -(L.cos a * L.sin b), 0;
         0, 0, 0, 1] := by
  ext i j
  fin_cases i <;> fin_cases j <;>
    simp [camera_pose, rotation_red_pos_ccw, rotation_green_pos_cw, Matrix.mul_apply,
      Fin.sum_univ_succ]

end Lemmas

section Claims

variable {K : Type} [LinearOrderedField K]

/-- C1. In `calculate_pose_vector`, for every plane model `(n, d)` read from
`ransac_model_coefficients_` whose normal has unit length and every center
frustum vector `c` with `c·n ≠ 0`: whenever the call returns, the stored
position is `p = c·t` with `t = ((−d·n)·n)/(c·n)` and `n·p + d = 0`; and the
call does return as soon as the other two coefficient vectors have at least
three entries. -/
theorem C1_position_is_ray_plane_intersection (s : State K) (nx ny nz d : K)
    (hcoef : s.ransac_model_coefficients_ = [nx, ny, nz, d])
    (hunit : nx * nx + ny * ny + nz * nz = 1)
    (hdot : dot3 s.center_frustum_ ⟨nx, ny, nz⟩ ≠ 0) :
    (∀ s1, calculate_pose_vector s = Except.ok s1 →
      s1.plane_frustum_vector_intersect_ =
        scale3 s.center_frustum_
          (dot3 ⟨-d * nx, -d * ny, -d * nz⟩ ⟨nx, ny, nz⟩ / dot3 s.center_frustum_ ⟨nx, ny, nz⟩) ∧
      dot3 ⟨nx, ny, nz⟩ s1.plane_frustum_vector_intersect_ + d = 0) ∧
    (2 < s.second_ransac_model_coefficients_.length →
      2 < s.first_ransac_model_coefficients_.length →
      ∃ s1, calculate_pose_vector s = Except.ok s1) := by
  constructor
  · intro s1 h
    obtain ⟨nx1, ny1, nz1, d1, rest, hc, hp, -⟩ := calculate_pose_vector_ok s s1 h
    rw [hcoef] at hc
    simp only [List.cons.injEq] at hc
    obtain ⟨rfl, rfl, rfl, rfl, -⟩ := hc
    have ht : distance_scalar (plane_orgin nx ny nz d) ⟨nx, ny, nz⟩ s.center_frustum_
        = dot3 ⟨-d * nx, -d * ny, -d * nz⟩ ⟨nx, ny, nz⟩ / dot3 s.center_frustum_ ⟨nx, ny, nz⟩ := by
      simp only [distance_scalar, plane_orgin, dot3]
      congr 1
      ring
    rw [hp, ht]
    refine ⟨rfl, ?_⟩
    simp only [dot3, scale3] at hdot ⊢
    field_simp
    linear_combination (-d * (s.center_frustum_.x * nx + s.center_frustum_.y * ny
      + s.center_frustum_.z * nz)) * hunit
  · intro h2 h1
    rw [calculate_pose_vector_unfold s nx ny nz d [] hcoef, vec_at_of_lt _ _ h2,
      vec_at_of_lt _ _ (Nat.lt_trans (by decide) h2), vec_at_of_lt _ _ h1]
    simp only [Except.bind]
    split
    · exact ⟨_, rfl⟩
    · exact ⟨_, rfl⟩

/-- Witness of C1: the plane `z = 5` (normal `(0, 0, 1)`, `d = −5`) and the
center frustum vector `(0, 0, 1)` give the position `(0, 0, 5)`. -/
theorem C1_position_witness :
    ∃ s1, calculate_pose_vector (pose_example_state : State ℚ) = Except.ok s1 ∧
      s1.plane_frustum_vector_intersect_ = ⟨0, 0, 5⟩ ∧
      dot3 ⟨0, 0, 1⟩ s1.plane_frustum_vector_intersect_ + -5 = 0 := by
  have h := C1_position_is_ray_plane_intersection (pose_example_state : State ℚ) 0 0 1 (-5)
    rfl (by norm_num) (by simp [dot3, pose_example_state])
  obtain ⟨s1, hs1⟩ := h.2 (by decide) (by decide)
  refine ⟨s1, hs1, ?_, (h.1 s1 hs1).2⟩
  rw [(h.1 s1 hs1).1]
  simp [scale3, dot3, pose_example_state]

/-- C2 (code evaluated at the failing input). Two consecutive frames with the
same centered box: after the second `calculate_3d_crop` the center frustum
vector is `(0, 0, 5/4)`, while the arithmetic mean of the four corner ray
endpoints of the current box is `(0, 0, 1)`: the vector left by the previous
frame is part of the sum. -/
theorem C2_center_keeps_previous_frame :
    (calculate_3d_crop (lib_with Real.sqrt Real.arccos Real.cos Real.sin) example_config
        centered_box
        (calculate_3d_crop (lib_with Real.sqrt Real.arccos Real.cos Real.sin) example_config
          centered_box initial_state)).center_frustum_ = ⟨0, 0, 5 / 4⟩ ∧
      arithmetic_mean (corner_rays (example_config : Config ℝ) centered_box) = ⟨0, 0, 1⟩ ∧
      (calculate_3d_crop (lib_with Real.sqrt Real.arccos Real.cos Real.sin) example_config
        centered_box
        (calculate_3d_crop (lib_with Real.sqrt Real.arccos Real.cos Real.sin) example_config
          centered_box initial_state)).center_frustum_ ≠
        arithmetic_mean (corner_rays (example_config : Config ℝ) centered_box) := by
  have h1 : (calculate_3d_crop (lib_with Real.sqrt Real.arccos Real.cos Real.sin) example_config
        centered_box
        (calculate_3d_crop (lib_with Real.sqrt Real.arccos Real.cos Real.sin) example_config
          centered_box initial_state)).center_frustum_ = (⟨0, 0, 5 / 4⟩ : PointXYZ ℝ) := by
    rw [calculate_3d_crop_center, calculate_3d_crop_center]
    simp [arithmetic_mean, corner_rays, detection_point_vec, from_image_center, frustum_point,
      example_config, centered_box, initial_state]
    norm_num
  have h2 : arithmetic_mean (corner_rays (example_config : Config ℝ) centered_box)
      = ⟨0, 0, 1⟩ := by
    simp [arithmetic_mean, corner_rays, detection_point_vec, from_image_center, frustum_point,
      example_config, centered_box]
    norm_num
  refine ⟨h1, h2, ?_⟩
  rw [h1, h2]
  intro h
  have hz := congrArg PointXYZ.z h
  norm_num at hz

/-- C3. For every detection box with positive width and height, focal length
`fx ≠ 0` and detection vector scale `≠ 0`, the horizontal FOV stored by
`calculate_3d_crop` is the angle between the top-left and top-right corner
rays `((u−cx)/fx·s, (v−cy)/fx·s, s)`, the vertical FOV is the angle between the
top-left and bottom-left corner rays, and both lie strictly between 0 and π
(over the reals, with the real square root and arccosine). -/
theorem C3_fov_strictly_between_zero_and_pi (L : Lib ℝ) (cfg : Config ℝ)
    (d : DetectionOutput ℝ) (s : State ℝ)
    (hsqrt : L.sqrt = Real.sqrt) (hacos : L.acos = Real.arccos)
    (hw : 0 < d.width) (hh : 0 < d.height)
    (hfx : cfg.zed_k_matrix_ 0 ≠ 0) (hs : cfg.detection_vector_scale_ ≠ 0) :
    (calculate_3d_crop L cfg d s).fov_h_rad_ =
        angle_between L
          ⟨(d.x - cfg.zed_k_matrix_ 2) / cfg.zed_k_matrix_ 0 * cfg.detection_vector_scale_,
           (d.y - cfg.zed_k_matrix_ 3) / cfg.zed_k_matrix_ 0 * cfg.detection_vector_scale_,
           cfg.detection_vector_scale_⟩
          ⟨(d.x + d.width - cfg.zed_k_matrix_ 2) / cfg.zed_k_matrix_ 0
             * cfg.detection_vector_scale_,
           (d.y - cfg.zed_k_matrix_ 3) / cfg.zed_k_matrix_ 0 * cfg.detection_vector_scale_,
           cfg.detection_vector_scale_⟩ ∧
      (calculate_3d_crop L cfg d s).fov_v_rad_ =
        angle_between L
          ⟨(d.x - cfg.zed_k_matrix_ 2) / cfg.zed_k_matrix_ 0 * cfg.detection_vector_scale_,
           (d.y - cfg.zed_k_matrix_ 3) / cfg.zed_k_matrix_ 0 * cfg.detection_vector_scale_,
           cfg.detection_vector_scale_⟩
          ⟨(d.x - cfg.zed_k_matrix_ 2) / cfg.zed_k_matrix_ 0 * cfg.detection_vector_scale_,
           (d.y + d.height - cfg.zed_k_matrix_ 3) / cfg.zed_k_matrix_ 0
             * cfg.detection_vector_scale_,
           cfg.detection_vector_scale_⟩ ∧
      0 < (calculate_3d_crop L cfg d s).fov_h_rad_ ∧
      (calculate_3d_crop L cfg d s).fov_h_rad_ < Real.pi ∧
      0 < (calculate_3d_crop L cfg d s).fov_v_rad_ ∧
      (calculate_3d_crop L cfg d s).fov_v_rad_ < Real.pi := by
  have hh1 := angle_between_mem_Ioo L hsqrt hacos
    (frustum_point cfg (from_image_center cfg (d.x, d.y)))
    (frustum_point cfg (from_image_center cfg (d.x + d.width, d.y))) hs hs
    (Or.inl (by
      simp only [frustum_point, from_image_center]
      have : cfg.detection_vector_scale_ *
          ((d.x + d.width - cfg.zed_k_matrix_ 2) / cfg.zed_k_matrix_ 0
            * cfg.detection_vector_scale_)
          - (d.x - cfg.zed_k_matrix_ 2) / cfg.zed_k_matrix_ 0 * cfg.detection_vector_scale_
            * cfg.detection_vector_scale_
          = cfg.detection_vector_scale_ * cfg.detection_vector_scale_ * d.width
            / cfg.zed_k_matrix_ 0 := by
        field_simp
        ring
      rw [this]
      exact div_ne_zero (mul_ne_zero (mul_ne_zero hs hs) hw.ne.symm) hfx))
  have hv1 := angle_between_mem_Ioo L hsqrt hacos
    (frustum_point cfg (from_image_center cfg (d.x, d.y)))
    (frustum_point cfg (from_image_center cfg (d.x, d.y + d.height))) hs hs
    (Or.inr (by
      simp only [frustum_point, from_image_center]
      have : (d.y - cfg.zed_k_matrix_ 3) / cfg.zed_k_matrix_ 0 * cfg.detection_vector_scale_
            * cfg.detection_vector_scale_
          - cfg.detection_vector_scale_ *
            ((d.y + d.height - cfg.zed_k_matrix_ 3) / cfg.zed_k_matrix_ 0
              * cfg.detection_vector_scale_)
          = -(cfg.detection_vector_scale_ * cfg.detection_vector_scale_ * d.height
            / cfg.zed_k_matrix_ 0) := by
        field_simp
        ring
      rw [this]
      exact neg_ne_zero.mpr (div_ne_zero (mul_ne_zero (mul_ne_zero hs hs) hh.ne.symm) hfx)))
  exact ⟨rfl, rfl, hh1.1, hh1.2, hv1.1, hv1.2⟩

/-- Witness of C3: the 200 x 200 box of `centered_box` under `example_config`. -/
theorem C3_fov_witness :
    0 < (calculate_3d_crop (lib_with Real.sqrt Real.arccos Real.cos Real.sin) example_config
        centered_box initial_state).fov_h_rad_ ∧
      (calculate_3d_crop (lib_with Real.sqrt Real.arccos Real.cos Real.sin) example_config
        centered_box initial_state).fov_h_rad_ < Real.pi ∧
      0 < (calculate_3d_crop (lib_with Real.sqrt Real.arccos Real.cos Real.sin) example_config
        centered_box initial_state).fov_v_rad_ ∧
      (calculate_3d_crop (lib_with Real.sqrt Real.arccos Real.cos Real.sin) example_config
        centered_box initial_state).fov_v_rad_ < Real.pi :=
  (C3_fov_strictly_between_zero_and_pi (lib_with Real.sqrt Real.arccos Real.cos Real.sin)
    example_config centered_box initial_state rfl rfl
    (by norm_num [centered_box]) (by norm_num [centered_box])
    (by norm_num [example_config]) (by norm_num [example_config])).2.2

/-- C4 (code evaluated at the failing input). A frame with a box right of the
principal point followed by a frame whose box is centered on the principal
point: the center frustum vector of the second frame is `(1/2, 0, 5/4)` and
the sign-corrected `angle_zx` is not 0. -/
theorem C4_centered_box_after_off_center_frame :
    (centered_box : DetectionOutput ℝ).x + (centered_box : DetectionOutput ℝ).width / 2
        = (example_config : Config ℝ).zed_k_matrix_ 2 ∧
      (centered_box : DetectionOutput ℝ).y + (centered_box : DetectionOutput ℝ).height / 2
        = (example_config : Config ℝ).zed_k_matrix_ 3 ∧
      (calculate_3d_crop (lib_with Real.sqrt Real.arccos Real.cos Real.sin) example_config
        centered_box
        (calculate_3d_crop (lib_with Real.sqrt Real.arccos Real.cos Real.sin) example_config
          right_box initial_state)).center_frustum_ = ⟨1 / 2, 0, 5 / 4⟩ ∧
      angle_zx (lib_with Real.sqrt Real.arccos Real.cos Real.sin)
        (calculate_3d_crop (lib_with Real.sqrt Real.arccos Real.cos Real.sin) example_config
          centered_box
          (calculate_3d_crop (lib_with Real.sqrt Real.arccos Real.cos Real.sin) example_config
            right_box initial_state)).center_frustum_ ≠ 0 := by
  have h1 : (calculate_3d_crop (lib_with Real.sqrt Real.arccos Real.cos Real.sin) example_config
        centered_box
        (calculate_3d_crop (lib_with Real.sqrt Real.arccos Real.cos Real.sin) example_config
          right_box initial_state)).center_frustum_ = (⟨1 / 2, 0, 5 / 4⟩ : PointXYZ ℝ) := by
    rw [calculate_3d_crop_center, calculate_3d_crop_center]
    simp [arithmetic_mean, corner_rays, detection_point_vec, from_image_center, frustum_point,
      example_config, centered_box, right_box, initial_state]
    norm_num
  refine ⟨by norm_num [centered_box, example_config],
    by norm_num [centered_box, example_config], h1, ?_⟩
  rw [h1]
  have hlt : (5 / 4 : ℝ) < Real.sqrt (5 / 4 * (5 / 4) + 1 / 2 * (1 / 2)) := by
    rw [Real.lt_sqrt (by norm_num)]
    norm_num
  have harg : ¬ (1 : ℝ) ≤ 5 / 4 / Real.sqrt (5 / 4 * (5 / 4) + 1 / 2 * (1 / 2)) := by
    rw [not_le, div_lt_one (lt_trans (by norm_num) hlt)]
    exact hlt
  have hne : Real.arccos (5 / 4 / Real.sqrt (5 / 4 * (5 / 4) + 1 / 2 * (1 / 2))) ≠ 0 := by
    rw [Ne, Real.arccos_eq_zero]
    exact harg
  have hval : angle_to_z_inverse (lib_with Real.sqrt Real.arccos Real.cos Real.sin)
      ((5 / 4 : ℝ), (1 / 2 : ℝ))
      = Real.arccos (5 / 4 / Real.sqrt (5 / 4 * (5 / 4) + 1 / 2 * (1 / 2))) := by
    simp [angle_to_z_inverse, dot2, norm2, z_inverse, lib_with]
  have hpos : (0 : ℝ) < 1 / 2 := by norm_num
  simp only [angle_zx, center_frustum_zx, gt_iff_lt, if_pos hpos, hval]
  exact mul_ne_zero hne (by norm_num)

/-- C5. Frustum culling is idempotent: for every point cloud and every frustum,
culling the culled cloud again with the same frustum returns the same points;
in particular for the frustum that `edit_pointcloud` configures. The PCL
filter is the one described in spec §4.2: it keeps exactly the points that
pass the point test of the frustum. -/
theorem C5_frustum_culling_idempotent (L : Lib K) (cfg : Config K) (F : Frustum K)
    (cloud : List (PointXYZ K)) (s : State K) :
    frustum_culling L F (frustum_culling L F cloud) = frustum_culling L F cloud ∧
      (edit_pointcloud L cfg (edit_pointcloud L cfg cloud s).cloud_pallet_ s).cloud_pallet_
        = (edit_pointcloud L cfg cloud s).cloud_pallet_ := by
  constructor
  · simp [frustum_culling, List.filter_filter]
  · simp [edit_pointcloud, frustum_culling, List.filter_filter]

/-- C6 (counterexample to the claim as stated). Warm-up count `N = 1`; two
frames whose detection is below the size threshold, then one frame with a
large box. `calculate_ransac` runs on the third frame although the box
exceeded the minimum size on only one consecutive frame, which is not more
than `N`. -/
theorem C6_warmup_counts_small_frames :
    ∃ s, run_frames (lib_with Real.sqrt Real.arccos Real.cos Real.sin) example_config
        initial_state [idle_frame 0, idle_frame 1, large_box_frame 2] = Except.ok s ∧
      Event.calculate_ransac ∈ s.trace ∧
      consecutive_large (example_config : Config ℝ)
        [idle_frame 0, idle_frame 1, large_box_frame 2] = 1 ∧
      ¬ (consecutive_large (example_config : Config ℝ)
          [idle_frame 0, idle_frame 1, large_box_frame 2]
        > (example_config : Config ℝ).minimum_iterations_before_ransac_) := by
  obtain ⟨s2, h2, i2, w2, -⟩ := warmup_run (lib_with Real.sqrt Real.arccos Real.cos Real.sin)
  obtain ⟨s3, h3, hm⟩ := large_box_frame_step _ s2 i2 w2
  have hrun := run_frames_snoc (lib_with Real.sqrt Real.arccos Real.cos Real.sin) example_config
    [idle_frame 0, idle_frame 1] (large_box_frame 2) initial_state s2 h2
  have hc : consecutive_large (example_config : Config ℝ)
      [idle_frame 0, idle_frame 1, large_box_frame 2] = 1 := by
    simp [consecutive_large, box_large, idle_frame, large_box_frame, small_box, centered_box,
      example_config, List.takeWhile]
    norm_num
  refine ⟨s3, ?_, hm, hc, ?_⟩
  · rw [← h3, ← hrun]
    rfl
  · rw [hc]
    simp [example_config]

/-- C6 (amended). In every sequence of frames, `calculate_ransac` runs on a
completed frame if and only if the detection box of that frame exceeds the
minimum pixel width and height and the number of frames processed before it,
whatever their detection size, added to the initial counter exceeds
`minimum_iterations_before_ransac_`. -/
theorem C6_gate_a_counts_every_frame (L : Lib K) (cfg : Config K) (s s1 s2 : State K)
    (pre : List (Frame K)) (f : Frame K)
    (h1 : run_frames L cfg s pre = Except.ok s1)
    (h2 : run_pose_estimation L cfg s1 f = Except.ok s2) :
    Event.calculate_ransac ∈ s2.trace ↔
      (f.detection_output_struct_.width > cfg.minimum_object_detection_width_pixels_ ∧
       f.detection_output_struct_.height > cfg.minimum_object_detection_height_pixels_ ∧
       s.wait_with_ransac_for_ + pre.length > cfg.minimum_iterations_before_ransac_) := by
  rw [run_pose_estimation_ransac_iff L cfg s1 s2 f h2, gate_a_frustum_stage,
    run_frames_wait L cfg pre s s1 h1]
  simp [box_large, and_assoc]

/-- Witness of C6 (amended): the run of the counterexample; the third frame has
a large box and two frames were processed before it. -/
theorem C6_gate_a_witness :
    ∃ s1 s2,
      run_frames (lib_with Real.sqrt Real.arccos Real.cos Real.sin) example_config
        initial_state [idle_frame 0, idle_frame 1] = Except.ok s1 ∧
      run_pose_estimation (lib_with Real.sqrt Real.arccos Real.cos Real.sin) example_config
        s1 (large_box_frame 2) = Except.ok s2 ∧
      (Event.calculate_ransac ∈ s2.trace ↔
        ((large_box_frame 2 : Frame ℝ).detection_output_struct_.width
            > (example_config : Config ℝ).minimum_object_detection_width_pixels_ ∧
         (large_box_frame 2 : Frame ℝ).detection_output_struct_.height
            > (example_config : Config ℝ).minimum_object_detection_height_pixels_ ∧
         (initial_state : State ℝ).wait_with_ransac_for_
            + [(idle_frame 0 : Frame ℝ), idle_frame 1].length
            > (example_config : Config ℝ).minimum_iterations_before_ransac_)) := by
  obtain ⟨s1, h1, i1, w1, -⟩ := warmup_run (lib_with Real.sqrt Real.arccos Real.cos Real.sin)
  obtain ⟨s2, h2, -⟩ := large_box_frame_step _ s1 i1 w1
  exact ⟨s1, s2, h1, h2, C6_gate_a_counts_every_frame _ _ _ s1 s2 _ _ h1 h2⟩

/-- C7. For every frame that starts with cleared background coefficients and in
which the cascade does not produce a background plane model because Gate A is
closed or the culled cloud is too small: Gate B is closed, so the pose stage
returns the state of the cascade stage without invoking
`calculate_pose_vector`; whenever the frame completes, the row logged for it
contains only the frame number and the stored position and direction end point
are those the frame started with; and the frame does complete from every state
that satisfies the invariant between frames. -/
theorem C7_no_background_plane_no_pose (L : Lib K) (cfg : Config K) (s : State K)
    (f : Frame K) (hstart : s.ransac_model_coefficients_ = [])
    (hno : gate_a cfg f.detection_output_struct_ (frustum_stage L cfg s f) = false ∨
      (frustum_stage L cfg s f).cloud_pallet_.length ≤ cfg.minimum_points_for_ransac_) :
    (gate_b cfg (cascade_stage L cfg s f) = false ∧
      pose_stage L cfg s f = Except.ok (cascade_stage L cfg s f) ∧
      Event.calculate_pose_vector ∉ (cascade_stage L cfg s f).trace) ∧
    (∀ s1, run_pose_estimation L cfg s f = Except.ok s1 →
      Event.calculate_pose_vector ∉ s1.trace ∧
      s1.log = s.log ++ [⟨f.frame_number, []⟩] ∧
      s1.plane_frustum_vector_intersect_ = s.plane_frustum_vector_intersect_ ∧
      s1.pose_vector_end_point_ = s.pose_vector_end_point_) ∧
    (frame_start_invariant s → frame_well_formed f →
      ∃ s1, run_pose_estimation L cfg s f = Except.ok s1) := by
  have hnone := cascade_stage_no_plane L cfg s f hstart hno
  have hgb : gate_b cfg (cascade_stage L cfg s f) = false := by
    simp [gate_b, hnone]
  have hps : pose_stage L cfg s f = Except.ok (cascade_stage L cfg s f) := by
    unfold pose_stage
    rw [hgb]
    rfl
  obtain ⟨-, k2, -, -, -, -, k7, k8, -⟩ := cascade_stage_keeps L cfg s f
  obtain ⟨-, m2, -, -, -, -, m7, m8⟩ := frustum_stage_keeps L cfg s f
  refine ⟨⟨hgb, hps, (cascade_stage_trace L cfg s f).2⟩, ?_, ?_⟩
  · intro s1 h
    obtain ⟨s4, h4, hf⟩ := run_pose_estimation_ok L cfg s s1 f h
    rw [hps] at h4
    cases h4
    obtain ⟨⟨e1, -, -, e4, e5, -⟩, -, -, -, -, -, -, row, hrow, hfn, hcase⟩ :=
      finish_frame_ok cfg f _ s1 hf
    have hfr : full_row_condition cfg (calculate_pose f (cascade_stage L cfg s f)) = false := by
      apply full_row_condition_short
      rw [(calculate_pose_fields f _).1, hnone]
      simp
    have hrv : row.values = [] := by
      rcases hcase with ⟨-, hv⟩ | ⟨ht, -⟩
      · exact hv
      · rw [hfr] at ht
        cases ht
    have hrow2 : row = ⟨f.frame_number, []⟩ := by
      cases row
      simp only at hfn hrv
      rw [hfn, hrv]
    refine ⟨?_, ?_, ?_, ?_⟩
    · rw [e1]
      exact (cascade_stage_trace L cfg s f).2
    · rw [hrow, hrow2, k2, m2]
    · rw [e5, k8, m8]
    · rw [e4, k7, m7]
  · intro hinv hwf
    obtain ⟨s1, h1, -⟩ := no_plane_step L cfg s f hinv hwf hnone
    exact ⟨s1, h1⟩

/-- Witness of C7: the first frame of a run, with a detection below the size
threshold; it completes and logs the row `0`. -/
theorem C7_no_pose_witness :
    ∃ s1, run_pose_estimation (lib_with Real.sqrt Real.arccos Real.cos Real.sin)
        example_config initial_state (idle_frame 0) = Except.ok s1 ∧
      Event.calculate_pose_vector ∉ s1.trace ∧
      s1.log = [⟨0, []⟩] := by
  have h := C7_no_background_plane_no_pose (lib_with Real.sqrt Real.arccos Real.cos Real.sin)
    example_config initial_state (idle_frame 0) rfl (Or.inl (idle_frame_gate_closed _ _ 0))
  obtain ⟨s1, h1⟩ := h.2.2 initial_state_invariant (idle_frame_well_formed 0)
  obtain ⟨t1, l1, -⟩ := h.2.1 s1 h1
  exact ⟨s1, h1, t1, l1⟩

/-- C8 (code evaluated at the failing input). Two warm-up frames, a frame in
which both normal-constrained fits run, then a frame whose sampled normal
cloud has a single point: the extraction is skipped, and the face-plane fit of
that frame runs on the extracted cloud of the previous frame, which is not the
normal cloud of this frame with this frame's background inliers removed. -/
theorem C8_face_fit_on_cloud_of_earlier_frame :
    ∃ s, run_frames (lib_with Real.sqrt Real.arccos Real.cos Real.sin) example_config
        initial_state [idle_frame 0, idle_frame 1, two_plane_frame 2, sparse_frame 3]
        = Except.ok s ∧
      s.output_cloud_with_normals_ = one_normal ∧
      s.trace = [Event.calculate_ransac, Event.background_fit one_normal [],
        Event.face_fit [⟨1, 1 / 2, 4, 1, 0, 0⟩, ⟨1, 0, 4, 1, 0, 0⟩, ⟨1, 1 / 2, 9 / 2, 1, 0, 0⟩]] ∧
      ([⟨1, 1 / 2, 4, 1, 0, 0⟩, ⟨1, 0, 4, 1, 0, 0⟩, ⟨1, 1 / 2, 9 / 2, 1, 0, 0⟩] :
          List (PointNormal ℝ))
        ≠ extract_negative one_normal [] := by
  obtain ⟨s2, h2, i2, w2, -, -, -, -, -, -, -, c2, -⟩ :=
    warmup_run (lib_with Real.sqrt Real.arccos Real.cos Real.sin)
  obtain ⟨s3, h3, i3, w3, -, x3, -⟩ :=
    two_plane_step Real.sqrt Real.arccos Real.cos Real.sin s2 2 i2 (by rw [w2]; decide)
      (by rw [c2])
  obtain ⟨o4, r4, t4⟩ := sparse_cascade Real.sqrt Real.arccos Real.cos Real.sin s3 3
    (by rw [w3, w2]; decide) (by rw [x3]; decide)
  obtain ⟨s4, h4, -, ⟨e1, -, -, -, -, -, e7, -⟩, -⟩ :=
    no_plane_step (lib_with Real.sqrt Real.arccos Real.cos Real.sin) example_config s3
      (sparse_frame 3) i3 (by simp [frame_well_formed, sparse_frame]) r4
  have hrun3 := run_frames_snoc (lib_with Real.sqrt Real.arccos Real.cos Real.sin)
    example_config [idle_frame 0, idle_frame 1] (two_plane_frame 2) initial_state s2 h2
  have hrun4 := run_frames_snoc (lib_with Real.sqrt Real.arccos Real.cos Real.sin)
    example_config [idle_frame 0, idle_frame 1, two_plane_frame 2] (sparse_frame 3)
    initial_state s3 (hrun3.trans h3)
  refine ⟨s4, hrun4.trans h4, ?_, ?_, ?_⟩
  · rw [e7, o4]
  · rw [e1, t4, x3]
  · simp [extract_negative, one_normal]

/-- C9 (counterexample to the claim as stated). Two warm-up frames, then a
frame with a marker in which the stored third face coefficient is 0: a full
row of 1 + 12 fields is logged whose first direction field is 1, while the
pose end point, which `calculate_pose_vector` did not write in this frame,
minus the intersection point has x-component 0. -/
theorem C9_direction_logged_without_end_point :
    ∃ s row, run_frames (lib_with Real.sqrt Real.arccos Real.cos Real.sin) example_config
        initial_state [idle_frame 0, idle_frame 1, two_plane_frame 2] = Except.ok s ∧
      s.log = [⟨0, []⟩, ⟨1, []⟩, row] ∧ row.values.length = 12 ∧
      row.values.get? 3 = some 1 ∧
      s.pose_vector_end_point_.x - s.plane_frustum_vector_intersect_.x = 0 := by
  obtain ⟨s2, h2, i2, w2, -, -, -, -, p2, -, -, c2, l2⟩ :=
    warmup_run (lib_with Real.sqrt Real.arccos Real.cos Real.sin)
  obtain ⟨s3, h3, -, -, -, -, -, -, -, e3, x3, row, hrow, -, hlen, hget⟩ :=
    two_plane_step Real.sqrt Real.arccos Real.cos Real.sin s2 2 i2 (by rw [w2]; decide)
      (by rw [c2])
  have hrun3 := run_frames_snoc (lib_with Real.sqrt Real.arccos Real.cos Real.sin)
    example_config [idle_frame 0, idle_frame 1] (two_plane_frame 2) initial_state s2 h2
  refine ⟨s3, row, hrun3.trans h3, ?_, hlen, hget, ?_⟩
  · rw [hrow, l2]
    rfl
  · rw [e3, p2, x3]
    norm_num

/-- C9 (amended). Every completed frame that starts with cleared background
coefficients (and with `minimum_ransac_coefficients_ < 4`) appends exactly one
row, which starts with the frame number. The row is either the frame number
alone, or it has exactly 13 fields: the frame number, the position that
`calculate_pose_vector` stored in this frame, the three values
`second[0], −first[2], second[2]` read from the coefficient vectors, and the
six entries of `converted_ground_truth_vector_`. The three direction fields
equal pose end point minus intersection point whenever `second[2] > 0`, that
is whenever `calculate_pose_vector` wrote the end point in this frame;
otherwise the end point was not written in this frame. -/
theorem C9_logged_row (L : Lib K) (cfg : Config K) (s s1 : State K) (f : Frame K)
    (hstart : s.ransac_model_coefficients_ = [])
    (hmin : cfg.minimum_ransac_coefficients_ < 4)
    (h : run_pose_estimation L cfg s f = Except.ok s1) :
    ∃ row, s1.log = s.log ++ [row] ∧ row.frame = f.frame_number ∧
      (row.values = [] ∨
       ∃ dx c1 dz g0 g1 g2 g3 g4 g5,
        row.values =
          [s1.plane_frustum_vector_intersect_.x, s1.plane_frustum_vector_intersect_.y,
           s1.plane_frustum_vector_intersect_.z, dx, -1 * c1, dz, g0, g1, g2, g3, g4, g5] ∧
        1 + row.values.length = 13 ∧
        Event.calculate_pose_vector ∈ s1.trace ∧
        vec_at s1.second_ransac_model_coefficients_ plane_normal_x_id_ = Except.ok dx ∧
        vec_at s1.first_ransac_model_coefficients_ plane_normal_z_id_ = Except.ok c1 ∧
        vec_at s1.second_ransac_model_coefficients_ plane_normal_z_id_ = Except.ok dz ∧
        vec_at s1.converted_ground_truth_vector_ 0 = Except.ok g0 ∧
        vec_at s1.converted_ground_truth_vector_ 1 = Except.ok g1 ∧
        vec_at s1.converted_ground_truth_vector_ 2 = Except.ok g2 ∧
        vec_at s1.converted_ground_truth_vector_ 3 = Except.ok g3 ∧
        vec_at s1.converted_ground_truth_vector_ 4 = Except.ok g4 ∧
        vec_at s1.converted_ground_truth_vector_ 5 = Except.ok g5 ∧
        (dz > 0 →
          s1.pose_vector_end_point_.x - s1.plane_frustum_vector_intersect_.x = dx ∧
          s1.pose_vector_end_point_.y - s1.plane_frustum_vector_intersect_.y = -1 * c1 ∧
          s1.pose_vector_end_point_.z - s1.plane_frustum_vector_intersect_.z = dz) ∧
        (¬ dz > 0 → s1.pose_vector_end_point_ = s.pose_vector_end_point_)) := by
  obtain ⟨s4, h4, hf⟩ := run_pose_estimation_ok L cfg s s1 f h
  obtain ⟨⟨e1, e2, e3, e4, e5, -⟩, -, -, -, -, -, -, row, hrow, hfn, hcase⟩ :=
    finish_frame_ok cfg f s4 s1 hf
  obtain ⟨p1, p2, p3, -, -, -, -, -, p9, -⟩ := pose_stage_keeps L cfg s s4 f h4
  obtain ⟨-, q2, -, -, -, -, q7, -⟩ := cascade_stage_keeps L cfg s f
  obtain ⟨-, r2, -, -, -, -, r7, -⟩ := frustum_stage_keeps L cfg s f
  refine ⟨row, by rw [hrow, p9, q2, r2], hfn, ?_⟩
  rcases hcase with ⟨-, hv⟩ | ⟨hfull, dx, dy, dz, g0, g1, g2, g3, g4, g5, hdx, hdy, hdz, h0, h1,
    h2, h3, h4', h5, hv⟩
  · exact Or.inl hv
  · right
    -- a full row needs more than one background coefficient, so the fit of this frame
    -- succeeded and Gate B was open
    have hlen : 1 < (cascade_stage L cfg s f).ransac_model_coefficients_.length := by
      have := hfull
      simp only [full_row_condition, Bool.and_eq_true, decide_eq_true_eq] at this
      have h1 := this.1.1.2
      rw [(calculate_pose_fields f s4).1, p1] at h1
      exact h1
    have hgb : gate_b cfg (cascade_stage L cfg s f) = true := by
      have hco := cascade_stage_coefficients L cfg s f
      split at hco
      · have hl4 : (cascade_stage L cfg s f).ransac_model_coefficients_.length = 4 := by
          rw [hco] at hlen ⊢
          cases hfit : f.segmentation
            (after_sampling cfg f (frustum_stage L cfg s f)).output_cloud_with_normals_ with
          | none =>
            rw [hfit] at hlen
            simp [PlaneFit.values] at hlen
          | some p => simp [PlaneFit.values]
        simp only [gate_b, decide_eq_true_eq, hl4]
        exact hmin
      · rw [hco, hstart] at hlen
        simp at hlen
    rw [← e2] at hdy
    rw [← e3] at hdx hdz
    rw [← e5] at hv
    refine ⟨dx, dy, dz, g0, g1, g2, g3, g4, g5, hv, by rw [hv]; rfl, ?_, hdx, hdy, hdz, h0, h1,
      h2, h3, h4', h5, ?_, ?_⟩
    · rw [e1]
      rcases pose_stage_cases L cfg s s4 f h4 with ⟨hg, -⟩ | ⟨-, nx, ny, nz, d, rest, c2, -, -, hc⟩
      · rw [hgb] at hg
        cases hg
      · rcases hc with ⟨-, rfl⟩ | ⟨-, a2, c1, -, -, rfl⟩
        · simp [store_intersection]
        · simp [store_intersection, store_end_point]
    · intro hpos
      rw [e4, e5]
      rw [e3, p3] at hdx hdz
      rw [e2, p2] at hdy
      rcases pose_stage_cases L cfg s s4 f h4 with ⟨hg, -⟩ | ⟨-, nx, ny, nz, d, rest, c2, -, hc2, hc⟩
      · rw [hgb] at hg
        cases hg
      · simp only [plane_normal_z_id_, plane_normal_x_id_] at hdx hdy hdz
        rw [hc2] at hdz
        cases hdz
        rcases hc with ⟨hneg, -⟩ | ⟨-, a2, c1, ha2, hc1, rfl⟩
        · exact absurd hpos hneg
        · rw [ha2] at hdx
          rw [hc1] at hdy
          cases hdx
          cases hdy
          simp [store_end_point, store_intersection]
    · intro hneg
      rw [e4]
      rw [e3, p3] at hdz
      rcases pose_stage_cases L cfg s s4 f h4 with ⟨hg, -⟩ | ⟨-, nx, ny, nz, d, rest, c2, -, hc2, hc⟩
      · rw [hgb] at hg
        cases hg
      · simp only [plane_normal_z_id_] at hdz
        rw [hc2] at hdz
        cases hdz
        rcases hc with ⟨-, rfl⟩ | ⟨hpos, -⟩
        · show (cascade_stage L cfg s f).pose_vector_end_point_ = _
          rw [q7, r7]
        · exact absurd hpos hneg

/-- Witness of C9 (amended): the third frame of the example run, which logs a
full row. -/
theorem C9_logged_row_witness :
    ∃ s2 s3,
      run_frames (lib_with Real.sqrt Real.arccos Real.cos Real.sin) example_config
        initial_state [idle_frame 0, idle_frame 1] = Except.ok s2 ∧
      run_pose_estimation (lib_with Real.sqrt Real.arccos Real.cos Real.sin) example_config
        s2 (two_plane_frame 2) = Except.ok s3 ∧
      ∃ row, s3.log = s2.log ++ [row] ∧ row.frame = 2 ∧
        (row.values = [] ∨ 1 + row.values.length = 13) := by
  obtain ⟨s2, h2, i2, w2, -, -, -, -, -, -, -, c2, -⟩ :=
    warmup_run (lib_with Real.sqrt Real.arccos Real.cos Real.sin)
  obtain ⟨s3, h3, -⟩ :=
    two_plane_step Real.sqrt Real.arccos Real.cos Real.sin s2 2 i2 (by rw [w2]; decide)
      (by rw [c2])
  obtain ⟨row, hrow, hfn, hcase⟩ :=
    C9_logged_row (lib_with Real.sqrt Real.arccos Real.cos Real.sin) example_config s2 s3
      (two_plane_frame 2) i2.1 (by simp [example_config]) h3
  refine ⟨s2, s3, h2, h3, row, hrow, hfn, ?_⟩
  rcases hcase with hv | ⟨dx, c1, dz, g0, g1, g2, g3, g4, g5, -, hl, -⟩
  · exact Or.inl hv
  · exact Or.inr hl

/-- C10 (code evaluated at the failing input). Two warm-up frames, then a frame
in which the background fit takes every point of the normal cloud as inlier:
the extracted cloud is empty, the face-plane fit is skipped and has never
produced coefficients, Gate B passes, and `calculate_pose_vector` throws
`std::out_of_range` at `second_ransac_model_coefficients_.at(2)`; the run ends
with that exception. -/
theorem C10_pose_vector_throws_without_face_plane :
    ∃ s2, run_frames (lib_with Real.sqrt Real.arccos Real.cos Real.sin) example_config
        initial_state [idle_frame 0, idle_frame 1] = Except.ok s2 ∧
      gate_b example_config
        (cascade_stage (lib_with Real.sqrt Real.arccos Real.cos Real.sin) example_config s2
          (all_inliers_frame 2)) = true ∧
      (cascade_stage (lib_with Real.sqrt Real.arccos Real.cos Real.sin) example_config s2
          (all_inliers_frame 2)).second_ransac_model_coefficients_ = [] ∧
      calculate_pose_vector
        (cascade_stage (lib_with Real.sqrt Real.arccos Real.cos Real.sin) example_config s2
          (all_inliers_frame 2)) = Except.error Err.out_of_range ∧
      run_frames (lib_with Real.sqrt Real.arccos Real.cos Real.sin) example_config
        initial_state [idle_frame 0, idle_frame 1, all_inliers_frame 2]
        = Except.error Err.out_of_range := by
  obtain ⟨s2, h2, i2, w2, -, hsec, -⟩ :=
    warmup_run (lib_with Real.sqrt Real.arccos Real.cos Real.sin)
  obtain ⟨hr, -, hs⟩ := all_inliers_cascade Real.sqrt Real.arccos Real.cos Real.sin s2 2
    (by rw [w2]; decide) hsec
  have hg : gate_b example_config
      (cascade_stage (lib_with Real.sqrt Real.arccos Real.cos Real.sin) example_config s2
        (all_inliers_frame 2)) = true := by
    unfold gate_b
    rw [hr]
    simp [example_config]
  have hp : calculate_pose_vector
      (cascade_stage (lib_with Real.sqrt Real.arccos Real.cos Real.sin) example_config s2
        (all_inliers_frame 2)) = Except.error Err.out_of_range :=
    calculate_pose_vector_second_short _ (by rw [hs]; decide)
  exact ⟨s2, h2, hg, hs, hp,
    run_frames_snoc_error _ _ _ s2 [idle_frame 0, idle_frame 1] _ _ h2
      (run_pose_estimation_throws _ _ s2 _ _ hg hp)⟩

/-- C11 (code evaluated at the failing input). Two warm-up frames, then a frame
in which all three fits run: at the end of that `run_pose_estimation` call
`ransac_model_coefficients_` is empty, but the coarse cache still holds
`(0, 0, 1, −5)` and the face cache `(1, 0, 0, −1)`. -/
theorem C11_only_background_cache_cleared :
    ∃ s, run_frames (lib_with Real.sqrt Real.arccos Real.cos Real.sin) example_config
        initial_state [idle_frame 0, idle_frame 1, two_plane_frame 2] = Except.ok s ∧
      s.ransac_model_coefficients_ = [] ∧
      s.first_ransac_model_coefficients_ = [0, 0, 1, -5] ∧
      s.second_ransac_model_coefficients_ = [1, 0, 0, -1] := by
  obtain ⟨s2, h2, i2, w2, -, -, -, -, -, -, -, c2, -⟩ :=
    warmup_run (lib_with Real.sqrt Real.arccos Real.cos Real.sin)
  obtain ⟨s3, h3, i3, -, -, -, x5, x6, -⟩ :=
    two_plane_step Real.sqrt Real.arccos Real.cos Real.sin s2 2 i2 (by rw [w2]; decide)
      (by rw [c2])
  have hrun3 := run_frames_snoc (lib_with Real.sqrt Real.arccos Real.cos Real.sin)
    example_config [idle_frame 0, idle_frame 1] (two_plane_frame 2) initial_state s2 h2
  exact ⟨s3, hrun3.trans h3, i3.1, x6, x5⟩

/-- C12 (counterexample). A frame with the 200 x 200 box followed by a frame
whose box is the single pixel `(320, 240)` with width 0 and height 0: the
frustum stage of the second frame runs without any guard. It overwrites the
positive horizontal FOV of the first frame with 0, stores a frustum and stores
the culled cloud of the second frame. -/
theorem C12_point_box_builds_frustum :
    (point_box : DetectionOutput ℝ).width = 0 ∧ (point_box : DetectionOutput ℝ).height = 0 ∧
    0 < (frustum_stage (lib_with Real.sqrt Real.arccos Real.cos Real.sin) example_config
          initial_state (large_box_frame 0)).fov_h_rad_ ∧
    (frustum_stage (lib_with Real.sqrt Real.arccos Real.cos Real.sin) example_config
        (frustum_stage (lib_with Real.sqrt Real.arccos Real.cos Real.sin) example_config
          initial_state (large_box_frame 0)) (point_box_frame 1)).fov_h_rad_ = 0 ∧
    (frustum_stage (lib_with Real.sqrt Real.arccos Real.cos Real.sin) example_config
        (frustum_stage (lib_with Real.sqrt Real.arccos Real.cos Real.sin) example_config
          initial_state (large_box_frame 0)) (point_box_frame 1)).frustum_.isSome = true ∧
    (frustum_stage (lib_with Real.sqrt Real.arccos Real.cos Real.sin) example_config
          initial_state (large_box_frame 0)).cloud_pallet_ = [] ∧
    (frustum_stage (lib_with Real.sqrt Real.arccos Real.cos Real.sin) example_config
        (frustum_stage (lib_with Real.sqrt Real.arccos Real.cos Real.sin) example_config
          initial_state (large_box_frame 0)) (point_box_frame 1)).cloud_pallet_
      = three_points := by
  refine ⟨rfl, rfl, ?_, ?_, rfl, ?_, ?_⟩
  · show 0 < angle_between (lib_with Real.sqrt Real.arccos Real.cos Real.sin)
      (frustum_point example_config (from_image_center example_config
        ((centered_box : DetectionOutput ℝ).x, (centered_box : DetectionOutput ℝ).y)))
      (frustum_point example_config (from_image_center example_config
        ((centered_box : DetectionOutput ℝ).x + (centered_box : DetectionOutput ℝ).width,
         (centered_box : DetectionOutput ℝ).y)))
    refine (angle_between_mem_Ioo _ rfl rfl _ _ ?_ ?_ (Or.inl ?_)).1
    · norm_num [frustum_point, example_config]
    · norm_num [frustum_point, example_config]
    · norm_num [frustum_point, from_image_center, example_config, centered_box]
  · show angle_between (lib_with Real.sqrt Real.arccos Real.cos Real.sin)
      (frustum_point example_config (from_image_center example_config
        ((point_box : DetectionOutput ℝ).x, (point_box : DetectionOutput ℝ).y)))
      (frustum_point example_config (from_image_center example_config
        ((point_box : DetectionOutput ℝ).x + (point_box : DetectionOutput ℝ).width,
         (point_box : DetectionOutput ℝ).y))) = 0
    have hw : (point_box : DetectionOutput ℝ).x + (point_box : DetectionOutput ℝ).width
        = (point_box : DetectionOutput ℝ).x := by norm_num [point_box]
    rw [hw]
    exact angle_between_self _ rfl rfl _ (by norm_num [frustum_point, example_config])
  · rw [frustum_stage_cloud_lib_with]
    rfl
  · rw [frustum_stage_cloud_lib_with]
    rfl

/-- C12 (amended). For a detection box with width 0 and height 0, focal length
`fx ≠ 0` and detection vector scale `≠ 0` (over the reals, with the real square
root and arccosine), the frustum construction has no guard:
`calculate_3d_crop` stores the horizontal and the vertical FOV `arccos 1 = 0`,
and `edit_pointcloud` stores the frustum configured from that state and the
cloud culled by it, as for any other box. -/
theorem C12_point_box_frustum_unguarded (L : Lib ℝ) (cfg : Config ℝ)
    (d : DetectionOutput ℝ) (s : State ℝ) (pts : List (PointXYZ ℝ))
    (hsqrt : L.sqrt = Real.sqrt) (hacos : L.acos = Real.arccos)
    (_hfx : cfg.zed_k_matrix_ 0 ≠ 0) (hs : cfg.detection_vector_scale_ ≠ 0)
    (hw : d.width = 0) (hh : d.height = 0) :
    (calculate_3d_crop L cfg d s).fov_h_rad_ = 0 ∧
    (calculate_3d_crop L cfg d s).fov_v_rad_ = 0 ∧
    (edit_pointcloud L cfg pts (calculate_3d_crop L cfg d s)).fov_h_rad_ = 0 ∧
    (edit_pointcloud L cfg pts (calculate_3d_crop L cfg d s)).fov_v_rad_ = 0 ∧
    (edit_pointcloud L cfg pts (calculate_3d_crop L cfg d s)).frustum_
      = some (frustum_of L cfg (calculate_3d_crop L cfg d s)) ∧
    (edit_pointcloud L cfg pts (calculate_3d_crop L cfg d s)).cloud_pallet_
      = frustum_culling L (frustum_of L cfg (calculate_3d_crop L cfg d s)) pts := by
  have h1 : (calculate_3d_crop L cfg d s).fov_h_rad_ = 0 := by
    show angle_between L (frustum_point cfg (from_image_center cfg (d.x, d.y)))
      (frustum_point cfg (from_image_center cfg (d.x + d.width, d.y))) = 0
    rw [hw, add_zero]
    exact angle_between_self L hsqrt hacos _ hs
  have h2 : (calculate_3d_crop L cfg d s).fov_v_rad_ = 0 := by
    show angle_between L (frustum_point cfg (from_image_center cfg (d.x, d.y)))
      (frustum_point cfg (from_image_center cfg (d.x, d.y + d.height))) = 0
    rw [hh, add_zero]
    exact angle_between_self L hsqrt hacos _ hs
  exact ⟨h1, h2, h1, h2, rfl, rfl⟩

/-- Witness of the amended C12: the box `point_box` under `example_config`,
from the initial state, with the cloud `three_points`. -/
theorem C12_point_box_witness :
    (calculate_3d_crop (lib_with Real.sqrt Real.arccos Real.cos Real.sin) example_config
        point_box initial_state).fov_h_rad_ = 0 ∧
    (calculate_3d_crop (lib_with Real.sqrt Real.arccos Real.cos Real.sin) example_config
        point_box initial_state).fov_v_rad_ = 0 :=
  ⟨(C12_point_box_frustum_unguarded (lib_with Real.sqrt Real.arccos Real.cos Real.sin)
      example_config point_box initial_state three_points rfl rfl
      (by norm_num [example_config]) (by norm_num [example_config]) rfl rfl).1,
   (C12_point_box_frustum_unguarded (lib_with Real.sqrt Real.arccos Real.cos Real.sin)
      example_config point_box initial_state three_points rfl rfl
      (by norm_num [example_config]) (by norm_num [example_config]) rfl rfl).2.1⟩

/-- C13 (code evaluated at the failing input). Two warm-up frames, a frame in
which all stages run, then a frame whose sampled normal cloud has a single
point: the background fit of that frame runs on this one-point cloud, which
does not have more points than the threshold 2 (its guard looks at the size of
the culled cloud, 3); the extraction is skipped, yet the extracted cloud of the
previous frame is still there after the call, and the face fit has run on it. -/
theorem C13_stage_guards_and_carry_over :
    ∃ s, run_frames (lib_with Real.sqrt Real.arccos Real.cos Real.sin) example_config
        initial_state [idle_frame 0, idle_frame 1, two_plane_frame 2, sparse_frame 3]
        = Except.ok s ∧
      Event.background_fit one_normal [] ∈ s.trace ∧
      ¬ ((one_normal : List (PointNormal ℝ)).length
          > (example_config : Config ℝ).minimum_points_for_ransac_) ∧
      s.output_cloud_with_normals_ = one_normal ∧
      s.extracted_cloud_with_normals_
        = [⟨1, 1 / 2, 4, 1, 0, 0⟩, ⟨1, 0, 4, 1, 0, 0⟩, ⟨1, 1 / 2, 9 / 2, 1, 0, 0⟩] ∧
      Event.face_fit [⟨1, 1 / 2, 4, 1, 0, 0⟩, ⟨1, 0, 4, 1, 0, 0⟩, ⟨1, 1 / 2, 9 / 2, 1, 0, 0⟩]
        ∈ s.trace := by
  obtain ⟨s2, h2, i2, w2, -, -, -, -, -, -, -, c2, -⟩ :=
    warmup_run (lib_with Real.sqrt Real.arccos Real.cos Real.sin)
  obtain ⟨s3, h3, i3, w3, -, x3, -⟩ :=
    two_plane_step Real.sqrt Real.arccos Real.cos Real.sin s2 2 i2 (by rw [w2]; decide)
      (by rw [c2])
  obtain ⟨o4, r4, t4⟩ := sparse_cascade Real.sqrt Real.arccos Real.cos Real.sin s3 3
    (by rw [w3, w2]; decide) (by rw [x3]; decide)
  have x4 := sparse_cascade_extracted Real.sqrt Real.arccos Real.cos Real.sin s3 3
    (by rw [w3, w2]; decide)
  obtain ⟨s4, h4, -, ⟨e1, -, -, -, -, -, e7, e8⟩, -⟩ :=
    no_plane_step (lib_with Real.sqrt Real.arccos Real.cos Real.sin) example_config s3
      (sparse_frame 3) i3 (by simp [frame_well_formed, sparse_frame]) r4
  have hrun3 := run_frames_snoc (lib_with Real.sqrt Real.arccos Real.cos Real.sin)
    example_config [idle_frame 0, idle_frame 1] (two_plane_frame 2) initial_state s2 h2
  have hrun4 := run_frames_snoc (lib_with Real.sqrt Real.arccos Real.cos Real.sin)
    example_config [idle_frame 0, idle_frame 1, two_plane_frame 2] (sparse_frame 3)
    initial_state s3 (hrun3.trans h3)
  refine ⟨s4, hrun4.trans h4, ?_, ?_, ?_, ?_, ?_⟩
  · rw [e1, t4]
    simp
  · simp [one_normal, example_config]
  · rw [e7, o4]
  · rw [e8, x4, x3]
  · rw [e1, t4, x3]
    simp

/-- C14 (counterexample to the claim as stated). Background plane `z = 5`, face
plane `x = 1`, center vector `(1, 0, 1)`: the stored plane origin is `(0, 0, 5)`
and the stored position is `(5, 0, 5)`, the intersection of the center ray
with the background plane; the intersection with the face plane would be
`(1, 0, 1)`, and the stored position does not lie on the face plane. -/
theorem C14_position_on_background_plane :
    ∃ s1, calculate_pose_vector (two_plane_pose_state : State ℚ) = Except.ok s1 ∧
      s1.plane_vector_intersect_ = ⟨0, 0, 5⟩ ∧
      s1.plane_frustum_vector_intersect_ = ⟨5, 0, 5⟩ ∧
      scale3 (two_plane_pose_state : State ℚ).center_frustum_
        (distance_scalar (plane_orgin 1 0 0 (-1)) ⟨1, 0, 0⟩
          (two_plane_pose_state : State ℚ).center_frustum_) = ⟨1, 0, 1⟩ ∧
      dot3 ⟨1, 0, 0⟩ s1.plane_frustum_vector_intersect_ + -1 ≠ 0 := by
  obtain ⟨s1, h⟩ := calculate_pose_vector_total (two_plane_pose_state : State ℚ)
    (by decide) (by decide) (by decide)
  obtain ⟨nx, ny, nz, d, rest, c2, hc, -, hcase⟩ := calculate_pose_vector_cases _ s1 h
  have hc2 : (two_plane_pose_state : State ℚ).ransac_model_coefficients_ = [0, 0, 1, -5] := rfl
  rw [hc2] at hc
  simp only [List.cons.injEq] at hc
  obtain ⟨rfl, rfl, rfl, rfl, -⟩ := hc
  have ho : s1.plane_vector_intersect_ = (⟨0, 0, 5⟩ : PointXYZ ℚ) ∧
      s1.plane_frustum_vector_intersect_ = (⟨5, 0, 5⟩ : PointXYZ ℚ) := by
    rcases hcase with ⟨-, rfl⟩ | ⟨-, a2, c1, -, -, rfl⟩
    · simp [store_intersection, plane_orgin, scale3, distance_scalar, dot3,
        two_plane_pose_state]
    · simp [store_end_point, store_intersection, plane_orgin, scale3, distance_scalar, dot3,
        two_plane_pose_state]
  refine ⟨s1, h, ho.1, ho.2, ?_, ?_⟩
  · simp [plane_orgin, scale3, distance_scalar, dot3, two_plane_pose_state]
  · rw [ho.2]
    simp [dot3]
    norm_num

/-- C14 (amended). In a frame that starts with cleared background coefficients
and in which Gate B is open, the plane whose coefficients
`calculate_pose_vector` uses for the plane origin `−normal·d`, for the scalar
`t` and for the intersection point is the background PlaneModel: the output
`p` of the first normal-constrained fit of this frame, stored in
`ransac_model_coefficients_`. The face coefficients do not occur in the
position. -/
theorem C14_position_uses_background_plane (L : Lib K) (cfg : Config K) (s s4 : State K)
    (f : Frame K) (hstart : s.ransac_model_coefficients_ = [])
    (hgb : gate_b cfg (cascade_stage L cfg s f) = true)
    (h : pose_stage L cfg s f = Except.ok s4) :
    ∃ p : PlaneFit K,
      f.segmentation (after_sampling cfg f (frustum_stage L cfg s f)).output_cloud_with_normals_
        = some p ∧
      (cascade_stage L cfg s f).ransac_model_coefficients_ = [p.a, p.b, p.c, p.d] ∧
      s4.plane_vector_intersect_ = plane_orgin p.a p.b p.c p.d ∧
      s4.plane_frustum_vector_intersect_ =
        scale3 (cascade_stage L cfg s f).center_frustum_
          (distance_scalar (plane_orgin p.a p.b p.c p.d) ⟨p.a, p.b, p.c⟩
            (cascade_stage L cfg s f).center_frustum_) := by
  have hlen : 0 < (cascade_stage L cfg s f).ransac_model_coefficients_.length := by
    simp only [gate_b, decide_eq_true_eq] at hgb
    omega
  have hco := cascade_stage_coefficients L cfg s f
  split at hco
  · cases hfit : f.segmentation
        (after_sampling cfg f (frustum_stage L cfg s f)).output_cloud_with_normals_ with
    | none =>
      rw [hco, hfit] at hlen
      simp [PlaneFit.values] at hlen
    | some p =>
      rw [hfit] at hco
      have hco2 : (cascade_stage L cfg s f).ransac_model_coefficients_
          = [p.a, p.b, p.c, p.d] := hco
      refine ⟨p, rfl, hco2, ?_⟩
      rcases pose_stage_cases L cfg s s4 f h with ⟨hg, -⟩ |
        ⟨-, nx, ny, nz, d, rest, c2, hc, -, hcase⟩
      · rw [hgb] at hg
        cases hg
      · rw [hco2] at hc
        simp only [List.cons.injEq] at hc
        obtain ⟨rfl, rfl, rfl, rfl, -⟩ := hc
        rcases hcase with ⟨-, rfl⟩ | ⟨-, a2, c1, -, -, rfl⟩
        · exact ⟨rfl, rfl⟩
        · exact ⟨rfl, rfl⟩
  · rw [hco, hstart] at hlen
    simp at hlen

/-- Witness of C14 (amended): the third frame of the example run; the
background fit of that frame returns the plane `z = 5`. -/
theorem C14_background_plane_witness :
    ∃ s2 s4,
      run_frames (lib_with Real.sqrt Real.arccos Real.cos Real.sin) example_config
        initial_state [idle_frame 0, idle_frame 1] = Except.ok s2 ∧
      pose_stage (lib_with Real.sqrt Real.arccos Real.cos Real.sin) example_config s2
        (two_plane_frame 2) = Except.ok s4 ∧
      s4.plane_vector_intersect_ = plane_orgin 0 0 1 (-5) := by
  obtain ⟨s2, h2, i2, w2, -⟩ := warmup_run (lib_with Real.sqrt Real.arccos Real.cos Real.sin)
  obtain ⟨c1, -, c3, -, c5⟩ := two_plane_cascade Real.sqrt Real.arccos Real.cos Real.sin s2 2
    (by rw [w2]; decide)
  have hgb : gate_b example_config
      (cascade_stage (lib_with Real.sqrt Real.arccos Real.cos Real.sin) example_config s2
        (two_plane_frame 2)) = true := by
    unfold gate_b
    rw [c3]
    simp [example_config]
  obtain ⟨s4, h4⟩ := calculate_pose_vector_total
    (cascade_stage (lib_with Real.sqrt Real.arccos Real.cos Real.sin) example_config s2
      (two_plane_frame 2)) (by rw [c3]; simp) (by rw [c5]; simp) (by rw [c1]; simp)
  have hps : pose_stage (lib_with Real.sqrt Real.arccos Real.cos Real.sin) example_config s2
      (two_plane_frame 2) = Except.ok s4 := by
    unfold pose_stage
    rw [if_pos hgb]
    exact h4
  obtain ⟨p, hp, hco, ho, -⟩ := C14_position_uses_background_plane
    (lib_with Real.sqrt Real.arccos Real.cos Real.sin) example_config s2 s4 (two_plane_frame 2)
    i2.1 hgb hps
  refine ⟨s2, s4, h2, hps, ?_⟩
  rw [c3] at hco
  simp only [List.cons.injEq, and_true] at hco
  obtain ⟨ha, hb, hc, hd⟩ := hco
  rw [ho, ← ha, ← hb, ← hc, ← hd]

/-- C15 (counterexample to the claim as stated). Third coefficient of the
coarse fit 3, of the background fit 1, of the face fit 2: the pose end point
minus the intersection point is `(1, −3, 2)`; its second component is minus
the coarse coefficient, not minus the background coefficient. -/
theorem C15_direction_uses_coarse_fit :
    ∃ s1, calculate_pose_vector (direction_example_state : State ℚ) = Except.ok s1 ∧
      vec_at (direction_example_state : State ℚ).ransac_model_coefficients_
        plane_normal_z_id_ = Except.ok 1 ∧
      vec_at (direction_example_state : State ℚ).first_ransac_model_coefficients_
        plane_normal_z_id_ = Except.ok 3 ∧
      s1.pose_vector_end_point_.x - s1.plane_frustum_vector_intersect_.x = 1 ∧
      s1.pose_vector_end_point_.y - s1.plane_frustum_vector_intersect_.y = -3 ∧
      s1.pose_vector_end_point_.z - s1.plane_frustum_vector_intersect_.z = 2 ∧
      s1.pose_vector_end_point_.y - s1.plane_frustum_vector_intersect_.y ≠ -1 := by
  obtain ⟨s1, h⟩ := calculate_pose_vector_total (direction_example_state : State ℚ)
    (by decide) (by decide) (by decide)
  obtain ⟨nx, ny, nz, d, rest, c2, -, hc2, hcase⟩ := calculate_pose_vector_cases _ s1 h
  have hs2 : vec_at (direction_example_state : State ℚ).second_ransac_model_coefficients_ 2
      = Except.ok 2 := rfl
  rw [hs2] at hc2
  cases hc2
  have hd : s1.pose_vector_end_point_.x - s1.plane_frustum_vector_intersect_.x = 1 ∧
      s1.pose_vector_end_point_.y - s1.plane_frustum_vector_intersect_.y = -3 ∧
      s1.pose_vector_end_point_.z - s1.plane_frustum_vector_intersect_.z = 2 := by
    rcases hcase with ⟨hneg, -⟩ | ⟨-, a2, c1, ha2, hc1, rfl⟩
    · exact absurd (by norm_num : (2 : ℚ) > 0) hneg
    · have ha : vec_at (direction_example_state : State ℚ).second_ransac_model_coefficients_ 0
          = Except.ok 1 := rfl
      have hc : vec_at (direction_example_state : State ℚ).first_ransac_model_coefficients_ 2
          = Except.ok 3 := rfl
      rw [ha] at ha2
      rw [hc] at hc1
      cases ha2
      cases hc1
      simp [store_end_point, store_intersection]
  refine ⟨s1, h, rfl, rfl, hd.1, hd.2.1, hd.2.2, ?_⟩
  rw [hd.2.1]
  norm_num

/-- C15 (amended). Whenever `calculate_pose_vector` computes a direction (it
returns and the third face coefficient is positive), the pose end point minus
the intersection point equals `(face.nx, −coarse.nz, face.nz)`, where face is
`second_ransac_model_coefficients_` (the second normal-constrained fit) and
coarse is `first_ransac_model_coefficients_` (the unconstrained coarse fit);
the background coefficients do not occur in this difference. -/
theorem C15_direction_offsets (s s1 : State K) (a2 c2 c1 : K)
    (h : calculate_pose_vector s = Except.ok s1)
    (h0 : vec_at s.second_ransac_model_coefficients_ plane_normal_x_id_ = Except.ok a2)
    (h2 : vec_at s.second_ransac_model_coefficients_ plane_normal_z_id_ = Except.ok c2)
    (h1 : vec_at s.first_ransac_model_coefficients_ plane_normal_z_id_ = Except.ok c1)
    (hpos : c2 > 0) :
    s1.pose_vector_end_point_.x - s1.plane_frustum_vector_intersect_.x = a2 ∧
    s1.pose_vector_end_point_.y - s1.plane_frustum_vector_intersect_.y = -c1 ∧
    s1.pose_vector_end_point_.z - s1.plane_frustum_vector_intersect_.z = c2 := by
  obtain ⟨nx, ny, nz, d, rest, z2, -, hz2, hcase⟩ := calculate_pose_vector_cases s s1 h
  simp only [plane_normal_x_id_, plane_normal_z_id_] at h0 h1 h2
  rw [h2] at hz2
  cases hz2
  rcases hcase with ⟨hneg, -⟩ | ⟨-, x2, z1, hx2, hz1, rfl⟩
  · exact absurd hpos hneg
  · rw [h0] at hx2
    rw [h1] at hz1
    cases hx2
    cases hz1
    simp [store_end_point, store_intersection]

/-- Witness of C15 (amended): the state of the counterexample, where the
difference is `(1, −3, 2)`. -/
theorem C15_direction_offsets_witness :
    ∃ s1, calculate_pose_vector (direction_example_state : State ℚ) = Except.ok s1 ∧
      s1.pose_vector_end_point_.x - s1.plane_frustum_vector_intersect_.x = 1 ∧
      s1.pose_vector_end_point_.y - s1.plane_frustum_vector_intersect_.y = -3 ∧
      s1.pose_vector_end_point_.z - s1.plane_frustum_vector_intersect_.z = 2 := by
  obtain ⟨s1, h⟩ := calculate_pose_vector_total (direction_example_state : State ℚ)
    (by decide) (by decide) (by decide)
  exact ⟨s1, h, C15_direction_offsets (direction_example_state : State ℚ) s1 1 2 3 h rfl rfl rfl
    (by norm_num)⟩

/-- C16 (counterexample to the claim as stated). In `two_plane_pose_state` the
third background coefficient is 1 > 0 but the third face coefficient is 0:
the end point is not written (it keeps its old value `(0, 0, 0)`). In
`reversed_background_state` the third background coefficient is −1 but the
third face coefficient is 2 > 0: the end point is written, `(1, −3, 7)`. -/
theorem C16_end_point_follows_face_coefficient :
    (∃ s1, calculate_pose_vector (two_plane_pose_state : State ℚ) = Except.ok s1 ∧
      vec_at (two_plane_pose_state : State ℚ).ransac_model_coefficients_ plane_normal_z_id_
        = Except.ok 1 ∧
      s1.pose_vector_end_point_ = (two_plane_pose_state : State ℚ).pose_vector_end_point_ ∧
      s1.pose_vector_end_point_ = ⟨0, 0, 0⟩ ∧
      s1.plane_frustum_vector_intersect_ = ⟨5, 0, 5⟩) ∧
    (∃ s1, calculate_pose_vector (reversed_background_state : State ℚ) = Except.ok s1 ∧
      vec_at (reversed_background_state : State ℚ).ransac_model_coefficients_
        plane_normal_z_id_ = Except.ok (-1) ∧
      (reversed_background_state : State ℚ).pose_vector_end_point_ = ⟨0, 0, 0⟩ ∧
      s1.pose_vector_end_point_ = ⟨1, -3, 7⟩) := by
  constructor
  · obtain ⟨s1, h⟩ := calculate_pose_vector_total (two_plane_pose_state : State ℚ)
      (by decide) (by decide) (by decide)
    obtain ⟨nx, ny, nz, d, rest, c2, hc, hc2, hcase⟩ := calculate_pose_vector_cases _ s1 h
    have hco : (two_plane_pose_state : State ℚ).ransac_model_coefficients_ = [0, 0, 1, -5] := rfl
    rw [hco] at hc
    simp only [List.cons.injEq] at hc
    obtain ⟨rfl, rfl, rfl, rfl, -⟩ := hc
    have hs2 : vec_at (two_plane_pose_state : State ℚ).second_ransac_model_coefficients_ 2
        = Except.ok 0 := rfl
    rw [hs2] at hc2
    cases hc2
    rcases hcase with ⟨-, rfl⟩ | ⟨hpos, -⟩
    · refine ⟨_, h, rfl, rfl, rfl, ?_⟩
      simp [store_intersection, plane_orgin, scale3, distance_scalar, dot3,
        two_plane_pose_state]
    · exact absurd hpos (lt_irrefl _)
  · obtain ⟨s1, h⟩ := calculate_pose_vector_total (reversed_background_state : State ℚ)
      (by decide) (by decide) (by decide)
    obtain ⟨nx, ny, nz, d, rest, c2, hc, hc2, hcase⟩ := calculate_pose_vector_cases _ s1 h
    have hco : (reversed_background_state : State ℚ).ransac_model_coefficients_
        = [0, 0, -1, 5] := rfl
    rw [hco] at hc
    simp only [List.cons.injEq] at hc
    obtain ⟨rfl, rfl, rfl, rfl, -⟩ := hc
    have hs2 : vec_at (reversed_background_state : State ℚ).second_ransac_model_coefficients_ 2
        = Except.ok 2 := rfl
    rw [hs2] at hc2
    cases hc2
    rcases hcase with ⟨hneg, -⟩ | ⟨-, a2, c1, ha2, hc1, rfl⟩
    · exact absurd (by norm_num : (2 : ℚ) > 0) hneg
    · have ha : vec_at (reversed_background_state : State ℚ).second_ransac_model_coefficients_ 0
          = Except.ok 1 := rfl
      have hc : vec_at (reversed_background_state : State ℚ).first_ransac_model_coefficients_ 2
          = Except.ok 3 := rfl
      rw [ha] at ha2
      rw [hc] at hc1
      cases ha2
      cases hc1
      refine ⟨_, h, rfl, rfl, ?_⟩
      simp [store_end_point, store_intersection, plane_orgin, scale3, distance_scalar, dot3,
        reversed_background_state, direction_example_state]
      norm_num

/-- C16 (amended). Whenever `calculate_pose_vector` returns, it has written the
direction end point if and only if the third coefficient `c2` of the face plane
(`second_ransac_model_coefficients_`) is strictly positive: for `c2 > 0` the
returned state is the state after the intersection writes with the end point
set to intersection plus `(face.nx, −coarse.nz, face.nz)`; otherwise it is the
state after the intersection writes alone, in which the end point has the value
it had before the call. -/
theorem C16_end_point_written_iff_face_positive (s s1 : State K) (c2 : K)
    (h : calculate_pose_vector s = Except.ok s1)
    (h2 : vec_at s.second_ransac_model_coefficients_ plane_normal_z_id_ = Except.ok c2) :
    (c2 > 0 →
      ∃ a2 c1,
        vec_at s.second_ransac_model_coefficients_ plane_normal_x_id_ = Except.ok a2 ∧
        vec_at s.first_ransac_model_coefficients_ plane_normal_z_id_ = Except.ok c1 ∧
        s1 = store_end_point
          (store_intersection s s1.plane_vector_intersect_ s1.plane_frustum_vector_intersect_)
          s1.plane_frustum_vector_intersect_ a2 c1 c2 ∧
        s1.pose_vector_end_point_ =
          ⟨s1.plane_frustum_vector_intersect_.x + a2,
           s1.plane_frustum_vector_intersect_.y + -1 * c1,
           s1.plane_frustum_vector_intersect_.z + c2⟩) ∧
    (¬ c2 > 0 →
      s1 = store_intersection s s1.plane_vector_intersect_ s1.plane_frustum_vector_intersect_ ∧
      s1.pose_vector_end_point_ = s.pose_vector_end_point_) := by
  obtain ⟨nx, ny, nz, d, rest, z2, -, hz2, hcase⟩ := calculate_pose_vector_cases s s1 h
  simp only [plane_normal_z_id_] at h2
  rw [h2] at hz2
  cases hz2
  constructor
  · intro hpos
    rcases hcase with ⟨hneg, -⟩ | ⟨-, a2, c1, ha2, hc1, rfl⟩
    · exact absurd hpos hneg
    · exact ⟨a2, c1, ha2, hc1, rfl, rfl⟩
  · intro hneg
    rcases hcase with ⟨-, rfl⟩ | ⟨hpos, -⟩
    · exact ⟨rfl, rfl⟩
    · exact absurd hpos hneg

/-- Witness of C16 (amended): in `two_plane_pose_state` the third face
coefficient is 0 and the end point keeps its value. -/
theorem C16_end_point_witness :
    ∃ s1, calculate_pose_vector (two_plane_pose_state : State ℚ) = Except.ok s1 ∧
      s1.pose_vector_end_point_ = (two_plane_pose_state : State ℚ).pose_vector_end_point_ := by
  obtain ⟨s1, h⟩ := calculate_pose_vector_total (two_plane_pose_state : State ℚ)
    (by decide) (by decide) (by decide)
  exact ⟨s1, h, ((C16_end_point_written_iff_face_positive (two_plane_pose_state : State ℚ) s1 0
    h rfl).2 (lt_irrefl _)).2⟩

/-- C17 (code evaluated at the failing input). In the third frame of
the example run the background fit runs on the whole NaN-free sampled cloud
`four_normals`, while the keep-rule set `final_with_normals_` is the filtered
cloud; the background inlier with index 0 is the point `(1/2, 0, 5)`, which
violates the keep-rule (`|y| > 0.2` fails), and the cloud handed to the face
fit contains the point `(1, 0, 4)`, which violates it too. -/
theorem C17_background_fit_ignores_keep_rule :
    ∃ s2, run_frames (lib_with Real.sqrt Real.arccos Real.cos Real.sin) example_config
        initial_state [idle_frame 0, idle_frame 1] = Except.ok s2 ∧
      (cascade_stage (lib_with Real.sqrt Real.arccos Real.cos Real.sin) example_config s2
          (two_plane_frame 2)).trace
        = [Event.calculate_ransac, Event.background_fit four_normals [0],
           Event.face_fit [⟨1, 1 / 2, 4, 1, 0, 0⟩, ⟨1, 0, 4, 1, 0, 0⟩,
             ⟨1, 1 / 2, 9 / 2, 1, 0, 0⟩]] ∧
      (cascade_stage (lib_with Real.sqrt Real.arccos Real.cos Real.sin) example_config s2
          (two_plane_frame 2)).final_with_normals_
        = (four_normals : List (PointNormal ℝ)).filter keep_rule ∧
      (four_normals : List (PointNormal ℝ)).get? 0 = some ⟨1 / 2, 0, 5, 0, 0, 1⟩ ∧
      keep_rule (⟨1 / 2, 0, 5, 0, 0, 1⟩ : PointNormal ℝ) = false ∧
      keep_rule (⟨1, 0, 4, 1, 0, 0⟩ : PointNormal ℝ) = false ∧
      (four_normals : List (PointNormal ℝ)) ≠ (four_normals : List (PointNormal ℝ)).filter
        keep_rule := by
  obtain ⟨s2, h2, i2, w2, -⟩ := warmup_run (lib_with Real.sqrt Real.arccos Real.cos Real.sin)
  have hw : s2.wait_with_ransac_for_ > 1 := by rw [w2]; decide
  have hcl := frustum_stage_cloud_lib_with Real.sqrt Real.arccos Real.cos Real.sin
    example_config s2 (two_plane_frame 2)
  obtain ⟨-, c2, -, c4, -⟩ := two_plane_cascade Real.sqrt Real.arccos Real.cos Real.sin s2 2 hw
  obtain ⟨-, -, -, -, -, htr⟩ := cascade_stage_open_summary
    (lib_with Real.sqrt Real.arccos Real.cos Real.sin) example_config s2 (two_plane_frame 2)
    (centered_box_gate_open _ s2 _ rfl hw)
    (by rw [hcl]; simp [two_plane_frame, five_points, example_config])
    (by rw [hcl]; simp [two_plane_frame, five_points, example_config])
  have hfin := cascade_stage_final (lib_with Real.sqrt Real.arccos Real.cos Real.sin)
    example_config s2 (two_plane_frame 2) (centered_box_gate_open _ s2 _ rfl hw)
    (by rw [hcl]; simp [two_plane_frame, five_points, example_config])
  have hk1 : keep_rule (⟨1 / 2, 0, 5, 0, 0, 1⟩ : PointNormal ℝ) = false := by
    simp only [keep_rule, Bool.and_eq_false_iff, decide_eq_false_iff_not]
    left; right
    norm_num
  have hk2 : keep_rule (⟨1, 0, 4, 1, 0, 0⟩ : PointNormal ℝ) = false := by
    simp only [keep_rule, Bool.and_eq_false_iff, decide_eq_false_iff_not]
    left; right
    norm_num
  refine ⟨s2, h2, ?_, ?_, rfl, hk1, hk2, ?_⟩
  · rw [htr, c4, c2, if_pos (by simp [example_config])]
    rfl
  · rw [hfin]
    rfl
  · intro heq
    have hmem : (⟨1 / 2, 0, 5, 0, 0, 1⟩ : PointNormal ℝ)
        ∈ (four_normals : List (PointNormal ℝ)).filter keep_rule := by
      rw [← heq]
      simp [four_normals]
    rw [List.mem_filter] at hmem
    rw [hk1] at hmem
    exact absurd hmem.2 (by simp)

/-- C18. Sign correction in `edit_pointcloud`, over the reals: for every center
frustum vector `(cx, cy, cz)` with `cz > 0`, the final `angle_zx` is
`−arccos(cz/√(cz²+cx²))` when `cx > 0` and `+arccos(cz/√(cz²+cx²))` otherwise,
the final `angle_zy` is `−arccos(cz/√(cz²+cy²))` when `cy < 0` and
`+arccos(cz/√(cz²+cy²))` otherwise; both angles lie in `(−π/2, π/2)`,
`tan(angle_zy) = cy/cz`, `tan(angle_zx) = −cx/cz`, and for `cx = 0`
(`cy = 0`) the respective angle is 0. -/
theorem C18_sign_correction (L : Lib ℝ) (hsqrt : L.sqrt = Real.sqrt)
    (hacos : L.acos = Real.arccos) (c : PointXYZ ℝ) (hz : 0 < c.z) :
    angle_zx L c = (if c.x > 0 then -Real.arccos (c.z / Real.sqrt (c.z ^ 2 + c.x ^ 2))
      else Real.arccos (c.z / Real.sqrt (c.z ^ 2 + c.x ^ 2))) ∧
    angle_zy L c = (if c.y < 0 then -Real.arccos (c.z / Real.sqrt (c.z ^ 2 + c.y ^ 2))
      else Real.arccos (c.z / Real.sqrt (c.z ^ 2 + c.y ^ 2))) ∧
    (-(Real.pi / 2) < angle_zx L c ∧ angle_zx L c < Real.pi / 2) ∧
    (-(Real.pi / 2) < angle_zy L c ∧ angle_zy L c < Real.pi / 2) ∧
    Real.tan (angle_zy L c) = c.y / c.z ∧
    Real.tan (angle_zx L c) = -c.x / c.z ∧
    (c.x = 0 → angle_zx L c = 0) ∧ (c.y = 0 → angle_zy L c = 0) := by
  obtain ⟨x0, x1, x2, x3⟩ := arccos_ratio_facts c.z c.x hz
  obtain ⟨y0, y1, y2, y3⟩ := arccos_ratio_facts c.z c.y hz
  have hpi : 0 < Real.pi / 2 := by positivity
  have hzx : angle_zx L c = (if c.x > 0 then -Real.arccos (c.z / Real.sqrt (c.z ^ 2 + c.x ^ 2))
      else Real.arccos (c.z / Real.sqrt (c.z ^ 2 + c.x ^ 2))) := by
    simp only [angle_zx, center_frustum_zx, angle_to_z_inverse_real L hsqrt hacos]
    split <;> ring
  have hzy : angle_zy L c = (if c.y < 0 then -Real.arccos (c.z / Real.sqrt (c.z ^ 2 + c.y ^ 2))
      else Real.arccos (c.z / Real.sqrt (c.z ^ 2 + c.y ^ 2))) := by
    simp only [angle_zy, center_frustum_zy, angle_to_z_inverse_real L hsqrt hacos]
    split <;> ring
  refine ⟨hzx, hzy, ?_, ?_, ?_, ?_, ?_, ?_⟩
  · rw [hzx]
    split
    · constructor <;> linarith
    · constructor <;> linarith
  · rw [hzy]
    split
    · constructor <;> linarith
    · constructor <;> linarith
  · rw [hzy]
    split
    · rename_i hneg
      rw [Real.tan_neg, y2, abs_of_neg hneg]
      ring
    · rename_i hnn
      rw [y2, abs_of_nonneg (not_lt.mp hnn)]
  · rw [hzx]
    split
    · rename_i hpos
      rw [Real.tan_neg, x2, abs_of_pos hpos]
      ring
    · rename_i hnp
      rw [x2, abs_of_nonpos (not_lt.mp hnp)]
  · intro h0
    rw [hzx, x3 h0]
    simp
  · intro h0
    rw [hzy, y3 h0]
    simp

/-- Witness of C18: the center frustum vector `(1/2, 0, 5/4)`; `angle_zx` is
negative with tangent `−2/5`, `angle_zy` is 0. -/
theorem C18_sign_correction_witness :
    Real.tan (angle_zx (lib_with Real.sqrt Real.arccos Real.cos Real.sin) ⟨1 / 2, 0, 5 / 4⟩)
        = -(1 / 2) / (5 / 4) ∧
      angle_zy (lib_with Real.sqrt Real.arccos Real.cos Real.sin) ⟨1 / 2, 0, 5 / 4⟩ = 0 := by
  have h := C18_sign_correction (lib_with Real.sqrt Real.arccos Real.cos Real.sin) rfl rfl
    ⟨1 / 2, 0, 5 / 4⟩ (by norm_num)
  exact ⟨h.2.2.2.2.2.1, h.2.2.2.2.2.2.2 rfl⟩

/-- C19. For an arbitrary plane model `(n, d)` read from
`ransac_model_coefficients_`, whose normal need not have unit length, and any
center vector `c` with `c·n ≠ 0`: whenever `calculate_pose_vector` returns, the
stored position `p` satisfies `n·p + d = d·(1 − n·n)`, hence `p` lies on the
plane `n·x + d = 0` if and only if `d = 0` or `n·n = 1`; and the call returns
as soon as the other two coefficient vectors have at least three entries. -/
theorem C19_position_off_plane_for_non_unit_normal (s : State K) (nx ny nz d : K)
    (hcoef : s.ransac_model_coefficients_ = [nx, ny, nz, d])
    (hdot : dot3 s.center_frustum_ ⟨nx, ny, nz⟩ ≠ 0) :
    (∀ s1, calculate_pose_vector s = Except.ok s1 →
      dot3 ⟨nx, ny, nz⟩ s1.plane_frustum_vector_intersect_ + d
        = d * (1 - dot3 ⟨nx, ny, nz⟩ ⟨nx, ny, nz⟩) ∧
      (dot3 ⟨nx, ny, nz⟩ s1.plane_frustum_vector_intersect_ + d = 0 ↔
        d = 0 ∨ dot3 ⟨nx, ny, nz⟩ ⟨nx, ny, nz⟩ = 1)) ∧
    (2 < s.second_ransac_model_coefficients_.length →
      2 < s.first_ransac_model_coefficients_.length →
      ∃ s1, calculate_pose_vector s = Except.ok s1) := by
  constructor
  · intro s1 h
    obtain ⟨nx1, ny1, nz1, d1, rest, hc, hp, -⟩ := calculate_pose_vector_ok s s1 h
    rw [hcoef] at hc
    simp only [List.cons.injEq] at hc
    obtain ⟨rfl, rfl, rfl, rfl, -⟩ := hc
    have heq : dot3 ⟨nx, ny, nz⟩ s1.plane_frustum_vector_intersect_ + d
        = d * (1 - dot3 ⟨nx, ny, nz⟩ ⟨nx, ny, nz⟩) := by
      rw [hp]
      simp only [dot3, scale3, distance_scalar, plane_orgin] at hdot ⊢
      field_simp
      ring
    refine ⟨heq, ?_⟩
    rw [heq, mul_eq_zero, sub_eq_zero]
    constructor
    · rintro (h0 | h1)
      · exact Or.inl h0
      · exact Or.inr h1.symm
    · rintro (h0 | h1)
      · exact Or.inl h0
      · exact Or.inr h1.symm
  · intro h2 h1
    exact calculate_pose_vector_total s (by rw [hcoef]; simp) h2 h1

/-- Witness of C19: the plane coefficients `(0, 0, 2, −5)` with the center
vector `(0, 0, 1)`; the stored position gives `n·p + d = 15 = d·(1 − n·n)`. -/
theorem C19_non_unit_normal_witness :
    ∃ s1, calculate_pose_vector (scaled_normal_state : State ℚ) = Except.ok s1 ∧
      dot3 ⟨0, 0, 2⟩ s1.plane_frustum_vector_intersect_ + -5 = 15 ∧
      ¬ (dot3 ⟨0, 0, 2⟩ s1.plane_frustum_vector_intersect_ + -5 = 0) := by
  have h := C19_position_off_plane_for_non_unit_normal (scaled_normal_state : State ℚ)
    0 0 2 (-5) rfl (by simp [dot3, scaled_normal_state])
  obtain ⟨s1, hs1⟩ := h.2 (by decide) (by decide)
  have h15 := (h.1 s1 hs1).1
  have hv : (-5 : ℚ) * (1 - dot3 ⟨0, 0, 2⟩ ⟨0, 0, 2⟩) = 15 := by
    simp [dot3]
    norm_num
  rw [hv] at h15
  refine ⟨s1, hs1, h15, ?_⟩
  rw [h15]
  norm_num

/-- C20. Over the reals, for every detection box (also of zero width or
height), every focal length `fx ≠ 0`, every detection vector scale `s > 0` and
every frame `f` of a run that started from a zero center vector: the norms of
the three corner rays used by `calculate_3d_crop` and the norms of the
projected center vectors `(cz, cy)` and `(cz, cx)` used by `edit_pointcloud`
are each at least `s`, and every divisor of an arccos argument (the products
of two norms) is strictly positive. -/
theorem C20_angle_divisors_positive (L : Lib ℝ) (hsqrt : L.sqrt = Real.sqrt)
    (cfg : Config ℝ) (_hfx : cfg.zed_k_matrix_ 0 ≠ 0) (hs : 0 < cfg.detection_vector_scale_)
    (s0 s1 : State ℝ) (pre : List (Frame ℝ)) (f : Frame ℝ)
    (h0 : s0.center_frustum_ = ⟨0, 0, 0⟩)
    (hrun : run_frames L cfg s0 pre = Except.ok s1) :
    (cfg.detection_vector_scale_ ≤ norm3 L (frustum_point cfg (from_image_center cfg
        (f.detection_output_struct_.x, f.detection_output_struct_.y))) ∧
     cfg.detection_vector_scale_ ≤ norm3 L (frustum_point cfg (from_image_center cfg
        (f.detection_output_struct_.x + f.detection_output_struct_.width,
         f.detection_output_struct_.y))) ∧
     cfg.detection_vector_scale_ ≤ norm3 L (frustum_point cfg (from_image_center cfg
        (f.detection_output_struct_.x,
         f.detection_output_struct_.y + f.detection_output_struct_.height)))) ∧
    (0 < norm3 L (frustum_point cfg (from_image_center cfg
        (f.detection_output_struct_.x, f.detection_output_struct_.y)))
      * norm3 L (frustum_point cfg (from_image_center cfg
        (f.detection_output_struct_.x + f.detection_output_struct_.width,
         f.detection_output_struct_.y))) ∧
     0 < norm3 L (frustum_point cfg (from_image_center cfg
        (f.detection_output_struct_.x, f.detection_output_struct_.y)))
      * norm3 L (frustum_point cfg (from_image_center cfg
        (f.detection_output_struct_.x,
         f.detection_output_struct_.y + f.detection_output_struct_.height)))) ∧
    (cfg.detection_vector_scale_
        ≤ norm2 L (center_frustum_zy (frustum_stage L cfg s1 f).center_frustum_) ∧
     cfg.detection_vector_scale_
        ≤ norm2 L (center_frustum_zx (frustum_stage L cfg s1 f).center_frustum_)) ∧
    (0 < norm2 L (z_inverse : ℝ × ℝ)
        * norm2 L (center_frustum_zy (frustum_stage L cfg s1 f).center_frustum_) ∧
     0 < norm2 L (z_inverse : ℝ × ℝ)
        * norm2 L (center_frustum_zx (frustum_stage L cfg s1 f).center_frustum_)) := by
  have hz1 : 0 ≤ s1.center_frustum_.z :=
    run_frames_center_z L cfg hs pre s0 s1 (by rw [h0]) hrun
  have hcz : cfg.detection_vector_scale_ ≤ (frustum_stage L cfg s1 f).center_frustum_.z := by
    rw [frustum_stage_center]
    show _ ≤ s1.center_frustum_.z / 4 + (arithmetic_mean (corner_rays cfg _)).z
    rw [arithmetic_mean_corner_z]
    have : 0 ≤ s1.center_frustum_.z / 4 := div_nonneg hz1 (by norm_num)
    linarith
  have hczpos : 0 < (frustum_stage L cfg s1 f).center_frustum_.z := lt_of_lt_of_le hs hcz
  have n0 := norm3_ge_z L hsqrt (frustum_point cfg (from_image_center cfg
    (f.detection_output_struct_.x, f.detection_output_struct_.y))) hs
  have n1 := norm3_ge_z L hsqrt (frustum_point cfg (from_image_center cfg
    (f.detection_output_struct_.x + f.detection_output_struct_.width,
     f.detection_output_struct_.y))) hs
  have n2 := norm3_ge_z L hsqrt (frustum_point cfg (from_image_center cfg
    (f.detection_output_struct_.x,
     f.detection_output_struct_.y + f.detection_output_struct_.height))) hs
  have m1 := norm2_ge_fst L hsqrt
    (center_frustum_zy (frustum_stage L cfg s1 f).center_frustum_) hczpos
  have m2 := norm2_ge_fst L hsqrt
    (center_frustum_zx (frustum_stage L cfg s1 f).center_frustum_) hczpos
  have hzy : cfg.detection_vector_scale_
      ≤ norm2 L (center_frustum_zy (frustum_stage L cfg s1 f).center_frustum_) :=
    le_trans hcz m1
  have hzx : cfg.detection_vector_scale_
      ≤ norm2 L (center_frustum_zx (frustum_stage L cfg s1 f).center_frustum_) :=
    le_trans hcz m2
  refine ⟨⟨n0, n1, n2⟩, ⟨?_, ?_⟩, ⟨hzy, hzx⟩, ?_, ?_⟩
  · exact mul_pos (lt_of_lt_of_le hs n0) (lt_of_lt_of_le hs n1)
  · exact mul_pos (lt_of_lt_of_le hs n0) (lt_of_lt_of_le hs n2)
  · rw [norm2_z_inverse L hsqrt, one_mul]
    exact lt_of_lt_of_le hs hzy
  · rw [norm2_z_inverse L hsqrt, one_mul]
    exact lt_of_lt_of_le hs hzx

/-- Witness of C20: the frame `point_box_frame 2` (width 0, height 0) after the
two warm-up frames of the example run; the divisors of the two orientation
angles are positive. -/
theorem C20_divisors_witness :
    ∃ s1, run_frames (lib_with Real.sqrt Real.arccos Real.cos Real.sin) example_config
        initial_state [idle_frame 0, idle_frame 1] = Except.ok s1 ∧
      0 < norm2 (lib_with Real.sqrt Real.arccos Real.cos Real.sin) (z_inverse : ℝ × ℝ)
        * norm2 (lib_with Real.sqrt Real.arccos Real.cos Real.sin)
          (center_frustum_zy (frustum_stage (lib_with Real.sqrt Real.arccos Real.cos Real.sin)
            example_config s1 (point_box_frame 2)).center_frustum_) ∧
      0 < norm2 (lib_with Real.sqrt Real.arccos Real.cos Real.sin) (z_inverse : ℝ × ℝ)
        * norm2 (lib_with Real.sqrt Real.arccos Real.cos Real.sin)
          (center_frustum_zx (frustum_stage (lib_with Real.sqrt Real.arccos Real.cos Real.sin)
            example_config s1 (point_box_frame 2)).center_frustum_) := by
  obtain ⟨s1, h1, -⟩ := warmup_run (lib_with Real.sqrt Real.arccos Real.cos Real.sin)
  exact ⟨s1, h1, (C20_angle_divisors_positive (lib_with Real.sqrt Real.arccos Real.cos Real.sin)
    rfl example_config (by norm_num [example_config]) (by norm_num [example_config])
    initial_state s1 [idle_frame 0, idle_frame 1] (point_box_frame 2) rfl h1).2.2.2⟩

/-- C21. For all angles `a` (angle_zy) and `b` (angle_zx), with a cosine and a
sine that satisfy `cos² + sin² = 1`, the frustum pose matrix
`camera_pose * rotation_red_pos_ccw a * rotation_green_pos_cw b` is a proper
rigid rotation: its upper-left 3×3 block `M` satisfies `Mᵀ M = I` and
`det M = 1`, its translation column is zero and its last row is `(0, 0, 0, 1)`;
and the pose that `edit_pointcloud` hands to the culling filter is this product
at the sign-corrected angles of the center frustum vector, hence a proper rigid
rotation in every state. -/
theorem C21_frustum_pose_is_proper_rotation (L : Lib K)
    (hcs : ∀ x, L.cos x ^ 2 + L.sin x ^ 2 = 1) (a b : K) :
    proper_rigid_rotation (camera_pose * rotation_red_pos_ccw L a * rotation_green_pos_cw L b) ∧
    ∀ (cfg : Config K) (s : State K),
      (frustum_of L cfg s).camera_pose =
        camera_pose * rotation_red_pos_ccw L (angle_zy L s.center_frustum_)
          * rotation_green_pos_cw L (angle_zx L s.center_frustum_) ∧
      proper_rigid_rotation (frustum_of L cfg s).camera_pose := by
  have key : ∀ a b : K, proper_rigid_rotation
      (camera_pose * rotation_red_pos_ccw L a * rotation_green_pos_cw L b) := by
    intro a b
    have ha := hcs a
    have hb := hcs b
    rw [frustum_pose_entries]
    refine ⟨?_, ?_, ?_, ?_⟩
    · ext i j
      fin_cases i <;> fin_cases j <;>
        simp [upper_left_block, Matrix.mul_apply, Fin.sum_univ_succ] <;>
        first
          | ring1
          | linear_combination ha
          | linear_combination hb + L.cos b ^ 2 * ha
          | linear_combination hb + L.sin b ^ 2 * ha
          | linear_combination (-(L.sin b * L.cos b)) * ha
    · rw [Matrix.det_fin_three]
      simp [upper_left_block]
      linear_combination hb + (L.cos b ^ 2 + L.sin b ^ 2) * ha
    · simp
    · simp
  exact ⟨key a b, fun cfg s => ⟨rfl, key _ _⟩⟩
/-- Witness of C21: the real cosine and sine, at the angles 1 and 2. -/
theorem C21_proper_rotation_witness :
    proper_rigid_rotation
      (camera_pose * rotation_red_pos_ccw (lib_with Real.sqrt Real.arccos Real.cos Real.sin) 1
        * rotation_green_pos_cw (lib_with Real.sqrt Real.arccos Real.cos Real.sin) 2) :=
  (C21_frustum_pose_is_proper_rotation (lib_with Real.sqrt Real.arccos Real.cos Real.sin)
    (fun x => Real.cos_sq_add_sin_sq x) 1 2).1

end Claims

end PoseEstimation
